import Mathlib

/-! # Controller session state machine of the dataplane master thread

A shallow embedding of `src/src/master.c`: the per-source session state
(`master_state`), the retry/backoff bookkeeping (`master_time`), the lists of
expected responses and of stashed snapshot messages, and the functions that
drive them (`master_state_set`, `master_cleanup`, `reset_timer_event`,
`reset_dataplane`, `async_response`, `setup_interfaces`, the switch of
`master_loop`, `master_control_intf`, `soft_clock_event`).

Conventions
* C arrays indexed by `enum cont_src_en` are values of `per_src`.
* `uint64_t` / `uint32_t` fields are `Nat`; every C arithmetic operation on
  them is followed by an explicit `% 2 ^ 64` / `% 2 ^ 32`.
* Functions of other modules that master.c calls only for their effect
  (`console_unbind`, `rt_flush_all`, ...) are recorded, in call order, in
  the `calls` trace of the state.
* `is_local_controller()` and `rte_get_timer_hz()` are read from `Env`.
-/

namespace Master

/-! ## Data model -/

/-- Control sources, `enum cont_src_en` (CONT_SRC_COUNT = 2). -/
inductive cont_src_en where
  | CONT_SRC_MAIN
  | CONT_SRC_UPLINK
  deriving DecidableEq

/-- Session states, `enum master_state_en`, in source order. -/
inductive master_state_en where
  | MASTER_IDLE
  | MASTER_SETUP
  | MASTER_RESYNC_NEEDED
  | MASTER_CONNECT
  | MASTER_CONNECT_WAIT
  | MASTER_SOCKET_CREATE
  | MASTER_RESYNC
  | MASTER_READY
  | MASTER_RESET
  deriving DecidableEq

open cont_src_en master_state_en

/-- Integer value of each enumerator of `enum master_state_en`. -/
def master_state_en.toNat : master_state_en → Nat
  | MASTER_IDLE => 0
  | MASTER_SETUP => 1
  | MASTER_RESYNC_NEEDED => 2
  | MASTER_CONNECT => 3
  | MASTER_CONNECT_WAIT => 4
  | MASTER_SOCKET_CREATE => 5
  | MASTER_RESYNC => 6
  | MASTER_READY => 7
  | MASTER_RESET => 8

/-- Number of states: `#define MASTER_COUNT (MASTER_RESET + 1)`. -/
def MASTER_COUNT : Nat := MASTER_RESET.toNat + 1

/-- Values that master.c reads from its environment and never writes. -/
structure Env where
  /-- Result of `is_local_controller()`. -/
  is_local_controller : Bool
  /-- Result of `rte_get_timer_hz()` (a `uint64_t`). -/
  timer_hz : Nat
  deriving DecidableEq

/-- A C array with one slot per control source. -/
structure per_src (α : Type) where
  main : α
  uplink : α

/-- Array read `a[cont_src]`. -/
def per_src.get {α : Type} (a : per_src α) : cont_src_en → α
  | CONT_SRC_MAIN => a.main
  | CONT_SRC_UPLINK => a.uplink

/-- Array write `a[cont_src] = v`. -/
def per_src.set {α : Type} (a : per_src α) (i : cont_src_en) (v : α) : per_src α :=
  match i with
  | CONT_SRC_MAIN => { a with main := v }
  | CONT_SRC_UPLINK => { a with uplink := v }

/-- Callback and argument a timer was armed with. -/
inductive timer_fn where
  | reset_timer_event (cont_src : cont_src_en)
  | connect_timeout (cont_src : cont_src_en)
  | snapshot_timeout (cont_src : cont_src_en)
  | expire_response (rsp_cont_src : cont_src_en) (portid : Nat) (seqno : Nat)
  deriving DecidableEq

/-- The part of `struct rte_timer` master.c depends on: whether the timer is
pending, the tick count it was armed with, and its callback. -/
structure rte_timer where
  pending : Bool
  ticks : Nat
  f : Option timer_fn
  deriving DecidableEq

/-- Effect of `rte_timer_init(tim)`. -/
def rte_timer_init : rte_timer := { pending := false, ticks := 0, f := none }

/-- Effect of `rte_timer_reset(tim, ticks, SINGLE, lcore, fct, arg)`: the timer
is stopped if it was pending and armed afresh. -/
def rte_timer_reset (_tim : rte_timer) (ticks : Nat) (fct : timer_fn) : rte_timer :=
  { pending := true, ticks := ticks, f := some fct }

/-- Effect of `rte_timer_stop(tim)`. -/
def rte_timer_stop (tim : rte_timer) : rte_timer := { tim with pending := false }

/-- Record `struct master_time_s`. -/
structure master_time_s where
  reset_timer : rte_timer
  connect_timer : rte_timer
  snapshot_timer : rte_timer
  retry_delay : Nat
  connect_timeout : Nat
  resync_timeout : Nat
  deriving DecidableEq

/-- Record `struct response`: an expected asynchronous response. -/
structure response where
  portid : Nat
  seqno : Nat
  is_teardown : Bool
  timer : rte_timer
  rsp_cont_src : cont_src_en
  deriving DecidableEq

/-- A message frame: its bytes. -/
abbrev zframe_t := List Nat

/-- A multi-part message: its frames. -/
abbrev zmsg_t := List zframe_t

/-- Calls into other modules, recorded for their place in the call order. -/
inductive ext_call where
  | console_unbind (cont_src : cont_src_en)
  | controller_unsubscribe (cont_src : cont_src_en)
  | route_broker_unsubscribe (cont_src : cont_src_en)
  | dp_event_reset_config (cont_src : cont_src_en)
  | lladdr_flush_all (cont_src : cont_src_en)
  | rt_flush_all (cont_src : cont_src_en)
  | rt6_flush_all (cont_src : cont_src_en)
  | if_cleanup (cont_src : cont_src_en)
  | rte_timer_stop (cont_src : cont_src_en) (portid : Nat) (seqno : Nat)
  | if_set_cont_src (portid : Nat) (cont_src : cont_src_en)
  | if_rename (portid : Nat) (ifname : List Nat)
  | if_set_ifindex (portid : Nat) (ifindex : Nat)
  | if_finish_create (portid : Nat) (is_team : Bool)
  | shadow_init_port (if_port : Nat) (ifname : List Nat)
  | rte_eth_dev_get_name_by_port (if_port : Nat)
  | detach_device (port_name : List Nat)
  | dpmsg_convert_zmsg (msg : zmsg_t)
  | process_ready_msg (cont_src : cont_src_en) (msg : zmsg_t)
  | process_snapshot_one (cont_src : cont_src_en) (msg : zmsg_t)
  | controller_init_event_handler (cont_src : cont_src_en)
  | route_broker_init_event_handler (cont_src : cont_src_en)
  | new_port_request (cont_src : cont_src_en) (seqno : Nat) (portid : Nat)
  | del_port_request (cont_src : cont_src_en) (seqno : Nat) (portid : Nat)
  | console_bind (cont_src : cont_src_en)
  | init_controller_connection (cont_src : cont_src_en)
  | init_route_broker_ctrl_connection (cont_src : cont_src_en)
  | try_controller_response (cont_src : cont_src_en)
  | conf_query (cont_src : cont_src_en)
  | controller_init (cont_src : cont_src_en)
  | dp_unregister_event_socket (cont_src : cont_src_en)
  | register_event_socket_src (cont_src : cont_src_en)
  | controller_snapshot (cont_src : cont_src_en)
  | default_endpoint_dataplane
  | free_console_url
  deriving DecidableEq

/-- The file-scope variables of master.c, together with `running`. -/
structure State where
  /-- Static `master_state[CONT_SRC_COUNT]` inside `master_state_info`. -/
  master_state : per_src master_state_en
  /-- Counters `master_state_stats[cont_src].state_in[state]`. -/
  master_state_stats : per_src (master_state_en → Nat)
  master_time : per_src master_time_s
  response_list : per_src (List response)
  resync_list : per_src (List zmsg_t)
  control_addr : Bool
  running : Bool
  soft_ticks : Nat
  soft_clock_override : Nat
  calls : List ext_call

/-- Record `struct ifnet`, reduced to what master.c reads of a port. -/
structure ifnet where
  if_port : Nat
  if_index : Nat
  /-- Result of `is_team(ifp)`. -/
  is_team : Bool
  deriving DecidableEq

/-- Data and results that master.c obtains from other modules: tables it
reads and the outcomes of the calls it makes.  An outcome is a function of the
arguments of the call. -/
structure Collab where
  /-- Constant `DATAPLANE_MAX_PORTS`. -/
  DATAPLANE_MAX_PORTS : Nat
  /-- Global `nb_ports`. -/
  nb_ports : Nat
  /-- Table `ifport_table[portid]`; `none` is a NULL entry. -/
  ifport_table : Nat → Option ifnet
  /-- Result of `if_port_is_uplink(portid)`. -/
  if_port_is_uplink : Nat → Bool
  /-- Result of `cont_src_ifindex(cont_src, ifindex)`. -/
  cont_src_ifindex : cont_src_en → Nat → Nat
  /-- Result of `shadow_init_port(port, ifname, eth_addr)`. -/
  shadow_init_port : Nat → List Nat → Int
  /-- Name found by `rte_eth_dev_get_name_by_port(port, name)`; `none` when it
  returns a negative value. -/
  rte_eth_dev_get_name_by_port : Nat → Option (List Nat)
  /-- Result of `detach_device(name)`. -/
  detach_device : List Nat → Int
  /-- Result of `dpmsg_convert_zmsg(msg, &dpmsg)`. -/
  dpmsg_convert_zmsg : zmsg_t → Int
  /-- Result of `process_ready_msg(cont_src, &dpmsg)` on the converted message. -/
  process_ready_msg : cont_src_en → zmsg_t → Int
  /-- Result and `eof` flag of `process_snapshot_one(cont_src, &dpmsg, &eof)` on
  the converted message. -/
  process_snapshot_one : cont_src_en → zmsg_t → Int × Bool
  /-- Whether `malloc(sizeof(struct response))` for the given port succeeds. -/
  malloc_response : Nat → Bool
  /-- Whether `zmsg_new()` succeeds when the request for the given port is built. -/
  zmsg_new : Nat → Bool
  /-- Whether `if_port_info(ifp)` returns a string for the given port. -/
  if_port_info : Nat → Bool
  /-- Result of `console_bind(cont_src)`. -/
  console_bind : cont_src_en → Int
  /-- Whether `config.request_url` starts with "ipc". -/
  request_url_ipc : Bool
  /-- Whether `get_vrf(VRF_UPLINK_ID)` is non-NULL. -/
  uplink_vrf : Bool
  /-- Interface found by the `nhif_dst_lookup` / `nhif_dst_lookup6` call of
  `check_uplink_route`, as the result of `if_is_uplink` on it; `none` is NULL. -/
  nhif_dst_lookup : Option Bool
  /-- Result of `init_controller_connection(socket, cont_src)`. -/
  init_controller_connection : cont_src_en → Int
  /-- Result of `init_route_broker_ctrl_connection(socket, cont_src)`. -/
  init_route_broker_ctrl_connection : cont_src_en → Int
  /-- Result of `try_controller_response(socket, cont_src)`. -/
  try_controller_response : cont_src_en → Int
  /-- Result of `controller_snapshot(cont_src)`. -/
  controller_snapshot : cont_src_en → Int
  /-- Value returned by the `random()` call of `setup_interfaces` in the Setup
  state. -/
  random : Nat

/-! ## Constants -/

def EAGAIN : Int := 11
def ENOMEM : Int := 12
def EINVAL : Int := 22

def SOFT_CLOCK_HZ : Nat := 100
def RETRY_MIN_SEC : Nat := 10
def RETRY_MAX_DELAY_SEC : Nat := 40
def CONNECT_TIMEOUT : Nat := 5
def RESYNC_TIMEOUT : Nat := 300

/-- Macro `RETRY_MIN_TICKS`: `RETRY_MIN_SEC * rte_get_timer_hz()` in `uint64_t`. -/
def RETRY_MIN_TICKS (env : Env) : Nat := (RETRY_MIN_SEC * env.timer_hz) % 2 ^ 64

/-- Macro `RETRY_MAX_DELAY_TICKS`: `RETRY_MAX_DELAY_SEC * rte_get_timer_hz()` in
`uint64_t`. -/
def RETRY_MAX_DELAY_TICKS (env : Env) : Nat := (RETRY_MAX_DELAY_SEC * env.timer_hz) % 2 ^ 64

/-! ## Session state access -/

/-- Function `master_state_info`: optionally stores `new_state`, then returns
the stored state.  The range check that ends in `rte_panic` cannot fail on a
value of `master_state_en`. -/
def master_state_info (st : State) (cont_src : cont_src_en) (new_state : master_state_en)
    (set : Bool) : State × master_state_en :=
  let st1 := if set then { st with master_state := st.master_state.set cont_src new_state }
    else st
  (st1, st1.master_state.get cont_src)

/-- Function `master_state_get`. -/
def master_state_get (st : State) (cont_src : cont_src_en) : master_state_en :=
  (master_state_info st cont_src MASTER_IDLE false).2

/-- Loop `while ((x = zlist_pop(list)) != NULL) { ...; free(x); }`: what is left
of the list. -/
def zlist_pop_all {α : Type} : List α → List α
  | [] => []
  | _ :: rest => zlist_pop_all rest

/-- Function `cleanup_responses`. -/
def cleanup_responses (st : State) (cont_src : cont_src_en) : State :=
  { st with response_list :=
      st.response_list.set cont_src (zlist_pop_all (st.response_list.get cont_src)) }

/-- Function `cleanup_resync`. -/
def cleanup_resync (st : State) (cont_src : cont_src_en) : State :=
  { st with resync_list :=
      st.resync_list.set cont_src (zlist_pop_all (st.resync_list.get cont_src)) }

/-- Function `master_cleanup`. -/
def master_cleanup (env : Env) (st : State) (cont_src : cont_src_en) : State :=
  if env.is_local_controller then st
  else
    let st1 := { st with calls := st.calls ++
      [ext_call.console_unbind cont_src, ext_call.controller_unsubscribe cont_src,
       ext_call.route_broker_unsubscribe cont_src] }
    cleanup_resync (cleanup_responses st1 cont_src) cont_src

/-- Assignment `master_time[cont_src].retry_delay = v`. -/
def set_retry_delay (st : State) (cont_src : cont_src_en) (v : Nat) : State :=
  let mt := st.master_time.get cont_src
  let mt1 := { mt with retry_delay := v }
  { st with master_time := st.master_time.set cont_src mt1 }

/-- Lines 265-282 of `master_state_set`: store the new state, count the entry,
and run the entry actions of the main source. -/
def master_state_set_store (env : Env) (st : State) (cont_src : cont_src_en)
    (new_state : master_state_en) : State :=
  let st1 := (master_state_info st cont_src new_state true).1
  let stats := st1.master_state_stats.get cont_src
  let stats1 : master_state_en → Nat :=
    fun s => if s = new_state then (stats s + 1) % 2 ^ 32 else stats s
  let st2 := { st1 with master_state_stats := st1.master_state_stats.set cont_src stats1 }
  if env.is_local_controller = false ∧ cont_src = CONT_SRC_MAIN then
    match master_state_get st2 cont_src with
    | MASTER_IDLE => master_cleanup env st2 cont_src
    | MASTER_READY => set_retry_delay st2 cont_src (RETRY_MIN_TICKS env)
    | _ => st2
  else st2

/-- Function `master_state_set`.  The nested call
`master_state_set(CONT_SRC_MAIN, MASTER_IDLE)` is written out: inside it the
test `cont_src == CONT_SRC_UPLINK` is false, so it is its early return followed
by lines 265-282. -/
def master_state_set (env : Env) (st : State) (cont_src : cont_src_en)
    (new_state : master_state_en) : State :=
  if master_state_get st cont_src = new_state then st
  else
    let st1 :=
      if cont_src = CONT_SRC_UPLINK ∧ master_state_get st cont_src = MASTER_READY then
        (if master_state_get st CONT_SRC_MAIN = MASTER_IDLE then st
         else master_state_set_store env st CONT_SRC_MAIN MASTER_IDLE)
      else st
    master_state_set_store env st1 cont_src new_state

/-- Function `master_state_is_event_ready`. -/
def master_state_is_event_ready (st : State) (cont_src : cont_src_en) : Bool :=
  decide ((master_state_get st cont_src).toNat ≥ MASTER_RESYNC.toNat)

/-- Function `master_state_all_event_ready`. -/
def master_state_all_event_ready (st : State) : Bool :=
  master_state_is_event_ready st CONT_SRC_MAIN && master_state_is_event_ready st CONT_SRC_UPLINK

/-! ## Retry and backoff -/

/-- Function `reset_timer_event`. -/
def reset_timer_event (env : Env) (st : State) (cont_src : cont_src_en) : State :=
  if env.is_local_controller = true ∨ cont_src = CONT_SRC_UPLINK then
    { st with running := false }
  else if (st.master_time.get cont_src).retry_delay > RETRY_MAX_DELAY_TICKS env then
    { st with running := false }
  else
    let st1 := set_retry_delay st cont_src
      (((st.master_time.get cont_src).retry_delay + RETRY_MIN_TICKS env) % 2 ^ 64)
    master_state_set env st1 cont_src MASTER_IDLE

/-- Lines 431-438 of `reset_dataplane`: enter MASTER_RESET, then flush the old
state through the other modules. -/
def reset_dataplane_flushed (env : Env) (st : State) (cont_src : cont_src_en) : State :=
  let st1 := master_state_set env st cont_src MASTER_RESET
  { st1 with calls := st1.calls ++
    [ext_call.dp_event_reset_config cont_src, ext_call.lladdr_flush_all cont_src,
     ext_call.rt_flush_all cont_src, ext_call.rt6_flush_all cont_src,
     ext_call.if_cleanup cont_src] }

/-- Function `reset_dataplane`. -/
def reset_dataplane (env : Env) (st : State) (cont_src : cont_src_en) (delay : Bool) : State :=
  let st2 := reset_dataplane_flushed env st cont_src
  let mt := st2.master_time.get cont_src
  if delay then
    let tim := rte_timer_reset mt.reset_timer mt.retry_delay
      (timer_fn.reset_timer_event cont_src)
    let mt1 := { mt with reset_timer := tim }
    { st2 with master_time := st2.master_time.set cont_src mt1 }
  else
    let st3 := set_retry_delay st2 cont_src (RETRY_MIN_TICKS env)
    reset_timer_event env st3 cont_src

/-- Function `connect_timeout`. -/
def connect_timeout (env : Env) (st : State) (cont_src : cont_src_en) : State :=
  if master_state_get st cont_src = MASTER_CONNECT_WAIT then reset_dataplane env st cont_src true
  else st

/-- Function `snapshot_timeout`. -/
def snapshot_timeout (env : Env) (st : State) (cont_src : cont_src_en) : State :=
  if master_state_get st cont_src = MASTER_RESYNC then reset_dataplane env st cont_src true
  else st

/-- Function `expire_response`, applied to a response owned by `rsp_cont_src`. -/
def expire_response (env : Env) (st : State) (rsp_cont_src : cont_src_en) : State :=
  reset_dataplane env st rsp_cont_src true

/-- Invocation of a timer callback with the argument captured when it was armed. -/
def timer_fn.run (env : Env) (st : State) : timer_fn → State
  | timer_fn.reset_timer_event cont_src => Master.reset_timer_event env st cont_src
  | timer_fn.connect_timeout cont_src => Master.connect_timeout env st cont_src
  | timer_fn.snapshot_timeout cont_src => Master.snapshot_timeout env st cont_src
  | timer_fn.expire_response rsp_cont_src _ _ => Master.expire_response env st rsp_cont_src

/-- First half of the expiry of the reset timer of `cont_src`: the timer leaves
the pending state. -/
def reset_timer_stopped (st : State) (cont_src : cont_src_en) : State :=
  let mt := st.master_time.get cont_src
  let mt1 := { mt with reset_timer := rte_timer_stop mt.reset_timer }
  { st with master_time := st.master_time.set cont_src mt1 }

/-- What `rte_timer_manage()` does for the one-shot reset timer of `cont_src`
once it has expired: the timer leaves the pending state, then its callback
runs.  A timer that is not pending does not fire. -/
def reset_timer_fire (env : Env) (st : State) (cont_src : cont_src_en) : State :=
  let tim := (st.master_time.get cont_src).reset_timer
  if tim.pending then
    match tim.f with
    | some fct => fct.run env (reset_timer_stopped st cont_src)
    | none => reset_timer_stopped st cont_src
  else st

/-- Function `reset_dataplane(cont_src, true)` issued `k` times in a row. -/
def reset_dataplane_delayed_n (env : Env) (st : State) (cont_src : cont_src_en) : Nat → State
  | 0 => st
  | k + 1 => reset_dataplane env (reset_dataplane_delayed_n env st cont_src k) cont_src true

/-! ## Asynchronous responses -/

/-- Assignment of the list `resync_list[cont_src]`. -/
def with_resync_list (st : State) (cont_src : cont_src_en) (queue : List zmsg_t) : State :=
  { st with resync_list := st.resync_list.set cont_src queue }

/-- Assignment of the list `response_list[cont_src]`. -/
def with_response_list (st : State) (cont_src : cont_src_en) (l : List response) : State :=
  { st with response_list := st.response_list.set cont_src l }

/-- Append `cs` to the record of calls into other modules. -/
def record (st : State) (cs : List ext_call) : State :=
  { st with calls := st.calls ++ cs }

/-- C string that `zmsg_popstr` / `zframe_strdup` makes of a frame: its bytes up
to the first NUL. -/
def zframe_strdup (f : zframe_t) : List Nat := f.takeWhile (fun b => decide (b ≠ 0))

/-- The string "OK". -/
def str_OK : List Nat := [79, 75]

/-- Value a `memcpy` of the bytes of a frame gives an unsigned integer on a
little-endian host. -/
def uint_of_bytes : List Nat → Nat
  | [] => 0
  | b :: rest => b % 256 + 256 * uint_of_bytes rest

/-- Function `find_response`: the first expected response of the source with
the given sequence number. -/
def find_response (st : State) (cont_src : cont_src_en) (seqno : Nat) : Option response :=
  (st.response_list.get cont_src).find? (fun rsp => decide (rsp.seqno = seqno))

/-- Modelled from the spec: `zmsg_popu64` is not in master.c; the reply carries
`seq:uint64`, so the next frame is taken off the message and the call fails
when there is none or it is not exactly 8 bytes long. -/
def zmsg_popu64 : zmsg_t → Option Nat × zmsg_t
  | [] => (none, [])
  | f :: rest => if f.length = 8 then (some (uint_of_bytes f), rest) else (none, rest)

/-- Modelled from the spec: `zmsg_popu32` is not in master.c; the reply carries
`ifIndex:uint32`, so the next frame is taken off the message and the call fails
when there is none or it is not exactly 4 bytes long. -/
def zmsg_popu32 : zmsg_t → Option Nat × zmsg_t
  | [] => (none, [])
  | f :: rest => if f.length = 4 then (some (uint_of_bytes f), rest) else (none, rest)

/-- Function `new_port_response`.  The result `none` is the return value
`-EINVAL` (with `*ifindex = 0` and `*ifname = NULL`); `some (ifindex, ifname)`
is the return value 0 with the two outputs. -/
def new_port_response (c : Collab) (cont_src : cont_src_en) (msg : zmsg_t) :
    Option (Nat × List Nat) :=
  match msg with
  | [] => none
  | answer :: msg1 =>
    if zframe_strdup answer ≠ str_OK then none
    else
      match zmsg_popu64 msg1 with
      | (none, _) => none
      | (some _, msg2) =>
        match zmsg_popu32 msg2 with
        | (none, _) => none
        | (some ifindex, msg3) =>
          match msg3 with
          | [] => none
          | ifname :: _ =>
            some (c.cont_src_ifindex cont_src ifindex % 2 ^ 32, zframe_strdup ifname)

/-- Calls that `handle_port_response` makes, in order. -/
def handle_port_response_calls (c : Collab) (cont_src : cont_src_en) (rsp : response)
    (ifindex : Nat) (ifname : List Nat) : List ext_call :=
  if ifindex ≠ 0 then
    match c.ifport_table rsp.portid with
    | none => []
    | some ifp =>
      [ext_call.if_set_cont_src rsp.portid cont_src, ext_call.if_rename rsp.portid ifname,
       ext_call.if_set_ifindex rsp.portid ifindex,
       ext_call.if_finish_create rsp.portid ifp.is_team,
       ext_call.shadow_init_port ifp.if_port ifname] ++
      (if c.shadow_init_port ifp.if_port ifname < 0 then
        [ext_call.rte_eth_dev_get_name_by_port ifp.if_port] ++
        (match c.rte_eth_dev_get_name_by_port ifp.if_port with
         | none => []
         | some port_name => [ext_call.detach_device port_name])
       else [])
  else []

/-- Function `handle_port_response`: everything it does is a call into the
interface, shadow and hotplug modules. -/
def handle_port_response (c : Collab) (st : State) (cont_src : cont_src_en) (rsp : response)
    (ifindex : Nat) (ifname : List Nat) : State :=
  record st (handle_port_response_calls c cont_src rsp ifindex ifname)

/-- Function `process_ready`: the state afterwards and the return value. -/
def process_ready (c : Collab) (st : State) (cont_src : cont_src_en) (msg : zmsg_t) :
    State × Int :=
  let st1 := record st [ext_call.dpmsg_convert_zmsg msg]
  if c.dpmsg_convert_zmsg msg ≥ 0 then
    (record st1 [ext_call.process_ready_msg cont_src msg], c.process_ready_msg cont_src msg)
  else (st1, c.dpmsg_convert_zmsg msg)

/-- The `while` loop at the end of `async_response`, run on the messages
`queue` that `resync_list[cont_src]` holds when the loop is entered.  Each
round tests that no response is expected, pops the head, converts and applies
it. -/
def async_response_drain (env : Env) (c : Collab) (cont_src : cont_src_en) :
    List zmsg_t → State → State
  | [], st => st
  | msg2 :: rest, st =>
    if (st.response_list.get cont_src).length = 0 then
      let st1 := with_resync_list st cont_src rest
      let st2 := record st1 [ext_call.dpmsg_convert_zmsg msg2]
      if c.dpmsg_convert_zmsg msg2 < 0 then reset_dataplane env st2 cont_src true
      else
        let st3 := record st2 [ext_call.process_snapshot_one cont_src msg2]
        if (c.process_snapshot_one cont_src msg2).1 < 0 then
          reset_dataplane env st3 cont_src true
        else if (c.process_snapshot_one cont_src msg2).2 then
          let st4 := record (master_state_set env st3 cont_src MASTER_READY)
            [ext_call.controller_init_event_handler cont_src,
             ext_call.route_broker_init_event_handler cont_src]
          async_response_drain env c cont_src rest st4
        else async_response_drain env c cont_src rest st3
    else st

/-- Lines 553-568 of `async_response`: the message answers the expected
response `rsp`. -/
def async_response_matched (c : Collab) (st : State) (cont_src : cont_src_en)
    (rsp : response) (msg : zmsg_t) : State :=
  let st1 :=
    if rsp.is_teardown then st
    else
      let st0 :=
        match new_port_response c cont_src msg with
        | some (ifindex, ifname) => handle_port_response c st cont_src rsp ifindex ifname
        | none => st
      record st0 [ext_call.rte_timer_stop cont_src rsp.portid rsp.seqno]
  with_response_list st1 cont_src ((st1.response_list.get cont_src).erase rsp)

/-- Function `async_response` once `zmsg_recv` has returned the message `msg`. -/
def async_response_msg (env : Env) (c : Collab) (st : State) (cont_src : cont_src_en)
    (msg : zmsg_t) : State :=
  if msg.length < 2 then reset_dataplane env st cont_src true
  else if (msg.getD 1 []).length ≠ 8 then reset_dataplane env st cont_src true
  else
    match find_response st cont_src (uint_of_bytes (msg.getD 1 [])) with
    | some rsp =>
      let st1 := async_response_matched c st cont_src rsp msg
      async_response_drain env c cont_src (st1.resync_list.get cont_src) st1
    | none =>
      if master_state_get st cont_src = MASTER_RESYNC then
        let st1 := with_resync_list st cont_src (st.resync_list.get cont_src ++ [msg])
        async_response_drain env c cont_src (st1.resync_list.get cont_src) st1
      else
        let r := process_ready c st cont_src msg
        if r.2 < 0 then reset_dataplane env r.1 cont_src true else r.1

/-- Function `async_response`: `recv` is what `zmsg_recv` returns (`none` for
NULL); the result is the state afterwards and the return value. -/
def async_response (env : Env) (c : Collab) (st : State) (cont_src : cont_src_en)
    (recv : Option zmsg_t) : State × Int :=
  match recv with
  | none => (st, -1)
  | some msg => (async_response_msg env c st cont_src msg, 0)

/-- Inbound messages handled by `async_response` one after the other. -/
def async_response_seq (env : Env) (c : Collab) (cont_src : cont_src_en) :
    List zmsg_t → State → State
  | [], st => st
  | msg :: rest, st =>
    async_response_seq env c cont_src rest (async_response env c st cont_src (some msg)).1

/-! ## Port registration -/

/-- Function `new_port_request` for the port `portid`: the state afterwards and
the return value. -/
def new_port_request (c : Collab) (st : State) (cont_src : cont_src_en) (seqno : Nat)
    (portid : Nat) : State × Int :=
  if c.zmsg_new portid = false then (st, -ENOMEM)
  else if c.if_port_info portid = false then (st, -ENOMEM)
  else (record st [ext_call.new_port_request cont_src seqno portid], 0)

/-- Function `del_port_request` for the port `portid`. -/
def del_port_request (c : Collab) (st : State) (cont_src : cont_src_en) (seqno : Nat)
    (portid : Nat) : State :=
  if c.zmsg_new portid = false then st
  else record st [ext_call.del_port_request cont_src seqno portid]

/-- Lines 863-872 of `setup_interfaces`: the entry `expected` once filled in,
`delay` being `master_time[cont_src].retry_delay`. -/
def expected_response (cont_src : cont_src_en) (is_teardown : Bool) (delay : Nat)
    (portid : Nat) (seqno : Nat) : response :=
  { portid := portid
    seqno := seqno
    is_teardown := is_teardown
    timer :=
      if is_teardown then rte_timer_init
      else rte_timer_reset rte_timer_init delay (timer_fn.expire_response cont_src portid seqno)
    rsp_cont_src := cont_src }

/-- The `for` loop of `setup_interfaces` over the port ids `ports`, entered with
the counter `seqno`: the state afterwards and the value the function returns. -/
def setup_interfaces_loop (env : Env) (c : Collab) (cont_src : cont_src_en)
    (is_teardown : Bool) : List Nat → Nat → State → State × Int
  | [], _, st => (st, 0)
  | portid :: rest, seqno, st =>
    match c.ifport_table portid with
    | none => setup_interfaces_loop env c cont_src is_teardown rest seqno st
    | some ifp =>
      if env.is_local_controller = false
          ∧ (if c.if_port_is_uplink portid = true then cont_src ≠ CONT_SRC_UPLINK
             else cont_src ≠ CONT_SRC_MAIN) then
        setup_interfaces_loop env c cont_src is_teardown rest seqno st
      else if ifp.is_team = true then
        setup_interfaces_loop env c cont_src is_teardown rest seqno st
      else if c.malloc_response portid = false then
        setup_interfaces_loop env c cont_src is_teardown rest seqno st
      else
        let seqno1 := (seqno + 1) % 2 ^ 64
        let expected := expected_response cont_src is_teardown
          (st.master_time.get cont_src).retry_delay portid seqno1
        if is_teardown = true then
          let st1 := del_port_request c st cont_src seqno1 portid
          setup_interfaces_loop env c cont_src is_teardown rest seqno1
            (with_response_list st1 cont_src (st1.response_list.get cont_src ++ [expected]))
        else
          let r := new_port_request c st cont_src seqno1 portid
          if r.2 ≠ 0 then (r.1, -1)
          else
            setup_interfaces_loop env c cont_src is_teardown rest seqno1
              (with_response_list r.1 cont_src (r.1.response_list.get cont_src ++ [expected]))

/-- Function `setup_interfaces`; `seed` is the value its `random()` call
returns.  The parameters `startid` and `num_ports` are `uint8_t`. -/
def setup_interfaces (env : Env) (c : Collab) (st : State) (startid num_ports : Nat)
    (cont_src : cont_src_en) (is_teardown : Bool) (seed : Nat) : State × Int :=
  if startid % 256 + num_ports % 256 > c.DATAPLANE_MAX_PORTS then (st, -1)
  else
    setup_interfaces_loop env c cont_src is_teardown
      (List.range' (startid % 256) (num_ports % 256)) (seed % 2 ^ 64) st

/-- Function `setup_interface`. -/
def setup_interface (env : Env) (c : Collab) (st : State) (portid : Nat) (is_teardown : Bool)
    (seed : Nat) : State × Int :=
  setup_interfaces env c st portid 1 CONT_SRC_MAIN is_teardown seed

/-- Function `setup_interface_portid`. -/
def setup_interface_portid (env : Env) (c : Collab) (st : State) (portid : Nat) (seed : Nat) :
    State × Int :=
  setup_interface env c st portid false seed

/-- Function `teardown_interface_portid`. -/
def teardown_interface_portid (env : Env) (c : Collab) (st : State) (portid : Nat) (seed : Nat) :
    State × Int :=
  setup_interface env c st portid true seed

/-- Whether a port exists, belongs to the source and is not a team port: the
ports `setup_interfaces` does not pass over before allocating. -/
def port_eligible (env : Env) (c : Collab) (cont_src : cont_src_en) (portid : Nat) : Bool :=
  match c.ifport_table portid with
  | none => false
  | some ifp =>
    (env.is_local_controller ||
      (if c.if_port_is_uplink portid then decide (cont_src = CONT_SRC_UPLINK)
       else decide (cont_src = CONT_SRC_MAIN))) && !ifp.is_team

/-- Ports, in port order, for which a run of the loop of `setup_interfaces`
appends an expected response, and whether the run ends early because a
NEWPORT request could not be built. -/
def setup_registered (env : Env) (c : Collab) (cont_src : cont_src_en) (is_teardown : Bool) :
    List Nat → List Nat × Bool
  | [] => ([], false)
  | p :: rest =>
    if port_eligible env c cont_src p && c.malloc_response p then
      if !is_teardown && !(c.zmsg_new p && c.if_port_info p) then ([], true)
      else
        ((p :: (setup_registered env c cont_src is_teardown rest).1),
          (setup_registered env c cont_src is_teardown rest).2)
    else setup_registered env c cont_src is_teardown rest

/-- Sequence numbers of the responses the source `cont_src` is waiting for, in
list order. -/
def outstanding_seqnos (st : State) (cont_src : cont_src_en) : List Nat :=
  (st.response_list.get cont_src).map (fun r => r.seqno)

/-! ## Readings of the record of calls -/

/-- Calls made by the cleanup and reset paths (`master_cleanup`,
`reset_dataplane`). -/
def is_reset_call : ext_call → Bool
  | ext_call.console_unbind _ => true
  | ext_call.controller_unsubscribe _ => true
  | ext_call.route_broker_unsubscribe _ => true
  | ext_call.dp_event_reset_config _ => true
  | ext_call.lladdr_flush_all _ => true
  | ext_call.rt_flush_all _ => true
  | ext_call.rt6_flush_all _ => true
  | ext_call.if_cleanup _ => true
  | _ => false

/-- Calls by which `handle_port_response` gives an interface its identity. -/
def is_if_update : ext_call → Bool
  | ext_call.if_set_cont_src _ _ => true
  | ext_call.if_rename _ _ => true
  | ext_call.if_set_ifindex _ _ => true
  | ext_call.if_finish_create _ _ => true
  | ext_call.shadow_init_port _ _ => true
  | _ => false

/-- Messages handed to `process_snapshot_one` for `cont_src`, in call order. -/
def snapshot_applied (cont_src : cont_src_en) (calls : List ext_call) : List zmsg_t :=
  calls.filterMap (fun x =>
    match x with
    | ext_call.process_snapshot_one s m => if s = cont_src then some m else none
    | _ => none)

/-- Calls made by the loop that drains the resync list of `cont_src`. -/
def is_drain_call (cont_src : cont_src_en) (x : ext_call) : Bool :=
  is_reset_call x ||
  (match x with
   | ext_call.dpmsg_convert_zmsg _ => true
   | ext_call.process_snapshot_one s _ => decide (s = cont_src)
   | ext_call.controller_init_event_handler _ => true
   | ext_call.route_broker_init_event_handler _ => true
   | _ => false)

/-- The record of calls of `st1` is that of `st` followed by calls that all
satisfy `P`. -/
def calls_grow (P : ext_call → Bool) (st st1 : State) : Prop :=
  ∃ xs : List ext_call, st1.calls = st.calls ++ xs ∧ ∀ x ∈ xs, P x = true

/-- Sequence number peeked by `async_response` in the second frame. -/
def msg_seqno (msg : zmsg_t) : Nat := uint_of_bytes (msg.getD 1 [])

/-! ## Start-up and the idle case of the main loop -/

/-- Function `master_init_src`. -/
def master_init_src (env : Env) (st : State) (cont_src : cont_src_en) : State :=
  { st with
    master_time := st.master_time.set cont_src
      { reset_timer := rte_timer_init
        connect_timer := rte_timer_init
        snapshot_timer := rte_timer_init
        retry_delay := RETRY_MIN_TICKS env
        connect_timeout := (CONNECT_TIMEOUT * env.timer_hz) % 2 ^ 64
        resync_timeout := (RESYNC_TIMEOUT * env.timer_hz) % 2 ^ 64 }
    response_list := st.response_list.set cont_src []
    resync_list := st.resync_list.set cont_src [] }

/-- The zero-initialised statics of master.c before `master_loop` runs, with
`running` set. -/
def static_state : State :=
  { master_state := { main := MASTER_IDLE, uplink := MASTER_IDLE }
    master_state_stats := { main := fun _ => 0, uplink := fun _ => 0 }
    master_time :=
      { main := { reset_timer := rte_timer_init, connect_timer := rte_timer_init,
                  snapshot_timer := rte_timer_init, retry_delay := 0,
                  connect_timeout := 0, resync_timeout := 0 }
        uplink := { reset_timer := rte_timer_init, connect_timer := rte_timer_init,
                    snapshot_timer := rte_timer_init, retry_delay := 0,
                    connect_timeout := 0, resync_timeout := 0 } }
    response_list := { main := [], uplink := [] }
    resync_list := { main := [], uplink := [] }
    control_addr := false
    running := true
    soft_ticks := 0
    soft_clock_override := 0
    calls := [] }

/-- Prologue of `master_loop`: both sources are initialised, the uplink only
when the controller is not local. -/
def master_loop_init (env : Env) (st : State) : State :=
  let st1 := master_init_src env st CONT_SRC_MAIN
  if env.is_local_controller then st1 else master_init_src env st1 CONT_SRC_UPLINK

/-- The `case MASTER_IDLE:` body of the switch in `master_loop`, for the
serviced source `cont_src`. -/
def master_loop_idle (env : Env) (st : State) (cont_src : cont_src_en) : State :=
  let st1 :=
    if env.is_local_controller = true ∨ cont_src = CONT_SRC_UPLINK then
      master_state_set env st cont_src MASTER_SOCKET_CREATE
    else st
  if cont_src = CONT_SRC_MAIN ∧ master_state_get st1 CONT_SRC_UPLINK = MASTER_READY
      ∧ st1.control_addr = true then
    master_state_set env st1 CONT_SRC_MAIN MASTER_SOCKET_CREATE
  else st1

/-! ## The other cases of the main loop -/

/-- Function `check_uplink_route`. -/
def check_uplink_route (env : Env) (c : Collab) (cont_src : cont_src_en) : Bool :=
  if env.is_local_controller = true ∨ cont_src = CONT_SRC_UPLINK ∨ c.request_url_ipc = true then
    true
  else if c.uplink_vrf = false then false
  else
    match c.nhif_dst_lookup with
    | none => false
    | some is_uplink => is_uplink

/-- Statement `rte_timer_reset(&master_time[cont_src].connect_timer, timeout,
SINGLE, ..., connect_timeout, cont_src)`. -/
def arm_connect_timer (st : State) (cont_src : cont_src_en) (timeout : Nat) : State :=
  let mt := st.master_time.get cont_src
  let tim := rte_timer_reset mt.connect_timer timeout (timer_fn.connect_timeout cont_src)
  let mt1 := { mt with connect_timer := tim }
  { st with master_time := st.master_time.set cont_src mt1 }

/-- Statement `rte_timer_reset(&master_time[cont_src].snapshot_timer,
master_time[cont_src].resync_timeout, SINGLE, ..., snapshot_timeout,
cont_src)`. -/
def arm_snapshot_timer (st : State) (cont_src : cont_src_en) : State :=
  let mt := st.master_time.get cont_src
  let tim := rte_timer_reset mt.snapshot_timer mt.resync_timeout
    (timer_fn.snapshot_timeout cont_src)
  let mt1 := { mt with snapshot_timer := tim }
  { st with master_time := st.master_time.set cont_src mt1 }

/-- The `case MASTER_SOCKET_CREATE:` body of the switch in `master_loop`. -/
def master_loop_socket_create (env : Env) (c : Collab) (st : State) (cont_src : cont_src_en) :
    State :=
  let st1 := record st [ext_call.console_bind cont_src]
  if c.console_bind cont_src = 0 then master_state_set env st1 cont_src MASTER_CONNECT
  else st1

/-- The `case MASTER_CONNECT:` body of the switch in `master_loop`. -/
def master_loop_connect (env : Env) (c : Collab) (st : State) (cont_src : cont_src_en) :
    State :=
  if check_uplink_route env c cont_src = false then st
  else
    let st1 := record st [ext_call.init_controller_connection cont_src]
    let st2 :=
      if c.init_controller_connection cont_src < 0 then reset_dataplane env st1 cont_src true
      else
        let timeout := (st1.master_time.get cont_src).connect_timeout
        arm_connect_timer (master_state_set env st1 cont_src MASTER_CONNECT_WAIT) cont_src
          timeout
    let st3 := record st2 [ext_call.init_route_broker_ctrl_connection cont_src]
    if c.init_route_broker_ctrl_connection cont_src < 0 then
      reset_dataplane env st3 cont_src true
    else st3

/-- The `case MASTER_CONNECT_WAIT:` body of the switch in `master_loop`. -/
def master_loop_connect_wait (env : Env) (c : Collab) (st : State) (cont_src : cont_src_en) :
    State :=
  let st1 := record st [ext_call.try_controller_response cont_src]
  if c.try_controller_response cont_src < 0 then
    if c.try_controller_response cont_src ≠ -EAGAIN then reset_dataplane env st1 cont_src true
    else st1
  else master_state_set env st1 cont_src MASTER_SETUP

/-- The `case MASTER_SETUP:` body of the switch in `master_loop`. -/
def master_loop_setup (env : Env) (c : Collab) (st : State) (cont_src : cont_src_en) : State :=
  let st1 := record st [ext_call.conf_query cont_src, ext_call.controller_init cont_src]
  let r := setup_interfaces env c st1 0 c.nb_ports cont_src false c.random
  if r.2 < 0 then reset_dataplane env r.1 cont_src true
  else master_state_set env r.1 cont_src MASTER_RESYNC_NEEDED

/-- The `case MASTER_RESYNC_NEEDED:` body of the switch in `master_loop`. -/
def master_loop_resync_needed (env : Env) (c : Collab) (st : State) (cont_src : cont_src_en) :
    State :=
  let st1 := record st
    [ext_call.dp_unregister_event_socket cont_src, ext_call.register_event_socket_src cont_src,
     ext_call.controller_snapshot cont_src]
  if c.controller_snapshot cont_src < 0 then reset_dataplane env st1 cont_src true
  else arm_snapshot_timer (master_state_set env st1 cont_src MASTER_RESYNC) cont_src

/-- The switch on `master_state_get(cont_src)` in `master_loop`.  What
`get_next_event` does to the state in the three states that service events is
the parameter `next_event`. -/
def master_loop_switch (env : Env) (c : Collab) (next_event : State → State) (st : State)
    (cont_src : cont_src_en) : State :=
  match master_state_get st cont_src with
  | MASTER_IDLE => master_loop_idle env st cont_src
  | MASTER_SOCKET_CREATE => master_loop_socket_create env c st cont_src
  | MASTER_CONNECT => master_loop_connect env c st cont_src
  | MASTER_CONNECT_WAIT => master_loop_connect_wait env c st cont_src
  | MASTER_SETUP => master_loop_setup env c st cont_src
  | MASTER_RESYNC_NEEDED => master_loop_resync_needed env c st cont_src
  | MASTER_RESYNC => next_event st
  | MASTER_READY => next_event st
  | MASTER_RESET => next_event st

/-- A state entry counter after one more entry into `s` (`state_in[s]++` on a
`uint32_t`). -/
def stats_bump (f : master_state_en → Nat) (s : master_state_en) : master_state_en → Nat :=
  fun x => if x = s then (f x + 1) % 2 ^ 32 else f x

/-- Between `st` and `st1` the source made no state change, or exactly one:
either its state and entry counters are the same, or its state differs and
only the counter of the new state went up, by one. -/
def at_most_one_transition (st st1 : State) (cont_src : cont_src_en) : Prop :=
  (st1.master_state.get cont_src = st.master_state.get cont_src
      ∧ st1.master_state_stats.get cont_src = st.master_state_stats.get cont_src)
    ∨ (st1.master_state.get cont_src ≠ st.master_state.get cont_src
      ∧ st1.master_state_stats.get cont_src
          = stats_bump (st.master_state_stats.get cont_src) (st1.master_state.get cont_src))

/-! ## Soft clock -/

/-- Function `enable_soft_clock_override`. -/
def enable_soft_clock_override (st : State) : State := { st with soft_clock_override := 1 }

/-- Function `disable_soft_clock_override`. -/
def disable_soft_clock_override (st : State) : State := { st with soft_clock_override := 0 }

/-- Function `soft_clock_event`. -/
def soft_clock_event (st : State) : State :=
  if st.soft_clock_override ≠ 0 then st
  else { st with soft_ticks := (st.soft_ticks + 1000 / SOFT_CLOCK_HZ) % 2 ^ 64 }

/-! ## The control address -/

/-- Address family `AF_UNSPEC`. -/
def AF_UNSPEC : Nat := 0

/-- Address family `AF_INET6`. -/
def AF_INET6 : Nat := 10

/-- Record `struct ip_addr`: the address family in `type` and the bytes of the
address. -/
structure ip_addr where
  type : Nat
  address : List Nat
  deriving DecidableEq

/-- The fields of the global `config` that `master_control_intf` reads and
writes. -/
structure config_s where
  /-- Field `config.remote_ip.type`. -/
  remote_ip_type : Nat
  local_ip : ip_addr
  console_url_set : Bool
  deriving DecidableEq

/-- Results of the helpers of other modules that `master_control_intf` calls,
as functions of their arguments. -/
structure AddrCollab where
  /-- Result of `if_is_control_channel(ifp)`. -/
  if_is_control_channel : ifnet → Bool
  /-- Address that `addr_store(&dst, family, addr)` stores in `dst`, taken as a
  function of the family and the address bytes; `none` when it returns false
  and stores nothing. -/
  addr_store : Nat → List Nat → Option ip_addr
  /-- Result of `IN6_IS_ADDR_LINKLOCAL` on the bytes of an address. -/
  IN6_IS_ADDR_LINKLOCAL : List Nat → Bool
  /-- Result of `ifa_has_addr(ifp, family)`. -/
  ifa_has_addr : ifnet → Nat → Bool
  /-- Result of `is_addr_set(&ip)`. -/
  is_addr_set : ip_addr → Bool

/-- The sixteen zero bytes of `IN6ADDR_ANY_INIT`. -/
def IN6ADDR_ANY_INIT : List Nat := List.replicate 16 0

/-- Function `master_control_intf`: the state and the configuration
afterwards.  The log lines are left out. -/
def master_control_intf (env : Env) (lib : AddrCollab) (st : State) (cfg : config_s)
    (ifp : ifnet) (family : Nat) (addr : List Nat) (add : Bool) : State × config_s :=
  if family ≠ cfg.remote_ip_type then (st, cfg)
  else if lib.if_is_control_channel ifp = false then (st, cfg)
  else
    match lib.addr_store family addr with
    | none => (st, cfg)
    | some ctrladdr =>
      if ctrladdr.type = AF_INET6 ∧ lib.IN6_IS_ADDR_LINKLOCAL ctrladdr.address = true then
        (st, cfg)
      else if add = true then
        if st.control_addr = true then (st, cfg)
        else if lib.ifa_has_addr ifp family = true then
          let cfg1 := { cfg with local_ip := ctrladdr }
          let st1 :=
            if cfg.console_url_set = false then record st [ext_call.default_endpoint_dataplane]
            else st
          ({ st1 with control_addr := true }, cfg1)
        else (st, cfg)
      else
        if lib.is_addr_set cfg.local_ip = false then (st, cfg)
        else
          let st1 :=
            if cfg.console_url_set = false then record st [ext_call.free_console_url] else st
          let stored := (lib.addr_store cfg.local_ip.type IN6ADDR_ANY_INIT).getD cfg.local_ip
          let cfg1 := { cfg with local_ip := { stored with type := 0 } }
          let st2 := { st1 with control_addr := false }
          (master_state_set env st2 CONT_SRC_MAIN MASTER_IDLE, cfg1)

/-- Function `master_addr_sig`; `ifp` is `none` for a NULL pointer.  The family
is passed on as a `uint8_t`. -/
def master_addr_sig (env : Env) (lib : AddrCollab) (st : State) (cfg : config_s)
    (ifp : Option ifnet) (family : Nat) (addr : List Nat) (add : Bool) : State × config_s :=
  match ifp with
  | none => (st, cfg)
  | some i => master_control_intf env lib st cfg i (family % 256) addr add

/-- Function `master_addr_sig_add`. -/
def master_addr_sig_add (env : Env) (lib : AddrCollab) (st : State) (cfg : config_s)
    (cont_src : cont_src_en) (ifp : Option ifnet) (family : Nat) (addr : List Nat) :
    State × config_s :=
  if cont_src ≠ CONT_SRC_UPLINK then (st, cfg)
  else master_addr_sig env lib st cfg ifp family addr true

/-- Function `master_addr_sig_del`. -/
def master_addr_sig_del (env : Env) (lib : AddrCollab) (st : State) (cfg : config_s)
    (cont_src : cont_src_en) (ifp : Option ifnet) (family : Nat) (addr : List Nat) :
    State × config_s :=
  if cont_src ≠ CONT_SRC_UPLINK then (st, cfg)
  else master_addr_sig env lib st cfg ifp family addr false

/-! ## Reachable states -/

/-- One operation of the model on the state: a state change, a reset, a timer
callback, the expiry of a reset timer, an iteration of the main loop switch,
the handling of an inbound message, a port registration, an address
notification, or an operation on the soft clock. -/
inductive master_step (env : Env) : State → State → Prop
  | state_set (st : State) (cont_src : cont_src_en) (new_state : master_state_en) :
      master_step env st (master_state_set env st cont_src new_state)
  | reset (st : State) (cont_src : cont_src_en) (delay : Bool) :
      master_step env st (reset_dataplane env st cont_src delay)
  | timer_event (st : State) (fct : timer_fn) : master_step env st (fct.run env st)
  | reset_timer_expiry (st : State) (cont_src : cont_src_en) :
      master_step env st (reset_timer_fire env st cont_src)
  | loop_iteration (st : State) (c : Collab) (cont_src : cont_src_en) :
      master_step env st (master_loop_switch env c id st cont_src)
  | message (st : State) (c : Collab) (cont_src : cont_src_en) (msg : zmsg_t) :
      master_step env st (async_response_msg env c st cont_src msg)
  | registration (st : State) (c : Collab) (startid num_ports : Nat) (cont_src : cont_src_en)
      (is_teardown : Bool) (seed : Nat) :
      master_step env st
        (setup_interfaces env c st startid num_ports cont_src is_teardown seed).1
  | addr_add (st : State) (lib : AddrCollab) (cfg : config_s) (cont_src : cont_src_en)
      (ifp : Option ifnet) (family : Nat) (addr : List Nat) :
      master_step env st (master_addr_sig_add env lib st cfg cont_src ifp family addr).1
  | addr_del (st : State) (lib : AddrCollab) (cfg : config_s) (cont_src : cont_src_en)
      (ifp : Option ifnet) (family : Nat) (addr : List Nat) :
      master_step env st (master_addr_sig_del env lib st cfg cont_src ifp family addr).1
  | soft_clock (st : State) : master_step env st (soft_clock_event st)
  | soft_clock_enable (st : State) : master_step env st (enable_soft_clock_override st)
  | soft_clock_disable (st : State) : master_step env st (disable_soft_clock_override st)

/-- States reached from the prologue of `master_loop` (which runs
`master_init_src`) by operations of the model. -/
inductive reachable_state (env : Env) : State → Prop
  | start (st : State) : reachable_state env (master_loop_init env st)
  | next (st st1 : State) :
      reachable_state env st → master_step env st st1 → reachable_state env st1

/-- The retry delays a reachable state may hold: that of the main source is
a multiple `k ≥ 1` of RETRY_MIN_TICKS and at most RETRY_MAX_DELAY_TICKS +
RETRY_MIN_TICKS; with a local controller it is RETRY_MIN_TICKS, and with a
remote controller that of the uplink source is RETRY_MIN_TICKS. -/
def retry_delay_inv (env : Env) (st : State) : Prop :=
  ((∃ k : Nat, 1 ≤ k
        ∧ (st.master_time.get CONT_SRC_MAIN).retry_delay = k * RETRY_MIN_TICKS env)
      ∧ (st.master_time.get CONT_SRC_MAIN).retry_delay
          ≤ RETRY_MAX_DELAY_TICKS env + RETRY_MIN_TICKS env)
    ∧ (env.is_local_controller = true →
        (st.master_time.get CONT_SRC_MAIN).retry_delay = RETRY_MIN_TICKS env)
    ∧ (env.is_local_controller = false →
        (st.master_time.get CONT_SRC_UPLINK).retry_delay = RETRY_MIN_TICKS env)

/-- The retry delays that are never raised: with a local controller that of
the main source is RETRY_MIN_TICKS, and with a remote controller that of the
uplink source is RETRY_MIN_TICKS. -/
def min_delay_inv (env : Env) (st : State) : Prop :=
  (env.is_local_controller = true →
      (st.master_time.get CONT_SRC_MAIN).retry_delay = RETRY_MIN_TICKS env)
    ∧ (env.is_local_controller = false →
        (st.master_time.get CONT_SRC_UPLINK).retry_delay = RETRY_MIN_TICKS env)

/-- A property `I` of states that reads the retry delays only and is kept by
the two kinds of write of a retry delay in master.c: the assignment of
RETRY_MIN_TICKS (lines 277, 448 and 1056) and the increment of the delay of
the main source by `reset_timer_event` (line 409), which is reached only with
a remote controller and a delay of at most RETRY_MAX_DELAY_TICKS. -/
structure delay_property (env : Env) (I : State → Prop) : Prop where
  of_delays : ∀ st st1 : State,
    (∀ s : cont_src_en,
      (st1.master_time.get s).retry_delay = (st.master_time.get s).retry_delay) →
    I st → I st1
  write_min : ∀ (st : State) (cont_src : cont_src_en),
    I st → I (set_retry_delay st cont_src (RETRY_MIN_TICKS env))
  increment : ∀ st : State, env.is_local_controller = false →
    (st.master_time.get CONT_SRC_MAIN).retry_delay ≤ RETRY_MAX_DELAY_TICKS env →
    I st →
    I (set_retry_delay st CONT_SRC_MAIN
      (((st.master_time.get CONT_SRC_MAIN).retry_delay + RETRY_MIN_TICKS env) % 2 ^ 64))

/-! ## Concrete configurations used to exercise the model -/

/-- Remote controller (two sources), timer running at 1 GHz. -/
def env_remote : Env := { is_local_controller := false, timer_hz := 1000000000 }

/-- Local controller (single source), timer running at 1 GHz. -/
def env_local : Env := { is_local_controller := true, timer_hz := 1000000000 }

/-- A request for port 3 awaiting its reply on the main source, armed with the
minimum retry delay. -/
def rsp_port3 : response :=
  { portid := 3, seqno := 1001, is_teardown := false,
    timer := rte_timer_reset rte_timer_init (RETRY_MIN_TICKS env_remote)
      (timer_fn.expire_response CONT_SRC_MAIN 3 1001),
    rsp_cont_src := CONT_SRC_MAIN }

/-- A two-frame message whose second frame is the 8-byte sequence number 7. -/
def msg_unsolicited : zmsg_t := [[78, 69, 87], [7, 0, 0, 0, 0, 0, 0, 0]]

/-- Remote controller: both sources initialised, in the given states, a
control address known, and the main source with retry delay `delay`,
outstanding requests `pending` and stashed messages `stash`. -/
def st_remote (main uplink : master_state_en) (delay : Nat) (pending : List response)
    (stash : List zmsg_t) : State :=
  let st := set_retry_delay (master_loop_init env_remote static_state) CONT_SRC_MAIN delay
  { st with
    master_state := { main := main, uplink := uplink }
    response_list := st.response_list.set CONT_SRC_MAIN pending
    resync_list := st.resync_list.set CONT_SRC_MAIN stash
    control_addr := true }

/-- Remote controller, uplink in Ready, main source in Resync with retry delay
`delay`, one request outstanding and one message stashed. -/
def st_main_resync (delay : Nat) : State :=
  st_remote MASTER_RESYNC MASTER_READY delay [rsp_port3] [msg_unsolicited]

/-- The same after a fault-triggered reset: main source in Reset, lists kept. -/
def st_main_reset (delay : Nat) : State :=
  st_remote MASTER_RESET MASTER_READY delay [rsp_port3] [msg_unsolicited]

/-- Remote controller, both sources in Ready, minimum retry delay, nothing
outstanding. -/
def st_main_ready : State :=
  st_remote MASTER_READY MASTER_READY (RETRY_MIN_TICKS env_remote) [] []

/-- Remote controller, main source in Idle with nothing outstanding, uplink in
state `uplink`. -/
def st_main_idle (uplink : master_state_en) : State :=
  st_remote MASTER_IDLE uplink (RETRY_MIN_TICKS env_remote) [] []

/-- Local controller: the only source initialised and in state `main`. -/
def st_local (main : master_state_en) : State :=
  let st := master_loop_init env_local static_state
  { st with master_state := { main := main, uplink := MASTER_IDLE } }

/-- Collaborators that all succeed: four ports, port 0 the uplink port, no
team port, identity `cont_src_ifindex`, no end-of-snapshot marker. -/
def collab_ok : Collab :=
  { DATAPLANE_MAX_PORTS := 64
    nb_ports := 4
    ifport_table := fun p =>
      if p < 4 then some { if_port := p, if_index := 0, is_team := false } else none
    if_port_is_uplink := fun p => decide (p = 0)
    cont_src_ifindex := fun _ i => i
    shadow_init_port := fun _ _ => 0
    rte_eth_dev_get_name_by_port := fun _ => some [101, 110]
    detach_device := fun _ => 0
    dpmsg_convert_zmsg := fun _ => 0
    process_ready_msg := fun _ _ => 0
    process_snapshot_one := fun _ _ => (0, false)
    malloc_response := fun _ => true
    zmsg_new := fun _ => true
    if_port_info := fun _ => true
    console_bind := fun _ => 0
    request_url_ipc := false
    uplink_vrf := true
    nhif_dst_lookup := some true
    init_controller_connection := fun _ => 0
    init_route_broker_ctrl_connection := fun _ => 0
    try_controller_response := fun _ => 0
    controller_snapshot := fun _ => 0
    random := 1000 }

/-- Remote controller, uplink in Ready, main source in Resync with the request
for port 3 outstanding and nothing stashed. -/
def st_main_awaiting : State :=
  st_remote MASTER_RESYNC MASTER_READY (RETRY_MIN_TICKS env_remote) [rsp_port3] []

/-- Frame holding the sequence number 1001 of `rsp_port3`. -/
def frame_seq_1001 : zframe_t := [233, 3, 0, 0, 0, 0, 0, 0]

/-- Reply "FAIL" to the request with sequence number 1001. -/
def msg_fail_1001 : zmsg_t := [[70, 65, 73, 76], frame_seq_1001]

/-- Reply "OK" to the request 1001, assigning index `idx` (one byte) and the
name "dp0p3". -/
def msg_ok_1001 (idx : Nat) : zmsg_t :=
  [[79, 75], frame_seq_1001, [idx, 0, 0, 0], [100, 112, 48, 112, 51]]

/-- A request for port 1 awaiting its reply on the main source. -/
def rsp_port1 : response :=
  { portid := 1, seqno := 1000, is_teardown := false,
    timer := rte_timer_reset rte_timer_init (RETRY_MIN_TICKS env_remote)
      (timer_fn.expire_response CONT_SRC_MAIN 1 1000),
    rsp_cont_src := CONT_SRC_MAIN }

/-- Reply "OK" to the request 1000, assigning index 5 and the name "dp0p1". -/
def msg_ok_1000 : zmsg_t :=
  [[79, 75], [232, 3, 0, 0, 0, 0, 0, 0], [5, 0, 0, 0], [100, 112, 48, 112, 49]]

/-- A second two-frame message that answers nothing: sequence number 8. -/
def msg_unsolicited2 : zmsg_t := [[68, 69, 76], [8, 0, 0, 0, 0, 0, 0, 0]]

/-- Remote controller, main source in Resync with the requests for ports 1 and
3 outstanding and nothing stashed. -/
def st_two_awaiting : State :=
  st_remote MASTER_RESYNC MASTER_READY (RETRY_MIN_TICKS env_remote) [rsp_port1, rsp_port3] []

/-- Remote controller, main source in Resync, no response expected, and the
messages `stash` in the resync list. -/
def st_stashed (stash : List zmsg_t) : State :=
  st_remote MASTER_RESYNC MASTER_READY (RETRY_MIN_TICKS env_remote) [] stash

/-- The collaborators of `collab_ok`, except that the message `bad` does not
convert and the message `eof` reports the end of the snapshot. -/
def collab_snapshot (bad eof : zmsg_t) : Collab :=
  { collab_ok with
    dpmsg_convert_zmsg := fun m => if m = bad then -1 else 0
    process_snapshot_one := fun _ m => (0, decide (m = eof)) }

/-- The collaborators of `collab_ok` with every entry of `ifport_table` NULL. -/
def collab_no_ports : Collab := { collab_ok with ifport_table := fun _ => none }

/-- As `collab_ok`, except that no response entry can be allocated for port 1. -/
def collab_malloc_fail : Collab :=
  { collab_ok with malloc_response := fun p => decide (p ≠ 1) }

/-- As `collab_ok`, except that the description of port 2 cannot be built, so
its NEWPORT request fails. -/
def collab_request_fail : Collab :=
  { collab_ok with if_port_info := fun p => decide (p ≠ 2) }

/-- As `collab_ok`, except that the connection to the route broker fails. -/
def collab_broker_fail : Collab :=
  { collab_ok with init_route_broker_ctrl_connection := fun _ => -1 }

/-- As `collab_ok`, except that the console socket does not bind. -/
def collab_bind_fail : Collab := { collab_ok with console_bind := fun _ => -1 }

/-- As `collab_ok`, except that no route to the controller is known. -/
def collab_no_route : Collab := { collab_ok with nhif_dst_lookup := none }

/-- As `collab_ok`, except that the handshake poll returns `rc`. -/
def collab_handshake (rc : Int) : Collab :=
  { collab_ok with try_controller_response := fun _ => rc }

/-- Remote controller, uplink in Ready, main source in state `main` with the
minimum retry delay and the request for port 3 outstanding. -/
def st_main_in (main : master_state_en) : State :=
  st_remote main MASTER_READY (RETRY_MIN_TICKS env_remote) [rsp_port3] []

/-- Frame holding the sequence number 1002. -/
def frame_seq_1002 : zframe_t := [234, 3, 0, 0, 0, 0, 0, 0]

/-- Reply "OK" to the request 1002, assigning index 6 and the name "dp0p1". -/
def msg_ok_1002 : zmsg_t :=
  [[79, 75], frame_seq_1002, [6, 0, 0, 0], [100, 112, 48, 112, 49]]

/-- Two ports, 0 and 1, neither a team port; every call succeeds, random base
1000, and the message `msg_unsolicited` reports the end of the snapshot. -/
def collab_two_ports : Collab :=
  { collab_ok with
    nb_ports := 2
    process_snapshot_one := fun _ m => (0, decide (m = msg_unsolicited)) }

/-- An IPv4 control-channel interface. -/
def ifp_uplink : ifnet := { if_port := 0, if_index := 2, is_team := false }

/-- Address helpers for IPv4 (family 2) and IPv6 (family 10): an address is
stored when it has the length of its family, is set when its family is not
`AF_UNSPEC`, and is link-local when it starts with fe80::/10; only
`ifp_uplink` is a control channel, and it has an address. -/
def addr_lib : AddrCollab :=
  { if_is_control_channel := fun i => decide (i = ifp_uplink)
    addr_store := fun family addr =>
      if (family = 2 ∧ addr.length = 4) ∨ (family = 10 ∧ addr.length = 16) then
        some { type := family, address := addr }
      else none
    IN6_IS_ADDR_LINKLOCAL := fun a => decide (a.getD 0 0 = 254 ∧ a.getD 1 0 / 64 = 2)
    ifa_has_addr := fun _ _ => true
    is_addr_set := fun ip => decide (ip.type ≠ 0) }

/-- Configuration with an IPv4 controller and the local address 10.0.0.1. -/
def cfg_v4 : config_s :=
  { remote_ip_type := 2, local_ip := { type := 2, address := [10, 0, 0, 1] },
    console_url_set := false }

/-- Remote controller, main source in state `main` and the uplink source in
state `uplink`, minimum retry delays, nothing outstanding. -/
def st_both (main uplink : master_state_en) : State :=
  st_remote main uplink (RETRY_MIN_TICKS env_remote) [] []

/-! ## Basic facts -/

@[simp]
theorem per_src_get_set_same {α : Type} (a : per_src α) (i : cont_src_en) (v : α) :
    (a.set i v).get i = v := by
  cases i <;> rfl

@[simp]
theorem per_src_get_set_ne {α : Type} (a : per_src α) (i j : cont_src_en) (v : α)
    (h : i ≠ j) : (a.set i v).get j = a.get j := by
  cases i <;> cases j <;> first | rfl | exact absurd rfl h

@[simp]
theorem zlist_pop_all_eq_nil {α : Type} (l : List α) : zlist_pop_all l = [] := by
  induction l with
  | nil => rfl
  | cons _ _ ih => simpa [zlist_pop_all] using ih

@[simp]
theorem master_state_get_eq (st : State) (cont_src : cont_src_en) :
    master_state_get st cont_src = st.master_state.get cont_src := rfl

@[simp]
theorem set_retry_delay_master_state (st : State) (cont_src : cont_src_en) (v : Nat) :
    (set_retry_delay st cont_src v).master_state = st.master_state := rfl

@[simp]
theorem set_retry_delay_response_list (st : State) (cont_src : cont_src_en) (v : Nat) :
    (set_retry_delay st cont_src v).response_list = st.response_list := rfl

@[simp]
theorem set_retry_delay_resync_list (st : State) (cont_src : cont_src_en) (v : Nat) :
    (set_retry_delay st cont_src v).resync_list = st.resync_list := rfl

@[simp]
theorem set_retry_delay_running (st : State) (cont_src : cont_src_en) (v : Nat) :
    (set_retry_delay st cont_src v).running = st.running := rfl

@[simp]
theorem set_retry_delay_control_addr (st : State) (cont_src : cont_src_en) (v : Nat) :
    (set_retry_delay st cont_src v).control_addr = st.control_addr := rfl

@[simp]
theorem set_retry_delay_get_self (st : State) (cont_src : cont_src_en) (v : Nat) :
    ((set_retry_delay st cont_src v).master_time.get cont_src).retry_delay = v := by
  simp [set_retry_delay]

@[simp]
theorem set_retry_delay_reset_timer (st : State) (cont_src src : cont_src_en) (v : Nat) :
    ((set_retry_delay st cont_src v).master_time.get src).reset_timer
      = (st.master_time.get src).reset_timer := by
  cases cont_src <;> cases src <;> rfl

/-- The states whose enumerator value is at least that of MASTER_RESYNC. -/
theorem toNat_ge_resync_iff (s : master_state_en) :
    s.toNat ≥ MASTER_RESYNC.toNat ↔ s = MASTER_RESYNC ∨ s = MASTER_READY ∨ s = MASTER_RESET := by
  cases s <;> simp [master_state_en.toNat]

/-! ### Projections of `master_state_set_store` -/

theorem store_master_state (env : Env) (st : State) (cont_src : cont_src_en)
    (new_state : master_state_en) :
    (master_state_set_store env st cont_src new_state).master_state
      = st.master_state.set cont_src new_state := by
  unfold master_state_set_store
  by_cases h : env.is_local_controller = false ∧ cont_src = CONT_SRC_MAIN
  · cases new_state <;>
      simp [h, master_state_info, master_cleanup, cleanup_resync, cleanup_responses,
        set_retry_delay]
  · simp [h, master_state_info]

theorem store_running (env : Env) (st : State) (cont_src : cont_src_en)
    (new_state : master_state_en) :
    (master_state_set_store env st cont_src new_state).running = st.running := by
  unfold master_state_set_store
  by_cases h : env.is_local_controller = false ∧ cont_src = CONT_SRC_MAIN
  · cases new_state <;>
      simp [h, master_state_info, master_cleanup, cleanup_resync, cleanup_responses,
        set_retry_delay]
  · simp [h, master_state_info]

theorem store_control_addr (env : Env) (st : State) (cont_src : cont_src_en)
    (new_state : master_state_en) :
    (master_state_set_store env st cont_src new_state).control_addr = st.control_addr := by
  unfold master_state_set_store
  by_cases h : env.is_local_controller = false ∧ cont_src = CONT_SRC_MAIN
  · cases new_state <;>
      simp [h, master_state_info, master_cleanup, cleanup_resync, cleanup_responses,
        set_retry_delay]
  · simp [h, master_state_info]

theorem store_response_list (env : Env) (st : State) (cont_src : cont_src_en)
    (new_state : master_state_en) :
    (master_state_set_store env st cont_src new_state).response_list
      = if env.is_local_controller = false ∧ cont_src = CONT_SRC_MAIN ∧ new_state = MASTER_IDLE
        then st.response_list.set CONT_SRC_MAIN [] else st.response_list := by
  unfold master_state_set_store
  by_cases h : env.is_local_controller = false ∧ cont_src = CONT_SRC_MAIN
  · obtain ⟨h1, h2⟩ := h
    subst h2
    cases new_state <;>
      simp [h1, master_state_info, master_cleanup, cleanup_resync, cleanup_responses,
        set_retry_delay]
  · have h' : ¬ (env.is_local_controller = false ∧ cont_src = CONT_SRC_MAIN
        ∧ new_state = MASTER_IDLE) := fun hh => h ⟨hh.1, hh.2.1⟩
    simp [h, h', master_state_info]

theorem store_resync_list (env : Env) (st : State) (cont_src : cont_src_en)
    (new_state : master_state_en) :
    (master_state_set_store env st cont_src new_state).resync_list
      = if env.is_local_controller = false ∧ cont_src = CONT_SRC_MAIN ∧ new_state = MASTER_IDLE
        then st.resync_list.set CONT_SRC_MAIN [] else st.resync_list := by
  unfold master_state_set_store
  by_cases h : env.is_local_controller = false ∧ cont_src = CONT_SRC_MAIN
  · obtain ⟨h1, h2⟩ := h
    subst h2
    cases new_state <;>
      simp [h1, master_state_info, master_cleanup, cleanup_resync, cleanup_responses,
        set_retry_delay]
  · have h' : ¬ (env.is_local_controller = false ∧ cont_src = CONT_SRC_MAIN
        ∧ new_state = MASTER_IDLE) := fun hh => h ⟨hh.1, hh.2.1⟩
    simp [h, h', master_state_info]

theorem store_master_time (env : Env) (st : State) (cont_src : cont_src_en)
    (new_state : master_state_en) :
    (master_state_set_store env st cont_src new_state).master_time
      = if env.is_local_controller = false ∧ cont_src = CONT_SRC_MAIN ∧ new_state = MASTER_READY
        then st.master_time.set CONT_SRC_MAIN
          { st.master_time.get CONT_SRC_MAIN with retry_delay := RETRY_MIN_TICKS env }
        else st.master_time := by
  unfold master_state_set_store
  by_cases h : env.is_local_controller = false ∧ cont_src = CONT_SRC_MAIN
  · obtain ⟨h1, h2⟩ := h
    subst h2
    cases new_state <;>
      simp [h1, master_state_info, master_cleanup, cleanup_resync, cleanup_responses,
        set_retry_delay]
  · have h' : ¬ (env.is_local_controller = false ∧ cont_src = CONT_SRC_MAIN
        ∧ new_state = MASTER_READY) := fun hh => h ⟨hh.1, hh.2.1⟩
    simp [h, h', master_state_info]

/-! ### Projections of `master_state_set` -/

/-- Unfolding of `master_state_set` with the state reads made explicit. -/
theorem master_state_set_unfold (env : Env) (st : State) (cont_src : cont_src_en)
    (new_state : master_state_en) :
    master_state_set env st cont_src new_state
      = if st.master_state.get cont_src = new_state then st
        else master_state_set_store env
          (if cont_src = CONT_SRC_UPLINK ∧ st.master_state.get cont_src = MASTER_READY then
            (if st.master_state.get CONT_SRC_MAIN = MASTER_IDLE then st
             else master_state_set_store env st CONT_SRC_MAIN MASTER_IDLE)
           else st) cont_src new_state := rfl

theorem set_master_state_self (env : Env) (st : State) (cont_src : cont_src_en)
    (new_state : master_state_en) :
    (master_state_set env st cont_src new_state).master_state.get cont_src = new_state := by
  rw [master_state_set_unfold]
  by_cases h : st.master_state.get cont_src = new_state
  · simp [h]
  · simp [h, store_master_state]

theorem set_master_state_get_self (env : Env) (st : State) (cont_src : cont_src_en)
    (new_state : master_state_en) :
    master_state_get (master_state_set env st cont_src new_state) cont_src = new_state :=
  set_master_state_self env st cont_src new_state

theorem set_running (env : Env) (st : State) (cont_src : cont_src_en)
    (new_state : master_state_en) :
    (master_state_set env st cont_src new_state).running = st.running := by
  rw [master_state_set_unfold]
  split
  · rfl
  · rw [store_running]
    split
    · split
      · rfl
      · rw [store_running]
    · rfl

theorem set_control_addr (env : Env) (st : State) (cont_src : cont_src_en)
    (new_state : master_state_en) :
    (master_state_set env st cont_src new_state).control_addr = st.control_addr := by
  rw [master_state_set_unfold]
  split
  · rfl
  · rw [store_control_addr]
    split
    · split
      · rfl
      · rw [store_control_addr]
    · rfl

/-- A `master_state_set` on the main source leaves the uplink state alone. -/
theorem set_main_master_state_uplink (env : Env) (st : State) (new_state : master_state_en) :
    (master_state_set env st CONT_SRC_MAIN new_state).master_state.get CONT_SRC_UPLINK
      = st.master_state.get CONT_SRC_UPLINK := by
  rw [master_state_set_unfold]
  split
  · rfl
  · simp [store_master_state]

/-- Retry delays are written by `master_state_set` only when the main source
enters MASTER_READY with a remote controller. -/
theorem set_master_time (env : Env) (st : State) (cont_src : cont_src_en)
    (new_state : master_state_en) :
    (master_state_set env st cont_src new_state).master_time
      = if env.is_local_controller = false ∧ cont_src = CONT_SRC_MAIN
            ∧ new_state = MASTER_READY ∧ st.master_state.get CONT_SRC_MAIN ≠ MASTER_READY
        then st.master_time.set CONT_SRC_MAIN
          { st.master_time.get CONT_SRC_MAIN with retry_delay := RETRY_MIN_TICKS env }
        else st.master_time := by
  rw [master_state_set_unfold]
  cases cont_src
  · by_cases h : st.master_state.get CONT_SRC_MAIN = new_state
    · by_cases h2 : new_state = MASTER_READY
      · subst h2; simp [h]
      · simp [h, h2]
    · by_cases h2 : new_state = MASTER_READY
      · subst h2
        simp [h, store_master_time]
      · simp [h, h2, store_master_time]
  · by_cases h : st.master_state.get CONT_SRC_UPLINK = new_state
    · simp [h]
    · simp only [h, if_false, store_master_time]
      have hne : ¬ (env.is_local_controller = false ∧ CONT_SRC_UPLINK = CONT_SRC_MAIN
          ∧ new_state = MASTER_READY) := fun hh => by cases hh.2.1
      have hne2 : ¬ (env.is_local_controller = false ∧ CONT_SRC_UPLINK = CONT_SRC_MAIN
          ∧ new_state = MASTER_READY ∧ st.master_state.get CONT_SRC_MAIN ≠ MASTER_READY) :=
        fun hh => by cases hh.2.1
      rw [if_neg hne, if_neg hne2]
      split
      · split
        · rfl
        · simp [store_master_time]
      · rfl

theorem set_master_time_of_ne_ready (env : Env) (st : State) (cont_src : cont_src_en)
    (new_state : master_state_en) (hs : new_state ≠ MASTER_READY) :
    (master_state_set env st cont_src new_state).master_time = st.master_time := by
  rw [set_master_time, if_neg]
  exact fun h => hs h.2.2.1

/-- Entering a state other than MASTER_IDLE leaves the response list of the
source being moved as it was. -/
theorem set_response_list_self (env : Env) (st : State) (cont_src : cont_src_en)
    (new_state : master_state_en) (hs : new_state ≠ MASTER_IDLE) :
    (master_state_set env st cont_src new_state).response_list.get cont_src
      = st.response_list.get cont_src := by
  rw [master_state_set_unfold]
  split
  · rfl
  · cases cont_src
    · simp [store_response_list, hs]
    · simp only [store_response_list]
      rw [if_neg (fun h => by cases h.2.1)]
      split
      · split
        · rfl
        · rw [store_response_list]
          split
          · simp
          · rfl
      · rfl

/-- Entering a state other than MASTER_IDLE leaves the resync list of the
source being moved as it was. -/
theorem set_resync_list_self (env : Env) (st : State) (cont_src : cont_src_en)
    (new_state : master_state_en) (hs : new_state ≠ MASTER_IDLE) :
    (master_state_set env st cont_src new_state).resync_list.get cont_src
      = st.resync_list.get cont_src := by
  rw [master_state_set_unfold]
  split
  · rfl
  · cases cont_src
    · simp [store_resync_list, hs]
    · simp only [store_resync_list]
      rw [if_neg (fun h => by cases h.2.1)]
      split
      · split
        · rfl
        · rw [store_resync_list]
          split
          · simp
          · rfl
      · rfl

/-- With a remote controller, moving the main source into MASTER_IDLE from any
other state empties both of its lists. -/
theorem set_main_idle_lists (env : Env) (st : State)
    (hmode : env.is_local_controller = false)
    (hne : st.master_state.get CONT_SRC_MAIN ≠ MASTER_IDLE) :
    (master_state_set env st CONT_SRC_MAIN MASTER_IDLE).response_list.get CONT_SRC_MAIN = []
      ∧ (master_state_set env st CONT_SRC_MAIN MASTER_IDLE).resync_list.get CONT_SRC_MAIN = [] := by
  rw [master_state_set_unfold]
  simp [hne, hmode, store_response_list, store_resync_list]

/-! ### The two outcomes of `reset_timer_event` -/

theorem reset_timer_event_shutdown (env : Env) (st : State) (cont_src : cont_src_en)
    (h : env.is_local_controller = true ∨ cont_src = CONT_SRC_UPLINK
      ∨ (st.master_time.get cont_src).retry_delay > RETRY_MAX_DELAY_TICKS env) :
    reset_timer_event env st cont_src = { st with running := false } := by
  unfold reset_timer_event
  by_cases h1 : env.is_local_controller = true ∨ cont_src = CONT_SRC_UPLINK
  · rw [if_pos h1]
  · rw [if_neg h1]
    have h2 : (st.master_time.get cont_src).retry_delay > RETRY_MAX_DELAY_TICKS env := by
      rcases h with h | h | h
      · exact absurd (Or.inl h) h1
      · exact absurd (Or.inr h) h1
      · exact h
    rw [if_pos h2]

theorem reset_timer_event_retry (env : Env) (st : State)
    (hmode : env.is_local_controller = false)
    (hd : (st.master_time.get CONT_SRC_MAIN).retry_delay ≤ RETRY_MAX_DELAY_TICKS env) :
    reset_timer_event env st CONT_SRC_MAIN
      = master_state_set env
          (set_retry_delay st CONT_SRC_MAIN
            (((st.master_time.get CONT_SRC_MAIN).retry_delay + RETRY_MIN_TICKS env) % 2 ^ 64))
          CONT_SRC_MAIN MASTER_IDLE := by
  unfold reset_timer_event
  have h1 : ¬ (env.is_local_controller = true ∨ CONT_SRC_MAIN = CONT_SRC_UPLINK) := by
    rw [hmode]; simp
  rw [if_neg h1, if_neg (Nat.not_lt.mpr hd)]

/-- The tick constants are ordered as the second counts are whenever the larger
product does not wrap around. -/
theorem retry_min_le_max (env : Env) (h : RETRY_MAX_DELAY_SEC * env.timer_hz < 2 ^ 64) :
    RETRY_MIN_TICKS env ≤ RETRY_MAX_DELAY_TICKS env := by
  unfold RETRY_MIN_TICKS RETRY_MAX_DELAY_TICKS RETRY_MIN_SEC at *
  unfold RETRY_MAX_DELAY_SEC at *
  rw [Nat.mod_eq_of_lt h, Nat.mod_eq_of_lt (by omega)]
  omega

/-! ### Unfoldings of `reset_dataplane` -/

theorem reset_dataplane_delayed (env : Env) (st : State) (cont_src : cont_src_en) :
    reset_dataplane env st cont_src true
      = { reset_dataplane_flushed env st cont_src with
          master_time := (reset_dataplane_flushed env st cont_src).master_time.set cont_src
            { (reset_dataplane_flushed env st cont_src).master_time.get cont_src with
              reset_timer := rte_timer_reset
                ((reset_dataplane_flushed env st cont_src).master_time.get cont_src).reset_timer
                ((reset_dataplane_flushed env st cont_src).master_time.get cont_src).retry_delay
                (timer_fn.reset_timer_event cont_src) } } := rfl

theorem reset_dataplane_immediate (env : Env) (st : State) (cont_src : cont_src_en) :
    reset_dataplane env st cont_src false
      = reset_timer_event env
          (set_retry_delay (reset_dataplane_flushed env st cont_src) cont_src (RETRY_MIN_TICKS env))
          cont_src := rfl

theorem flushed_master_state (env : Env) (st : State) (cont_src : cont_src_en) :
    (reset_dataplane_flushed env st cont_src).master_state.get cont_src = MASTER_RESET :=
  set_master_state_self env st cont_src MASTER_RESET

theorem flushed_master_time (env : Env) (st : State) (cont_src : cont_src_en) :
    (reset_dataplane_flushed env st cont_src).master_time = st.master_time :=
  set_master_time_of_ne_ready env st cont_src MASTER_RESET (by decide)

theorem flushed_response_list (env : Env) (st : State) (cont_src : cont_src_en) :
    (reset_dataplane_flushed env st cont_src).response_list.get cont_src
      = st.response_list.get cont_src :=
  set_response_list_self env st cont_src MASTER_RESET (by decide)

theorem flushed_resync_list (env : Env) (st : State) (cont_src : cont_src_en) :
    (reset_dataplane_flushed env st cont_src).resync_list.get cont_src
      = st.resync_list.get cont_src :=
  set_resync_list_self env st cont_src MASTER_RESET (by decide)

theorem flushed_running (env : Env) (st : State) (cont_src : cont_src_en) :
    (reset_dataplane_flushed env st cont_src).running = st.running :=
  set_running env st cont_src MASTER_RESET

/-! ### Repeated delayed resets and the expiry of the reset timer -/

theorem reset_dataplane_true_retry_delay (env : Env) (st : State) (cont_src : cont_src_en) :
    ((reset_dataplane env st cont_src true).master_time.get cont_src).retry_delay
      = (st.master_time.get cont_src).retry_delay := by
  rw [reset_dataplane_delayed]
  simp only [per_src_get_set_same, flushed_master_time]

theorem reset_dataplane_true_reset_timer (env : Env) (st : State) (cont_src : cont_src_en) :
    ((reset_dataplane env st cont_src true).master_time.get cont_src).reset_timer
      = { pending := true, ticks := (st.master_time.get cont_src).retry_delay,
          f := some (timer_fn.reset_timer_event cont_src) } := by
  rw [reset_dataplane_delayed]
  simp only [per_src_get_set_same, flushed_master_time, rte_timer_reset]

theorem delayed_n_retry_delay (env : Env) (st : State) (cont_src : cont_src_en) (k : Nat) :
    ((reset_dataplane_delayed_n env st cont_src k).master_time.get cont_src).retry_delay
      = (st.master_time.get cont_src).retry_delay := by
  induction k with
  | zero => rfl
  | succ k ih =>
    show ((reset_dataplane env (reset_dataplane_delayed_n env st cont_src k) cont_src
      true).master_time.get cont_src).retry_delay = _
    rw [reset_dataplane_true_retry_delay, ih]

theorem delayed_n_reset_timer (env : Env) (st : State) (cont_src : cont_src_en) (k : Nat)
    (hk : 1 ≤ k) :
    ((reset_dataplane_delayed_n env st cont_src k).master_time.get cont_src).reset_timer
      = { pending := true, ticks := (st.master_time.get cont_src).retry_delay,
          f := some (timer_fn.reset_timer_event cont_src) } := by
  cases k with
  | zero => omega
  | succ k =>
    show ((reset_dataplane env (reset_dataplane_delayed_n env st cont_src k) cont_src
      true).master_time.get cont_src).reset_timer = _
    rw [reset_dataplane_true_reset_timer, delayed_n_retry_delay]

theorem reset_timer_stopped_retry_delay (st : State) (cont_src : cont_src_en) :
    ((reset_timer_stopped st cont_src).master_time.get cont_src).retry_delay
      = (st.master_time.get cont_src).retry_delay := by
  simp [reset_timer_stopped]

theorem reset_timer_stopped_pending (st : State) (cont_src : cont_src_en) :
    ((reset_timer_stopped st cont_src).master_time.get cont_src).reset_timer.pending = false := by
  simp [reset_timer_stopped, rte_timer_stop]

/-- A pending reset timer armed by `reset_dataplane` fires into
`reset_timer_event`. -/
theorem reset_timer_fire_armed (env : Env) (st : State) (cont_src : cont_src_en) (d : Nat)
    (h : (st.master_time.get cont_src).reset_timer
      = { pending := true, ticks := d, f := some (timer_fn.reset_timer_event cont_src) }) :
    reset_timer_fire env st cont_src
      = reset_timer_event env (reset_timer_stopped st cont_src) cont_src := by
  unfold reset_timer_fire
  simp only [h, if_true, timer_fn.run]

/-- A reset timer that is not pending does not fire. -/
theorem reset_timer_fire_idle (env : Env) (st : State) (cont_src : cont_src_en)
    (h : (st.master_time.get cont_src).reset_timer.pending = false) :
    reset_timer_fire env st cont_src = st := by
  unfold reset_timer_fire
  simp [h]

/-! ## Claims -/

/-- C1: for every control source, `master_state_is_event_ready` holds exactly
when the stored session state is Resync, Ready or Reset; the same equivalence
holds in the state produced by any `master_state_set` call. -/
theorem C1_event_ready_iff (env : Env) (st : State) (src : cont_src_en) :
    (master_state_is_event_ready st src = true ↔
      (master_state_get st src = MASTER_RESYNC ∨ master_state_get st src = MASTER_READY
        ∨ master_state_get st src = MASTER_RESET)) ∧
    ∀ (cont_src : cont_src_en) (new_state : master_state_en),
      (master_state_is_event_ready (master_state_set env st cont_src new_state) src = true ↔
        (master_state_get (master_state_set env st cont_src new_state) src = MASTER_RESYNC
          ∨ master_state_get (master_state_set env st cont_src new_state) src = MASTER_READY
          ∨ master_state_get (master_state_set env st cont_src new_state) src = MASTER_RESET)) := by
  have key : ∀ t : State, master_state_is_event_ready t src = true ↔
      (master_state_get t src = MASTER_RESYNC ∨ master_state_get t src = MASTER_READY
        ∨ master_state_get t src = MASTER_RESET) := by
    intro t
    unfold master_state_is_event_ready
    rw [decide_eq_true_iff]
    exact toNat_ge_resync_iff _
  exact ⟨key st, fun cont_src new_state => key _⟩

/-- C2: with a remote controller, when the uplink source is in Ready and is
moved by `master_state_set` to any state other than Ready while the main
source is not Idle, the main source ends in Idle with an empty response list
and an empty resync list. -/
theorem C2_uplink_leaving_ready_idles_main (env : Env) (st : State) (s : master_state_en)
    (hmode : env.is_local_controller = false)
    (hup : master_state_get st CONT_SRC_UPLINK = MASTER_READY)
    (hs : s ≠ MASTER_READY)
    (hmain : master_state_get st CONT_SRC_MAIN ≠ MASTER_IDLE) :
    master_state_get (master_state_set env st CONT_SRC_UPLINK s) CONT_SRC_MAIN = MASTER_IDLE
      ∧ (master_state_set env st CONT_SRC_UPLINK s).response_list.get CONT_SRC_MAIN = []
      ∧ (master_state_set env st CONT_SRC_UPLINK s).resync_list.get CONT_SRC_MAIN = [] := by
  simp only [master_state_get_eq] at hup hmain
  have hne : ¬ st.master_state.get CONT_SRC_UPLINK = s := by
    rw [hup]; exact fun h => hs h.symm
  have hs2 : ¬ MASTER_READY = s := fun h => hs h.symm
  rw [master_state_set_unfold]
  simp [hup, hs2, hmain, hmode, store_master_state, store_response_list, store_resync_list]

theorem C2_uplink_leaving_ready_idles_main_witness :
    master_state_get (master_state_set env_remote (st_main_resync 10000000000)
        CONT_SRC_UPLINK MASTER_RESET) CONT_SRC_MAIN = MASTER_IDLE
      ∧ (master_state_set env_remote (st_main_resync 10000000000)
        CONT_SRC_UPLINK MASTER_RESET).response_list.get CONT_SRC_MAIN = []
      ∧ (master_state_set env_remote (st_main_resync 10000000000)
        CONT_SRC_UPLINK MASTER_RESET).resync_list.get CONT_SRC_MAIN = [] :=
  C2_uplink_leaving_ready_idles_main env_remote (st_main_resync 10000000000)
    MASTER_RESET rfl rfl (by decide) (by decide)

/-- C3: when the idle case of `master_loop` runs for a source that is in Idle,
the source ends in SocketCreate exactly when the controller is local, or the
source is the uplink, or it is the main source with the uplink in Ready and a
control address known; otherwise it stays in Idle.  In particular the main
source stays in Idle with a remote controller while the uplink is not Ready or
no control address is known. -/
theorem C3_idle_guard (env : Env) (st : State) (src : cont_src_en)
    (hidle : master_state_get st src = MASTER_IDLE) :
    (master_state_get (master_loop_idle env st src) src = MASTER_SOCKET_CREATE ↔
        ((env.is_local_controller = true ∨ src = CONT_SRC_UPLINK) ∨
          (src = CONT_SRC_MAIN ∧ master_state_get st CONT_SRC_UPLINK = MASTER_READY
            ∧ st.control_addr = true)))
      ∧ (¬ ((env.is_local_controller = true ∨ src = CONT_SRC_UPLINK) ∨
          (src = CONT_SRC_MAIN ∧ master_state_get st CONT_SRC_UPLINK = MASTER_READY
            ∧ st.control_addr = true)) →
          master_state_get (master_loop_idle env st src) src = MASTER_IDLE)
      ∧ (src = CONT_SRC_MAIN → env.is_local_controller = false →
          (master_state_get st CONT_SRC_UPLINK ≠ MASTER_READY ∨ st.control_addr = false) →
          master_state_get (master_loop_idle env st src) src = MASTER_IDLE) := by
  simp only [master_state_get_eq] at hidle ⊢
  have hstay : ¬ ((env.is_local_controller = true ∨ src = CONT_SRC_UPLINK) ∨
        (src = CONT_SRC_MAIN ∧ st.master_state.get CONT_SRC_UPLINK = MASTER_READY
          ∧ st.control_addr = true)) →
      (master_loop_idle env st src).master_state.get src = MASTER_IDLE := by
    intro hn
    have h1 : ¬ (env.is_local_controller = true ∨ src = CONT_SRC_UPLINK) := fun h => hn (Or.inl h)
    have h2 : ¬ (src = CONT_SRC_MAIN ∧ st.master_state.get CONT_SRC_UPLINK = MASTER_READY
          ∧ st.control_addr = true) := fun h => hn (Or.inr h)
    unfold master_loop_idle
    simp only [h1, if_false, master_state_get_eq, h2]
    exact hidle
  have hmove : ((env.is_local_controller = true ∨ src = CONT_SRC_UPLINK) ∨
        (src = CONT_SRC_MAIN ∧ st.master_state.get CONT_SRC_UPLINK = MASTER_READY
          ∧ st.control_addr = true)) →
      (master_loop_idle env st src).master_state.get src = MASTER_SOCKET_CREATE := by
    intro hc
    unfold master_loop_idle
    by_cases h1 : env.is_local_controller = true ∨ src = CONT_SRC_UPLINK
    · simp only [h1, if_true]
      split
      · next h3 => rw [h3.1]; exact set_master_state_self _ _ _ _
      · exact set_master_state_self _ _ _ _
    · rcases hc with hc | hc
      · exact absurd hc h1
      · obtain ⟨hsrc, hu, hca⟩ := hc
        subst hsrc
        simp only [if_neg h1, master_state_get_eq]
        rw [if_pos ⟨trivial, hu, hca⟩]
        exact set_master_state_self _ _ _ _
  refine ⟨⟨fun h => ?_, hmove⟩, hstay, fun hsrc hmode hgate => hstay ?_⟩
  · by_contra hn
    rw [hstay hn] at h
    cases h
  · subst hsrc
    rintro ((h | h) | ⟨_, h2, h3⟩)
    · rw [hmode] at h; cases h
    · cases h
    · rcases hgate with hg | hg
      · exact hg h2
      · rw [hg] at h3; cases h3

theorem C3_idle_guard_witness :
    (master_state_get (master_loop_idle env_remote (st_main_idle MASTER_READY)
        CONT_SRC_MAIN) CONT_SRC_MAIN = MASTER_SOCKET_CREATE)
      ∧ (master_state_get (master_loop_idle env_remote
          (st_main_idle MASTER_CONNECT) CONT_SRC_MAIN) CONT_SRC_MAIN
          = MASTER_IDLE) :=
  ⟨(C3_idle_guard env_remote (st_main_idle MASTER_READY) CONT_SRC_MAIN
      rfl).1.2 (Or.inr ⟨rfl, rfl, rfl⟩),
   (C3_idle_guard env_remote (st_main_idle MASTER_CONNECT) CONT_SRC_MAIN
      rfl).2.2 rfl rfl (Or.inl (by decide))⟩

/-- C4 (fails as stated): a delayed reset of the main source in Resync, with
one request outstanding and one message stashed, arms the reset timer and
enters Reset but leaves both lists as they were; and an immediate reset of
the uplink source leaves it in Reset (shutdown is requested), not in Idle. -/
theorem C4_delayed_reset_keeps_lists :
    ¬ ((reset_dataplane env_remote (st_main_resync 10000000000)
          CONT_SRC_MAIN true).response_list.get CONT_SRC_MAIN = []
        ∧ (reset_dataplane env_remote (st_main_resync 10000000000)
          CONT_SRC_MAIN true).resync_list.get CONT_SRC_MAIN = []
        ∧ master_state_get (reset_dataplane env_remote (st_main_resync 10000000000)
            CONT_SRC_MAIN true) CONT_SRC_MAIN = MASTER_RESET
        ∧ ((reset_dataplane env_remote (st_main_resync 10000000000)
          CONT_SRC_MAIN true).master_time.get CONT_SRC_MAIN).reset_timer.pending = true)
      ∧ ¬ ((reset_dataplane env_remote st_main_ready
          CONT_SRC_UPLINK false).response_list.get CONT_SRC_UPLINK = []
        ∧ (reset_dataplane env_remote st_main_ready
          CONT_SRC_UPLINK false).resync_list.get CONT_SRC_UPLINK = []
        ∧ master_state_get (reset_dataplane env_remote st_main_ready
            CONT_SRC_UPLINK false) CONT_SRC_UPLINK = MASTER_IDLE) := by
  refine ⟨fun h => ?_, fun h => ?_⟩
  · have h1 : (reset_dataplane env_remote (st_main_resync 10000000000)
        CONT_SRC_MAIN true).response_list.get CONT_SRC_MAIN = [rsp_port3] := rfl
    rw [h1] at h
    exact absurd h.1 (by simp)
  · have h1 : master_state_get (reset_dataplane env_remote st_main_ready
        CONT_SRC_UPLINK false) CONT_SRC_UPLINK = MASTER_RESET := rfl
    rw [h1] at h
    exact absurd h.2.2 (by decide)

/-- C4 (amended): `reset_dataplane(src, true)` leaves the source in Reset with
its reset timer pending for the current retry delay, and does not touch the
response list, the resync list, the retry delay of the source or `running`.
`reset_dataplane(CONT_SRC_MAIN, false)` with a remote controller (and tick
constants that are ordered, which holds when 40 * hz fits in 64 bits) leaves
the main source in Idle with both lists empty.  `reset_dataplane(src, false)`
for the uplink, or with a local controller, requests shutdown and leaves the
source in Reset with its lists untouched. -/
theorem C4_reset_dataplane_effects (env : Env) (st : State) (src : cont_src_en) :
    (master_state_get (reset_dataplane env st src true) src = MASTER_RESET
        ∧ ((reset_dataplane env st src true).master_time.get src).reset_timer
            = { pending := true, ticks := (st.master_time.get src).retry_delay,
                f := some (timer_fn.reset_timer_event src) }
        ∧ ((reset_dataplane env st src true).master_time.get src).retry_delay
            = (st.master_time.get src).retry_delay
        ∧ (reset_dataplane env st src true).response_list.get src = st.response_list.get src
        ∧ (reset_dataplane env st src true).resync_list.get src = st.resync_list.get src
        ∧ (reset_dataplane env st src true).running = st.running)
      ∧ (env.is_local_controller = false → src = CONT_SRC_MAIN →
          RETRY_MIN_TICKS env ≤ RETRY_MAX_DELAY_TICKS env →
          master_state_get (reset_dataplane env st src false) src = MASTER_IDLE
            ∧ (reset_dataplane env st src false).response_list.get src = []
            ∧ (reset_dataplane env st src false).resync_list.get src = []
            ∧ (reset_dataplane env st src false).running = st.running)
      ∧ ((env.is_local_controller = true ∨ src = CONT_SRC_UPLINK) →
          master_state_get (reset_dataplane env st src false) src = MASTER_RESET
            ∧ (reset_dataplane env st src false).running = false
            ∧ (reset_dataplane env st src false).response_list.get src
                = st.response_list.get src
            ∧ (reset_dataplane env st src false).resync_list.get src
                = st.resync_list.get src) := by
  refine ⟨?_, ?_, ?_⟩
  · rw [reset_dataplane_delayed]
    simp only [master_state_get_eq, per_src_get_set_same, flushed_master_state,
      flushed_master_time, flushed_response_list, flushed_resync_list, flushed_running,
      rte_timer_reset, and_self]
  · intro hmode hsrc hle
    subst hsrc
    rw [reset_dataplane_immediate, reset_timer_event_retry env _ hmode
      (by simpa [set_retry_delay] using hle)]
    have hne : ∀ v w : Nat, (set_retry_delay
        (set_retry_delay (reset_dataplane_flushed env st CONT_SRC_MAIN) CONT_SRC_MAIN v)
        CONT_SRC_MAIN w).master_state.get CONT_SRC_MAIN ≠ MASTER_IDLE := by
      intro v w
      simp only [set_retry_delay_master_state, flushed_master_state]
      decide
    refine ⟨set_master_state_get_self _ _ _ _, (set_main_idle_lists env _ hmode (hne _ _)).1,
      (set_main_idle_lists env _ hmode (hne _ _)).2, ?_⟩
    rw [set_running]
    exact flushed_running env st CONT_SRC_MAIN
  · intro h
    rw [reset_dataplane_immediate, reset_timer_event_shutdown env _ src
      (h.elim Or.inl (fun h2 => Or.inr (Or.inl h2)))]
    refine ⟨?_, rfl, ?_, ?_⟩
    · exact flushed_master_state env st src
    · exact flushed_response_list env st src
    · exact flushed_resync_list env st src

theorem C4_reset_dataplane_effects_witness :
    (master_state_get (reset_dataplane env_remote
        (st_main_resync 10000000000) CONT_SRC_MAIN false) CONT_SRC_MAIN
        = MASTER_IDLE
      ∧ (reset_dataplane env_remote (st_main_resync 10000000000)
          CONT_SRC_MAIN false).response_list.get CONT_SRC_MAIN = []
      ∧ (reset_dataplane env_remote (st_main_resync 10000000000)
          CONT_SRC_MAIN false).resync_list.get CONT_SRC_MAIN = []
      ∧ (reset_dataplane env_remote (st_main_resync 10000000000)
          CONT_SRC_MAIN false).running
          = (st_main_resync 10000000000).running)
    ∧ (master_state_get (reset_dataplane env_remote
        (st_main_ready) CONT_SRC_UPLINK false) CONT_SRC_UPLINK
        = MASTER_RESET
      ∧ (reset_dataplane env_remote (st_main_ready)
          CONT_SRC_UPLINK false).running = false
      ∧ (reset_dataplane env_remote (st_main_ready)
          CONT_SRC_UPLINK false).response_list.get CONT_SRC_UPLINK
          = (st_main_ready).response_list.get CONT_SRC_UPLINK
      ∧ (reset_dataplane env_remote (st_main_ready)
          CONT_SRC_UPLINK false).resync_list.get CONT_SRC_UPLINK
          = (st_main_ready).resync_list.get CONT_SRC_UPLINK) :=
  ⟨(C4_reset_dataplane_effects env_remote (st_main_resync 10000000000)
      CONT_SRC_MAIN).2.1 rfl rfl (by decide),
   (C4_reset_dataplane_effects env_remote (st_main_ready)
      CONT_SRC_UPLINK).2.2 (Or.inr rfl)⟩

/-- C5 (the code differs): with a remote controller and a 1 GHz timer the
minimum retry delay is 10^10 ticks, yet after `reset_dataplane(CONT_SRC_MAIN,
false)` on a main source in Ready with the minimum retry delay, the retry
delay is 2 * 10^10 ticks, and it is 2 * 10^10 ticks again after a second call. -/
theorem C5_operator_reset_retry_delay :
    RETRY_MIN_TICKS env_remote = 10000000000
      ∧ ((reset_dataplane env_remote (st_main_ready)
          CONT_SRC_MAIN false).master_time.get CONT_SRC_MAIN).retry_delay = 20000000000
      ∧ ((reset_dataplane env_remote
          (reset_dataplane env_remote (st_main_ready)
            CONT_SRC_MAIN false) CONT_SRC_MAIN false).master_time.get CONT_SRC_MAIN).retry_delay
          = 20000000000 :=
  ⟨rfl, rfl, rfl⟩

/-- C6 (fails as stated): when the reset timer event runs for the uplink
source, whose retry delay (the minimum) is below the ceiling, the retry delay
is not increased, the source is not moved to Idle and shutdown is requested;
the same happens for the main source with a local controller. -/
theorem C6_uplink_timer_event_no_increment :
    ((st_main_idle MASTER_RESET).master_time.get CONT_SRC_UPLINK).retry_delay
        ≤ RETRY_MAX_DELAY_TICKS env_remote
      ∧ ¬ (((reset_timer_event env_remote (st_main_idle MASTER_RESET)
            CONT_SRC_UPLINK).master_time.get CONT_SRC_UPLINK).retry_delay
            = ((st_main_idle MASTER_RESET).master_time.get CONT_SRC_UPLINK).retry_delay
                + RETRY_MIN_TICKS env_remote
          ∧ master_state_get (reset_timer_event env_remote (st_main_idle MASTER_RESET)
              CONT_SRC_UPLINK) CONT_SRC_UPLINK = MASTER_IDLE
          ∧ (reset_timer_event env_remote (st_main_idle MASTER_RESET)
              CONT_SRC_UPLINK).running = true)
      ∧ ((st_local MASTER_RESET).master_time.get CONT_SRC_MAIN).retry_delay
          ≤ RETRY_MAX_DELAY_TICKS env_local
      ∧ ¬ (((reset_timer_event env_local (st_local MASTER_RESET)
            CONT_SRC_MAIN).master_time.get CONT_SRC_MAIN).retry_delay
            = ((st_local MASTER_RESET).master_time.get CONT_SRC_MAIN).retry_delay
                + RETRY_MIN_TICKS env_local
          ∧ master_state_get (reset_timer_event env_local (st_local MASTER_RESET)
              CONT_SRC_MAIN) CONT_SRC_MAIN = MASTER_IDLE
          ∧ (reset_timer_event env_local (st_local MASTER_RESET)
              CONT_SRC_MAIN).running = true) := by
  refine ⟨by decide, fun h => ?_, by decide, fun h => ?_⟩
  · have h1 : (reset_timer_event env_remote (st_main_idle MASTER_RESET)
        CONT_SRC_UPLINK).running = false := rfl
    rw [h1] at h
    exact absurd h.2.2 (by decide)
  · have h1 : (reset_timer_event env_local (st_local MASTER_RESET)
        CONT_SRC_MAIN).running = false := rfl
    rw [h1] at h
    exact absurd h.2.2 (by decide)

/-- C6 (amended): with a remote controller, when the reset timer event runs
for the main source while its retry delay `d` is at most
RETRY_MAX_DELAY_TICKS, the retry delay becomes `d + RETRY_MIN_TICKS` in 64-bit
arithmetic (the exact sum whenever that fits in 64 bits), the main source
ends in Idle and `running` is left as it was. -/
theorem C6_main_timer_event_increment (env : Env) (st : State)
    (hmode : env.is_local_controller = false)
    (hd : (st.master_time.get CONT_SRC_MAIN).retry_delay ≤ RETRY_MAX_DELAY_TICKS env) :
    ((reset_timer_event env st CONT_SRC_MAIN).master_time.get CONT_SRC_MAIN).retry_delay
        = ((st.master_time.get CONT_SRC_MAIN).retry_delay + RETRY_MIN_TICKS env) % 2 ^ 64
      ∧ ((st.master_time.get CONT_SRC_MAIN).retry_delay + RETRY_MIN_TICKS env < 2 ^ 64 →
          ((reset_timer_event env st CONT_SRC_MAIN).master_time.get CONT_SRC_MAIN).retry_delay
            = (st.master_time.get CONT_SRC_MAIN).retry_delay + RETRY_MIN_TICKS env)
      ∧ master_state_get (reset_timer_event env st CONT_SRC_MAIN) CONT_SRC_MAIN = MASTER_IDLE
      ∧ (reset_timer_event env st CONT_SRC_MAIN).running = st.running := by
  have hdelay : ((reset_timer_event env st CONT_SRC_MAIN).master_time.get
      CONT_SRC_MAIN).retry_delay
        = ((st.master_time.get CONT_SRC_MAIN).retry_delay + RETRY_MIN_TICKS env) % 2 ^ 64 := by
    rw [reset_timer_event_retry env st hmode hd,
      set_master_time_of_ne_ready _ _ _ _ (by decide), set_retry_delay_get_self]
  refine ⟨hdelay, fun hlt => ?_, ?_, ?_⟩
  · rw [hdelay, Nat.mod_eq_of_lt hlt]
  · rw [reset_timer_event_retry env st hmode hd]
    exact set_master_state_get_self _ _ _ _
  · rw [reset_timer_event_retry env st hmode hd, set_running, set_retry_delay_running]

theorem C6_main_timer_event_increment_witness :
    ((reset_timer_event env_remote (st_main_reset 30000000000)
        CONT_SRC_MAIN).master_time.get CONT_SRC_MAIN).retry_delay
        = (((st_main_reset 30000000000).master_time.get
            CONT_SRC_MAIN).retry_delay + RETRY_MIN_TICKS env_remote) % 2 ^ 64
      ∧ (((st_main_reset 30000000000).master_time.get
            CONT_SRC_MAIN).retry_delay + RETRY_MIN_TICKS env_remote < 2 ^ 64 →
          ((reset_timer_event env_remote (st_main_reset 30000000000)
            CONT_SRC_MAIN).master_time.get CONT_SRC_MAIN).retry_delay
            = ((st_main_reset 30000000000).master_time.get
                CONT_SRC_MAIN).retry_delay + RETRY_MIN_TICKS env_remote)
      ∧ master_state_get (reset_timer_event env_remote
          (st_main_reset 30000000000) CONT_SRC_MAIN) CONT_SRC_MAIN
          = MASTER_IDLE
      ∧ (reset_timer_event env_remote (st_main_reset 30000000000)
          CONT_SRC_MAIN).running = (st_main_reset 30000000000).running :=
  C6_main_timer_event_increment env_remote (st_main_reset 30000000000)
    rfl (by decide)

/-- C7: when the reset timer event runs for a source whose retry delay is
strictly greater than RETRY_MAX_DELAY_TICKS, `running` becomes false and
nothing else changes: the session states, the retry delays and the timers of
both sources are as before. -/
theorem C7_timer_event_over_ceiling (env : Env) (st : State) (src : cont_src_en)
    (hd : (st.master_time.get src).retry_delay > RETRY_MAX_DELAY_TICKS env) :
    (reset_timer_event env st src).running = false
      ∧ master_state_get (reset_timer_event env st src) src = master_state_get st src
      ∧ ((reset_timer_event env st src).master_time.get src).retry_delay
          = (st.master_time.get src).retry_delay
      ∧ (reset_timer_event env st src).master_state = st.master_state
      ∧ (reset_timer_event env st src).master_time = st.master_time := by
  rw [reset_timer_event_shutdown env st src (Or.inr (Or.inr hd))]
  exact ⟨rfl, rfl, rfl, rfl, rfl⟩

theorem C7_timer_event_over_ceiling_witness :
    (reset_timer_event env_remote (st_main_reset 50000000000)
        CONT_SRC_MAIN).running = false
      ∧ master_state_get (reset_timer_event env_remote
          (st_main_reset 50000000000) CONT_SRC_MAIN) CONT_SRC_MAIN
          = master_state_get (st_main_reset 50000000000) CONT_SRC_MAIN
      ∧ ((reset_timer_event env_remote (st_main_reset 50000000000)
          CONT_SRC_MAIN).master_time.get CONT_SRC_MAIN).retry_delay
          = ((st_main_reset 50000000000).master_time.get
              CONT_SRC_MAIN).retry_delay
      ∧ (reset_timer_event env_remote (st_main_reset 50000000000)
          CONT_SRC_MAIN).master_state
          = (st_main_reset 50000000000).master_state
      ∧ (reset_timer_event env_remote (st_main_reset 50000000000)
          CONT_SRC_MAIN).master_time
          = (st_main_reset 50000000000).master_time :=
  C7_timer_event_over_ceiling env_remote (st_main_reset 50000000000)
    CONT_SRC_MAIN (by decide)

/-- C8 (fails as stated): with a remote controller and a 1 GHz timer, when the
reset timer event runs for the main source with retry delay equal to
RETRY_MAX_DELAY_TICKS (40 s), `running` stays true and the main source is
moved to Idle. -/
theorem C8_at_ceiling_no_shutdown :
    ((st_main_reset 40000000000).master_time.get
        CONT_SRC_MAIN).retry_delay = RETRY_MAX_DELAY_TICKS env_remote
      ∧ ¬ ((reset_timer_event env_remote (st_main_reset 40000000000)
            CONT_SRC_MAIN).running = false
          ∧ master_state_get (reset_timer_event env_remote
              (st_main_reset 40000000000) CONT_SRC_MAIN) CONT_SRC_MAIN
              ≠ MASTER_IDLE) := by
  refine ⟨rfl, fun h => ?_⟩
  have h1 : (reset_timer_event env_remote (st_main_reset 40000000000)
      CONT_SRC_MAIN).running = true := rfl
  rw [h1] at h
  exact absurd h.1 (by decide)

/-- C8 (amended): when the reset timer event runs for a source whose retry
delay equals RETRY_MAX_DELAY_TICKS, the main source with a remote controller
is not shut down: `running` is left as it was, the retry delay becomes
RETRY_MAX_DELAY_TICKS + RETRY_MIN_TICKS in 64-bit arithmetic and the source
ends in Idle.  For the uplink source, or with a local controller, `running`
becomes false and the session state and retry delay are unchanged. -/
theorem C8_timer_event_at_ceiling (env : Env) (st : State) (src : cont_src_en)
    (hd : (st.master_time.get src).retry_delay = RETRY_MAX_DELAY_TICKS env) :
    (env.is_local_controller = false → src = CONT_SRC_MAIN →
        (reset_timer_event env st src).running = st.running
          ∧ master_state_get (reset_timer_event env st src) src = MASTER_IDLE
          ∧ ((reset_timer_event env st src).master_time.get src).retry_delay
              = (RETRY_MAX_DELAY_TICKS env + RETRY_MIN_TICKS env) % 2 ^ 64)
      ∧ ((env.is_local_controller = true ∨ src = CONT_SRC_UPLINK) →
        (reset_timer_event env st src).running = false
          ∧ master_state_get (reset_timer_event env st src) src = master_state_get st src
          ∧ ((reset_timer_event env st src).master_time.get src).retry_delay
              = (st.master_time.get src).retry_delay) := by
  refine ⟨fun hmode hsrc => ?_, fun h => ?_⟩
  · subst hsrc
    have hle : (st.master_time.get CONT_SRC_MAIN).retry_delay ≤ RETRY_MAX_DELAY_TICKS env :=
      le_of_eq hd
    rw [reset_timer_event_retry env st hmode hle]
    refine ⟨?_, set_master_state_get_self _ _ _ _, ?_⟩
    · rw [set_running, set_retry_delay_running]
    · rw [set_master_time_of_ne_ready _ _ _ _ (by decide), set_retry_delay_get_self, hd]
  · rw [reset_timer_event_shutdown env st src (h.elim Or.inl (fun h2 => Or.inr (Or.inl h2)))]
    exact ⟨rfl, rfl, rfl⟩

theorem C8_timer_event_at_ceiling_witness :
    (reset_timer_event env_remote (st_main_reset 40000000000)
        CONT_SRC_MAIN).running = (st_main_reset 40000000000).running
      ∧ master_state_get (reset_timer_event env_remote
          (st_main_reset 40000000000) CONT_SRC_MAIN) CONT_SRC_MAIN
          = MASTER_IDLE
      ∧ ((reset_timer_event env_remote (st_main_reset 40000000000)
          CONT_SRC_MAIN).master_time.get CONT_SRC_MAIN).retry_delay
          = (RETRY_MAX_DELAY_TICKS env_remote + RETRY_MIN_TICKS env_remote) % 2 ^ 64 :=
  (C8_timer_event_at_ceiling env_remote (st_main_reset 40000000000)
    CONT_SRC_MAIN rfl).1 rfl rfl

/-- C9 (fails as stated): with a local controller, two fault-triggered resets
of the main source followed by one expiry of its reset timer leave the retry
delay at its original value (the event only requests shutdown); it is not the
original delay plus RETRY_MIN_TICKS. -/
theorem C9_local_controller_no_increment :
    ((st_local MASTER_CONNECT_WAIT).master_time.get CONT_SRC_MAIN).retry_delay
        ≤ RETRY_MAX_DELAY_TICKS env_local
      ∧ ¬ (((reset_timer_fire env_local
            (reset_dataplane_delayed_n env_local (st_local MASTER_CONNECT_WAIT) CONT_SRC_MAIN 2)
            CONT_SRC_MAIN).master_time.get CONT_SRC_MAIN).retry_delay
          = ((st_local MASTER_CONNECT_WAIT).master_time.get CONT_SRC_MAIN).retry_delay
              + RETRY_MIN_TICKS env_local) := by
  refine ⟨by decide, fun h => ?_⟩
  have h1 : ((reset_timer_fire env_local
      (reset_dataplane_delayed_n env_local (st_local MASTER_CONNECT_WAIT) CONT_SRC_MAIN 2)
      CONT_SRC_MAIN).master_time.get CONT_SRC_MAIN).retry_delay = 10000000000 := rfl
  have h2 : ((st_local MASTER_CONNECT_WAIT).master_time.get CONT_SRC_MAIN).retry_delay
      + RETRY_MIN_TICKS env_local = 20000000000 := rfl
  rw [h1, h2] at h
  exact absurd h (by decide)

/-- C9 (amended): `reset_dataplane(src, true)` does not change the retry delay
of `src`; after `k ≥ 1` such calls the reset timer of `src` is pending, armed
once for the original retry delay `d`.  With a remote controller, when that
timer then fires for the main source with `d` at most RETRY_MAX_DELAY_TICKS,
the retry delay is `d + RETRY_MIN_TICKS` in 64-bit arithmetic (one increment,
whatever `k`), the main source is in Idle, and the timer is no longer pending,
so that a further expiry pass changes nothing. -/
theorem C9_delayed_resets_single_increment (env : Env) (st : State) (src : cont_src_en)
    (k : Nat) (hk : 1 ≤ k) :
    ((reset_dataplane env st src true).master_time.get src).retry_delay
        = (st.master_time.get src).retry_delay
      ∧ ((reset_dataplane_delayed_n env st src k).master_time.get src).retry_delay
          = (st.master_time.get src).retry_delay
      ∧ ((reset_dataplane_delayed_n env st src k).master_time.get src).reset_timer
          = { pending := true, ticks := (st.master_time.get src).retry_delay,
              f := some (timer_fn.reset_timer_event src) }
      ∧ (env.is_local_controller = false → src = CONT_SRC_MAIN →
          (st.master_time.get src).retry_delay ≤ RETRY_MAX_DELAY_TICKS env →
          ((reset_timer_fire env (reset_dataplane_delayed_n env st src k) src).master_time.get
              src).retry_delay
              = ((st.master_time.get src).retry_delay + RETRY_MIN_TICKS env) % 2 ^ 64
            ∧ ((st.master_time.get src).retry_delay + RETRY_MIN_TICKS env < 2 ^ 64 →
              ((reset_timer_fire env (reset_dataplane_delayed_n env st src k)
                src).master_time.get src).retry_delay
                = (st.master_time.get src).retry_delay + RETRY_MIN_TICKS env)
            ∧ master_state_get (reset_timer_fire env (reset_dataplane_delayed_n env st src k)
                src) src = MASTER_IDLE
            ∧ ((reset_timer_fire env (reset_dataplane_delayed_n env st src k)
                src).master_time.get src).reset_timer.pending = false
            ∧ reset_timer_fire env
                (reset_timer_fire env (reset_dataplane_delayed_n env st src k) src) src
                = reset_timer_fire env (reset_dataplane_delayed_n env st src k) src) := by
  refine ⟨reset_dataplane_true_retry_delay env st src, delayed_n_retry_delay env st src k,
    delayed_n_reset_timer env st src k hk, fun hmode hsrc hd => ?_⟩
  subst hsrc
  have hfire := reset_timer_fire_armed env (reset_dataplane_delayed_n env st CONT_SRC_MAIN k)
    CONT_SRC_MAIN _ (delayed_n_reset_timer env st CONT_SRC_MAIN k hk)
  have hd1 : ((reset_timer_stopped (reset_dataplane_delayed_n env st CONT_SRC_MAIN k)
      CONT_SRC_MAIN).master_time.get CONT_SRC_MAIN).retry_delay
        = (st.master_time.get CONT_SRC_MAIN).retry_delay := by
    rw [reset_timer_stopped_retry_delay, delayed_n_retry_delay]
  have hev := reset_timer_event_retry env
    (reset_timer_stopped (reset_dataplane_delayed_n env st CONT_SRC_MAIN k) CONT_SRC_MAIN)
    hmode (by rw [hd1]; exact hd)
  have hdelay : ((reset_timer_fire env (reset_dataplane_delayed_n env st CONT_SRC_MAIN k)
      CONT_SRC_MAIN).master_time.get CONT_SRC_MAIN).retry_delay
        = ((st.master_time.get CONT_SRC_MAIN).retry_delay + RETRY_MIN_TICKS env) % 2 ^ 64 := by
    rw [hfire, hev, set_master_time_of_ne_ready _ _ _ _ (by decide), set_retry_delay_get_self,
      hd1]
  have hpend : ((reset_timer_fire env (reset_dataplane_delayed_n env st CONT_SRC_MAIN k)
      CONT_SRC_MAIN).master_time.get CONT_SRC_MAIN).reset_timer.pending = false := by
    rw [hfire, hev, set_master_time_of_ne_ready _ _ _ _ (by decide),
      set_retry_delay_reset_timer, reset_timer_stopped_pending]
  refine ⟨hdelay, fun hlt => ?_, ?_, hpend, reset_timer_fire_idle env _ _ hpend⟩
  · rw [hdelay, Nat.mod_eq_of_lt hlt]
  · rw [hfire, hev]
    exact set_master_state_get_self _ _ _ _

theorem C9_delayed_resets_single_increment_witness :
    ((reset_timer_fire env_remote
        (reset_dataplane_delayed_n env_remote (st_main_resync 20000000000)
          CONT_SRC_MAIN 3) CONT_SRC_MAIN).master_time.get CONT_SRC_MAIN).retry_delay
        = (((st_main_resync 20000000000).master_time.get
            CONT_SRC_MAIN).retry_delay + RETRY_MIN_TICKS env_remote) % 2 ^ 64
      ∧ master_state_get (reset_timer_fire env_remote
          (reset_dataplane_delayed_n env_remote
            (st_main_resync 20000000000) CONT_SRC_MAIN 3) CONT_SRC_MAIN)
          CONT_SRC_MAIN = MASTER_IDLE :=
  ⟨((C9_delayed_resets_single_increment env_remote
      (st_main_resync 20000000000) CONT_SRC_MAIN 3
      (by decide)).2.2.2 rfl rfl (by decide)).1,
   ((C9_delayed_resets_single_increment env_remote
      (st_main_resync 20000000000) CONT_SRC_MAIN 3
      (by decide)).2.2.2 rfl rfl (by decide)).2.2.1⟩

/-! ## The record of calls -/

@[simp]
theorem record_master_state (st : State) (cs : List ext_call) :
    (record st cs).master_state = st.master_state := rfl

@[simp]
theorem record_master_state_stats (st : State) (cs : List ext_call) :
    (record st cs).master_state_stats = st.master_state_stats := rfl

@[simp]
theorem record_master_time (st : State) (cs : List ext_call) :
    (record st cs).master_time = st.master_time := rfl

@[simp]
theorem record_response_list (st : State) (cs : List ext_call) :
    (record st cs).response_list = st.response_list := rfl

@[simp]
theorem record_resync_list (st : State) (cs : List ext_call) :
    (record st cs).resync_list = st.resync_list := rfl

@[simp]
theorem record_control_addr (st : State) (cs : List ext_call) :
    (record st cs).control_addr = st.control_addr := rfl

@[simp]
theorem record_running (st : State) (cs : List ext_call) :
    (record st cs).running = st.running := rfl

@[simp]
theorem record_calls (st : State) (cs : List ext_call) :
    (record st cs).calls = st.calls ++ cs := rfl

theorem calls_grow_refl (P : ext_call → Bool) (st : State) : calls_grow P st st :=
  ⟨[], by simp, by simp⟩

theorem calls_grow_of_eq (P : ext_call → Bool) {a b : State} (h : b.calls = a.calls) :
    calls_grow P a b :=
  ⟨[], by simp [h], by simp⟩

theorem calls_grow_trans {P : ext_call → Bool} {a b d : State}
    (h1 : calls_grow P a b) (h2 : calls_grow P b d) : calls_grow P a d := by
  obtain ⟨xs, hx, hxs⟩ := h1
  obtain ⟨ys, hy, hys⟩ := h2
  refine ⟨xs ++ ys, by rw [hy, hx, List.append_assoc], ?_⟩
  intro x hx'
  rcases List.mem_append.mp hx' with h | h
  · exact hxs x h
  · exact hys x h

theorem calls_grow_mono {P Q : ext_call → Bool} (h : ∀ x, P x = true → Q x = true)
    {a b : State} (hab : calls_grow P a b) : calls_grow Q a b := by
  obtain ⟨xs, hx, hxs⟩ := hab
  exact ⟨xs, hx, fun x hx' => h x (hxs x hx')⟩

theorem calls_grow_record (P : ext_call → Bool) (st : State) (cs : List ext_call)
    (h : ∀ x ∈ cs, P x = true) : calls_grow P st (record st cs) :=
  ⟨cs, rfl, h⟩

theorem filterMap_eq_nil_of_forall {β : Type} (f : ext_call → Option β) (xs : List ext_call)
    (h : ∀ x ∈ xs, f x = none) : xs.filterMap f = [] := by
  induction xs with
  | nil => rfl
  | cons x rest ih =>
    have hx : f x = none := h x (List.mem_cons_self _ _)
    rw [List.filterMap_cons, hx]
    exact ih (fun y hy => h y (List.mem_cons_of_mem _ hy))

theorem calls_grow_filterMap {β : Type} (f : ext_call → Option β) {P : ext_call → Bool}
    {a b : State} (h : calls_grow P a b) (hf : ∀ x, P x = true → f x = none) :
    b.calls.filterMap f = a.calls.filterMap f := by
  obtain ⟨xs, hx, hxs⟩ := h
  rw [hx, List.filterMap_append,
    filterMap_eq_nil_of_forall f xs (fun x hx' => hf x (hxs x hx')), List.append_nil]

theorem calls_grow_filter (p : ext_call → Bool) {P : ext_call → Bool}
    {a b : State} (h : calls_grow P a b) (hf : ∀ x, P x = true → p x = false) :
    b.calls.filter p = a.calls.filter p := by
  obtain ⟨xs, hx, hxs⟩ := h
  have hnil : xs.filter p = [] := by
    rw [List.filter_eq_nil_iff]
    intro x hx'
    rw [hf x (hxs x hx')]
    simp
  rw [hx, List.filter_append, hnil, List.append_nil]

theorem store_calls (env : Env) (st : State) (cont_src : cont_src_en)
    (new_state : master_state_en) :
    (master_state_set_store env st cont_src new_state).calls
      = if env.is_local_controller = false ∧ cont_src = CONT_SRC_MAIN ∧ new_state = MASTER_IDLE
        then st.calls ++ [ext_call.console_unbind CONT_SRC_MAIN,
          ext_call.controller_unsubscribe CONT_SRC_MAIN,
          ext_call.route_broker_unsubscribe CONT_SRC_MAIN]
        else st.calls := by
  unfold master_state_set_store
  by_cases h : env.is_local_controller = false ∧ cont_src = CONT_SRC_MAIN
  · obtain ⟨h1, h2⟩ := h
    subst h2
    cases new_state <;>
      simp [h1, master_state_info, master_cleanup, cleanup_resync, cleanup_responses,
        set_retry_delay]
  · have h' : ¬ (env.is_local_controller = false ∧ cont_src = CONT_SRC_MAIN
        ∧ new_state = MASTER_IDLE) := fun hh => h ⟨hh.1, hh.2.1⟩
    simp [h, h', master_state_info]

theorem store_calls_grow (env : Env) (st : State) (cont_src : cont_src_en)
    (new_state : master_state_en) :
    calls_grow is_reset_call st (master_state_set_store env st cont_src new_state) := by
  by_cases h : env.is_local_controller = false ∧ cont_src = CONT_SRC_MAIN
      ∧ new_state = MASTER_IDLE
  · refine ⟨_, by rw [store_calls, if_pos h], ?_⟩
    intro x hx
    simp only [List.mem_cons, List.mem_singleton, List.not_mem_nil, or_false] at hx
    rcases hx with hx | hx | hx <;> subst hx <;> rfl
  · exact calls_grow_of_eq _ (by rw [store_calls, if_neg h])

theorem set_calls_grow (env : Env) (st : State) (cont_src : cont_src_en)
    (new_state : master_state_en) :
    calls_grow is_reset_call st (master_state_set env st cont_src new_state) := by
  rw [master_state_set_unfold]
  split
  · exact calls_grow_refl _ _
  · refine calls_grow_trans ?_ (store_calls_grow env _ cont_src new_state)
    split
    · split
      · exact calls_grow_refl _ _
      · exact store_calls_grow env st CONT_SRC_MAIN MASTER_IDLE
    · exact calls_grow_refl _ _

theorem reset_dataplane_true_calls_grow (env : Env) (st : State) (cont_src : cont_src_en) :
    calls_grow is_reset_call st (reset_dataplane env st cont_src true) := by
  have h1 : calls_grow is_reset_call (master_state_set env st cont_src MASTER_RESET)
      (reset_dataplane env st cont_src true) := by
    refine ⟨_, rfl, ?_⟩
    intro x hx
    simp only [List.mem_cons, List.mem_singleton, List.not_mem_nil, or_false] at hx
    rcases hx with hx | hx | hx | hx | hx <;> subst hx <;> rfl
  exact calls_grow_trans (set_calls_grow env st cont_src MASTER_RESET) h1

/-! ### What a delayed reset leaves in place -/

theorem reset_dataplane_true_state (env : Env) (st : State) (cont_src : cont_src_en) :
    (reset_dataplane env st cont_src true).master_state.get cont_src = MASTER_RESET := by
  rw [reset_dataplane_delayed]
  exact flushed_master_state env st cont_src

theorem reset_dataplane_true_response_list (env : Env) (st : State) (cont_src : cont_src_en) :
    (reset_dataplane env st cont_src true).response_list.get cont_src
      = st.response_list.get cont_src := by
  rw [reset_dataplane_delayed]
  exact flushed_response_list env st cont_src

theorem reset_dataplane_true_resync_list (env : Env) (st : State) (cont_src : cont_src_en) :
    (reset_dataplane env st cont_src true).resync_list.get cont_src
      = st.resync_list.get cont_src := by
  rw [reset_dataplane_delayed]
  exact flushed_resync_list env st cont_src

/-! ## The drain of the resync list -/

@[simp]
theorem with_resync_list_master_state (st : State) (cont_src : cont_src_en) (q : List zmsg_t) :
    (with_resync_list st cont_src q).master_state = st.master_state := rfl

@[simp]
theorem with_resync_list_master_state_stats (st : State) (cont_src : cont_src_en)
    (q : List zmsg_t) :
    (with_resync_list st cont_src q).master_state_stats = st.master_state_stats := rfl

@[simp]
theorem with_resync_list_master_time (st : State) (cont_src : cont_src_en) (q : List zmsg_t) :
    (with_resync_list st cont_src q).master_time = st.master_time := rfl

@[simp]
theorem with_resync_list_response_list (st : State) (cont_src : cont_src_en)
    (q : List zmsg_t) :
    (with_resync_list st cont_src q).response_list = st.response_list := rfl

@[simp]
theorem with_resync_list_calls (st : State) (cont_src : cont_src_en) (q : List zmsg_t) :
    (with_resync_list st cont_src q).calls = st.calls := rfl

@[simp]
theorem with_resync_list_running (st : State) (cont_src : cont_src_en) (q : List zmsg_t) :
    (with_resync_list st cont_src q).running = st.running := rfl

@[simp]
theorem with_resync_list_get (st : State) (cont_src : cont_src_en) (q : List zmsg_t) :
    (with_resync_list st cont_src q).resync_list.get cont_src = q := by
  simp [with_resync_list]

@[simp]
theorem with_response_list_master_state (st : State) (cont_src : cont_src_en)
    (l : List response) :
    (with_response_list st cont_src l).master_state = st.master_state := rfl

@[simp]
theorem with_response_list_master_state_stats (st : State) (cont_src : cont_src_en)
    (l : List response) :
    (with_response_list st cont_src l).master_state_stats = st.master_state_stats := rfl

@[simp]
theorem with_response_list_master_time (st : State) (cont_src : cont_src_en)
    (l : List response) :
    (with_response_list st cont_src l).master_time = st.master_time := rfl

@[simp]
theorem with_response_list_resync_list (st : State) (cont_src : cont_src_en)
    (l : List response) :
    (with_response_list st cont_src l).resync_list = st.resync_list := rfl

@[simp]
theorem with_response_list_calls (st : State) (cont_src : cont_src_en) (l : List response) :
    (with_response_list st cont_src l).calls = st.calls := rfl

@[simp]
theorem with_response_list_running (st : State) (cont_src : cont_src_en) (l : List response) :
    (with_response_list st cont_src l).running = st.running := rfl

@[simp]
theorem with_response_list_get (st : State) (cont_src : cont_src_en) (l : List response) :
    (with_response_list st cont_src l).response_list.get cont_src = l := by
  simp [with_response_list]

/-- With a response still expected the loop does not pop anything. -/
theorem drain_pending (env : Env) (c : Collab) (cont_src : cont_src_en) (q : List zmsg_t)
    (st : State) (h : st.response_list.get cont_src ≠ []) :
    async_response_drain env c cont_src q st = st := by
  cases q with
  | nil => rfl
  | cons m rest =>
    have hlen : ¬ (st.response_list.get cont_src).length = 0 := by
      rw [List.length_eq_zero]; exact h
    simp only [async_response_drain, hlen, if_false]

/-- One round of the loop when no response is expected. -/
theorem drain_cons (env : Env) (c : Collab) (cont_src : cont_src_en) (m : zmsg_t)
    (rest : List zmsg_t) (st : State) (h : st.response_list.get cont_src = []) :
    async_response_drain env c cont_src (m :: rest) st
      = if c.dpmsg_convert_zmsg m < 0 then
          reset_dataplane env
            (record (with_resync_list st cont_src rest) [ext_call.dpmsg_convert_zmsg m])
            cont_src true
        else if (c.process_snapshot_one cont_src m).1 < 0 then
          reset_dataplane env
            (record (with_resync_list st cont_src rest)
              [ext_call.dpmsg_convert_zmsg m, ext_call.process_snapshot_one cont_src m])
            cont_src true
        else if (c.process_snapshot_one cont_src m).2 = true then
          async_response_drain env c cont_src rest
            (record (master_state_set env
              (record (with_resync_list st cont_src rest)
                [ext_call.dpmsg_convert_zmsg m, ext_call.process_snapshot_one cont_src m])
              cont_src MASTER_READY)
              [ext_call.controller_init_event_handler cont_src,
               ext_call.route_broker_init_event_handler cont_src])
        else
          async_response_drain env c cont_src rest
            (record (with_resync_list st cont_src rest)
              [ext_call.dpmsg_convert_zmsg m, ext_call.process_snapshot_one cont_src m]) := by
  have hlen : (st.response_list.get cont_src).length = 0 := by rw [h]; rfl
  have hrec : record (record (with_resync_list st cont_src rest)
      [ext_call.dpmsg_convert_zmsg m]) [ext_call.process_snapshot_one cont_src m]
      = record (with_resync_list st cont_src rest)
        [ext_call.dpmsg_convert_zmsg m, ext_call.process_snapshot_one cont_src m] := by
    simp [record]
  simp only [async_response_drain, hlen, if_true, hrec]

theorem snapshot_applied_append (cont_src : cont_src_en) (a b : List ext_call) :
    snapshot_applied cont_src (a ++ b)
      = snapshot_applied cont_src a ++ snapshot_applied cont_src b := by
  unfold snapshot_applied
  exact List.filterMap_append _ _ _

theorem snapshot_applied_of_reset_grow (cont_src : cont_src_en) {a b : State}
    (h : calls_grow is_reset_call a b) :
    snapshot_applied cont_src b.calls = snapshot_applied cont_src a.calls := by
  unfold snapshot_applied
  refine calls_grow_filterMap _ h ?_
  intro x hx
  cases x <;> first | rfl | cases hx

/-- State in which the loop goes on after a message that reported the end of
the snapshot. -/
theorem drain_ready_step_facts (env : Env) (cont_src : cont_src_en) (m : zmsg_t)
    (rest : List zmsg_t) (st : State) :
    (record (master_state_set env
        (record (with_resync_list st cont_src rest)
          [ext_call.dpmsg_convert_zmsg m, ext_call.process_snapshot_one cont_src m])
        cont_src MASTER_READY)
        [ext_call.controller_init_event_handler cont_src,
         ext_call.route_broker_init_event_handler cont_src]).response_list.get cont_src
        = st.response_list.get cont_src
      ∧ (record (master_state_set env
        (record (with_resync_list st cont_src rest)
          [ext_call.dpmsg_convert_zmsg m, ext_call.process_snapshot_one cont_src m])
        cont_src MASTER_READY)
        [ext_call.controller_init_event_handler cont_src,
         ext_call.route_broker_init_event_handler cont_src]).resync_list.get cont_src = rest
      ∧ (record (master_state_set env
        (record (with_resync_list st cont_src rest)
          [ext_call.dpmsg_convert_zmsg m, ext_call.process_snapshot_one cont_src m])
        cont_src MASTER_READY)
        [ext_call.controller_init_event_handler cont_src,
         ext_call.route_broker_init_event_handler cont_src]).master_state.get cont_src
          = MASTER_READY
      ∧ snapshot_applied cont_src (record (master_state_set env
        (record (with_resync_list st cont_src rest)
          [ext_call.dpmsg_convert_zmsg m, ext_call.process_snapshot_one cont_src m])
        cont_src MASTER_READY)
        [ext_call.controller_init_event_handler cont_src,
         ext_call.route_broker_init_event_handler cont_src]).calls
          = snapshot_applied cont_src st.calls ++ [m]
      ∧ calls_grow (is_drain_call cont_src) st (record (master_state_set env
        (record (with_resync_list st cont_src rest)
          [ext_call.dpmsg_convert_zmsg m, ext_call.process_snapshot_one cont_src m])
        cont_src MASTER_READY)
        [ext_call.controller_init_event_handler cont_src,
         ext_call.route_broker_init_event_handler cont_src]) := by
  refine ⟨?_, ?_, ?_, ?_, ?_⟩
  · rw [record_response_list, set_response_list_self _ _ _ _ (by decide)]
    simp
  · rw [record_resync_list, set_resync_list_self _ _ _ _ (by decide)]
    simp
  · rw [record_master_state]
    exact set_master_state_self _ _ _ _
  · rw [record_calls, snapshot_applied_append,
      snapshot_applied_of_reset_grow cont_src (set_calls_grow env _ cont_src MASTER_READY),
      record_calls, snapshot_applied_append, with_resync_list_calls]
    simp [snapshot_applied]
  · have h1 : calls_grow (is_drain_call cont_src) st
        (record (with_resync_list st cont_src rest)
          [ext_call.dpmsg_convert_zmsg m, ext_call.process_snapshot_one cont_src m]) := by
      refine ⟨_, rfl, ?_⟩
      intro x hx
      simp only [List.mem_cons, List.mem_singleton, List.not_mem_nil, or_false] at hx
      rcases hx with hx | hx <;> subst hx <;> simp [is_drain_call, is_reset_call]
    have h2 : calls_grow (is_drain_call cont_src)
        (record (with_resync_list st cont_src rest)
          [ext_call.dpmsg_convert_zmsg m, ext_call.process_snapshot_one cont_src m])
        (master_state_set env
          (record (with_resync_list st cont_src rest)
            [ext_call.dpmsg_convert_zmsg m, ext_call.process_snapshot_one cont_src m])
          cont_src MASTER_READY) :=
      calls_grow_mono (fun x hx => by simp [is_drain_call, hx])
        (set_calls_grow env _ cont_src MASTER_READY)
    refine calls_grow_trans (calls_grow_trans h1 h2) ⟨_, rfl, ?_⟩
    intro x hx
    simp only [List.mem_cons, List.mem_singleton, List.not_mem_nil, or_false] at hx
    rcases hx with hx | hx <;> subst hx <;> simp [is_drain_call, is_reset_call]

/-- The loop never touches the list of expected responses of its source. -/
theorem drain_response_list (env : Env) (c : Collab) (cont_src : cont_src_en)
    (q : List zmsg_t) :
    ∀ st : State, (async_response_drain env c cont_src q st).response_list.get cont_src
      = st.response_list.get cont_src := by
  induction q with
  | nil => intro st; rfl
  | cons m rest ih =>
    intro st
    by_cases hp : st.response_list.get cont_src = []
    · rw [drain_cons env c cont_src m rest st hp]
      split
      · rw [reset_dataplane_true_response_list]; simp
      · split
        · rw [reset_dataplane_true_response_list]; simp
        · split
          · rw [ih, (drain_ready_step_facts env cont_src m rest st).1]
          · rw [ih]; simp
    · rw [drain_pending env c cont_src _ st hp]

/-- The loop only adds conversion, snapshot, handler and reset calls. -/
theorem drain_calls_grow (env : Env) (c : Collab) (cont_src : cont_src_en)
    (q : List zmsg_t) :
    ∀ st : State, calls_grow (is_drain_call cont_src) st
      (async_response_drain env c cont_src q st) := by
  have hreset : ∀ x, is_reset_call x = true → is_drain_call cont_src x = true :=
    fun x hx => by simp [is_drain_call, hx]
  have hone : ∀ (st : State) (rest : List zmsg_t) (m : zmsg_t),
      calls_grow (is_drain_call cont_src) st
        (record (with_resync_list st cont_src rest) [ext_call.dpmsg_convert_zmsg m]) := by
    intro st rest m
    refine ⟨_, rfl, ?_⟩
    intro x hx
    simp only [List.mem_singleton] at hx
    subst hx
    simp [is_drain_call, is_reset_call]
  have htwo : ∀ (st : State) (rest : List zmsg_t) (m : zmsg_t),
      calls_grow (is_drain_call cont_src) st
        (record (with_resync_list st cont_src rest)
          [ext_call.dpmsg_convert_zmsg m, ext_call.process_snapshot_one cont_src m]) := by
    intro st rest m
    refine ⟨_, rfl, ?_⟩
    intro x hx
    simp only [List.mem_cons, List.mem_singleton, List.not_mem_nil, or_false] at hx
    rcases hx with hx | hx <;> subst hx <;> simp [is_drain_call, is_reset_call]
  induction q with
  | nil => intro st; exact calls_grow_refl _ _
  | cons m rest ih =>
    intro st
    by_cases hp : st.response_list.get cont_src = []
    · rw [drain_cons env c cont_src m rest st hp]
      split
      · exact calls_grow_trans (hone st rest m)
          (calls_grow_mono hreset (reset_dataplane_true_calls_grow env _ cont_src))
      · split
        · exact calls_grow_trans (htwo st rest m)
            (calls_grow_mono hreset (reset_dataplane_true_calls_grow env _ cont_src))
        · split
          · exact calls_grow_trans (drain_ready_step_facts env cont_src m rest st).2.2.2.2
              (ih _)
          · exact calls_grow_trans (htwo st rest m) (ih _)
    · rw [drain_pending env c cont_src _ st hp]
      exact calls_grow_refl _ _

/-- When every queued message converts and applies, the loop empties the
queue, applies the messages in queue order, and leaves the source in Ready if
one of them reported the end of the snapshot. -/
theorem drain_all_ok (env : Env) (c : Collab) (cont_src : cont_src_en) (q : List zmsg_t) :
    ∀ st : State, st.response_list.get cont_src = [] → st.resync_list.get cont_src = q →
      (∀ m ∈ q, 0 ≤ c.dpmsg_convert_zmsg m ∧ 0 ≤ (c.process_snapshot_one cont_src m).1) →
      (async_response_drain env c cont_src q st).resync_list.get cont_src = []
        ∧ snapshot_applied cont_src (async_response_drain env c cont_src q st).calls
            = snapshot_applied cont_src st.calls ++ q
        ∧ (async_response_drain env c cont_src q st).master_state.get cont_src
            = (if q.any (fun m => (c.process_snapshot_one cont_src m).2) = true
               then MASTER_READY else st.master_state.get cont_src) := by
  induction q with
  | nil =>
    intro st _ hq _
    exact ⟨hq, by simp [async_response_drain], by simp [async_response_drain]⟩
  | cons m rest ih =>
    intro st hp _ hok
    have hm := hok m (List.mem_cons_self _ _)
    have hrest : ∀ x ∈ rest, 0 ≤ c.dpmsg_convert_zmsg x
        ∧ 0 ≤ (c.process_snapshot_one cont_src x).1 :=
      fun x hx => hok x (List.mem_cons_of_mem _ hx)
    rw [drain_cons env c cont_src m rest st hp, if_neg (not_lt.mpr hm.1),
      if_neg (not_lt.mpr hm.2)]
    by_cases heof : (c.process_snapshot_one cont_src m).2 = true
    · rw [if_pos heof]
      obtain ⟨f1, f2, f3, f4, -⟩ := drain_ready_step_facts env cont_src m rest st
      obtain ⟨i1, i2, i3⟩ := ih _ (by rw [f1, hp]) f2 hrest
      refine ⟨i1, ?_, ?_⟩
      · rw [i2, f4, List.append_assoc]; rfl
      · rw [i3, f3]
        simp [List.any_cons, heof]
    · rw [if_neg heof]
      obtain ⟨i1, i2, i3⟩ := ih
        (record (with_resync_list st cont_src rest)
          [ext_call.dpmsg_convert_zmsg m, ext_call.process_snapshot_one cont_src m])
        (by simpa using hp) (by simp) hrest
      refine ⟨i1, ?_, ?_⟩
      · rw [i2, record_calls, snapshot_applied_append, with_resync_list_calls,
          List.append_assoc]
        simp [snapshot_applied]
      · rw [i3]
        have hfalse : (c.process_snapshot_one cont_src m).2 = false := by
          simpa using heof
        simp [List.any_cons, hfalse]

/-- The first queued message that fails to convert or to apply ends the loop:
the messages after it stay queued and unapplied, and the source is reset. -/
theorem drain_first_failure (env : Env) (c : Collab) (cont_src : cont_src_en)
    (m : zmsg_t) (post : List zmsg_t) (pre : List zmsg_t) :
    ∀ st : State, st.response_list.get cont_src = [] →
      (∀ x ∈ pre, 0 ≤ c.dpmsg_convert_zmsg x ∧ 0 ≤ (c.process_snapshot_one cont_src x).1) →
      (c.dpmsg_convert_zmsg m < 0 ∨ (c.process_snapshot_one cont_src m).1 < 0) →
      (async_response_drain env c cont_src (pre ++ m :: post) st).resync_list.get cont_src
          = post
        ∧ snapshot_applied cont_src
            (async_response_drain env c cont_src (pre ++ m :: post) st).calls
            = snapshot_applied cont_src st.calls ++ pre
                ++ (if c.dpmsg_convert_zmsg m < 0 then [] else [m])
        ∧ (async_response_drain env c cont_src (pre ++ m :: post) st).master_state.get
            cont_src = MASTER_RESET
        ∧ ((async_response_drain env c cont_src (pre ++ m :: post) st).master_time.get
            cont_src).reset_timer
            = { pending := true,
                ticks := ((async_response_drain env c cont_src (pre ++ m :: post)
                  st).master_time.get cont_src).retry_delay,
                f := some (timer_fn.reset_timer_event cont_src) } := by
  induction pre with
  | nil =>
    intro st hp _ hfail
    rw [List.nil_append, drain_cons env c cont_src m post st hp]
    by_cases hdec : c.dpmsg_convert_zmsg m < 0
    · rw [if_pos hdec]
      refine ⟨?_, ?_, reset_dataplane_true_state _ _ _, ?_⟩
      · rw [reset_dataplane_true_resync_list]; simp
      · rw [snapshot_applied_of_reset_grow cont_src
          (reset_dataplane_true_calls_grow env _ cont_src), record_calls,
          snapshot_applied_append, with_resync_list_calls]
        simp [snapshot_applied, hdec]
      · rw [reset_dataplane_true_reset_timer, reset_dataplane_true_retry_delay]
    · have happ : (c.process_snapshot_one cont_src m).1 < 0 := by
        rcases hfail with h | h
        · exact absurd h hdec
        · exact h
      rw [if_neg hdec, if_pos happ]
      refine ⟨?_, ?_, reset_dataplane_true_state _ _ _, ?_⟩
      · rw [reset_dataplane_true_resync_list]; simp
      · rw [snapshot_applied_of_reset_grow cont_src
          (reset_dataplane_true_calls_grow env _ cont_src), record_calls,
          snapshot_applied_append, with_resync_list_calls]
        simp [snapshot_applied, hdec]
      · rw [reset_dataplane_true_reset_timer, reset_dataplane_true_retry_delay]
  | cons x pre ih =>
    intro st hp hok hfail
    have hx := hok x (List.mem_cons_self _ _)
    have hpre : ∀ y ∈ pre, 0 ≤ c.dpmsg_convert_zmsg y
        ∧ 0 ≤ (c.process_snapshot_one cont_src y).1 :=
      fun y hy => hok y (List.mem_cons_of_mem _ hy)
    rw [List.cons_append, drain_cons env c cont_src x (pre ++ m :: post) st hp,
      if_neg (not_lt.mpr hx.1), if_neg (not_lt.mpr hx.2)]
    by_cases heof : (c.process_snapshot_one cont_src x).2 = true
    · rw [if_pos heof]
      obtain ⟨f1, -, -, f4, -⟩ :=
        drain_ready_step_facts env cont_src x (pre ++ m :: post) st
      obtain ⟨i1, i2, i3, i4⟩ := ih _ (by rw [f1, hp]) hpre hfail
      refine ⟨i1, ?_, i3, i4⟩
      rw [i2, f4]
      simp [List.append_assoc]
    · rw [if_neg heof]
      obtain ⟨i1, i2, i3, i4⟩ := ih
        (record (with_resync_list st cont_src (pre ++ m :: post))
          [ext_call.dpmsg_convert_zmsg x, ext_call.process_snapshot_one cont_src x])
        (by simpa using hp) hpre hfail
      refine ⟨i1, ?_, i3, i4⟩
      rw [i2, record_calls, snapshot_applied_append, with_resync_list_calls]
      simp [snapshot_applied, List.append_assoc]

/-! ## Handling of one inbound message -/

/-- Shape of a message that has at least two frames. -/
theorem msg_two_frames (msg : zmsg_t) (h2 : 2 ≤ msg.length) :
    ∃ a s rest, msg = a :: s :: rest := by
  match msg, h2 with
  | a :: s :: rest, _ => exact ⟨a, s, rest, rfl⟩

/-- A reply with a status other than "OK", without a 4-byte index frame or
without a name frame is refused by `new_port_response`. -/
theorem new_port_response_none (c : Collab) (cont_src : cont_src_en) (msg : zmsg_t)
    (h2 : 2 ≤ msg.length)
    (hbad : zframe_strdup (msg.getD 0 []) ≠ str_OK ∨ (msg.getD 2 []).length ≠ 4
      ∨ msg.length < 4) :
    new_port_response c cont_src msg = none := by
  obtain ⟨a, s, rest, rfl⟩ := msg_two_frames msg h2
  by_cases hok : zframe_strdup a = str_OK
  · have hbad2 : (List.getD (a :: s :: rest) 2 []).length ≠ 4
        ∨ (a :: s :: rest).length < 4 := by
      rcases hbad with h | h
      · exact absurd hok h
      · exact h
    simp only [new_port_response, hok, ne_eq, not_true_eq_false, if_false]
    by_cases h8 : s.length = 8
    · simp only [zmsg_popu64, h8, if_true]
      cases rest with
      | nil => rfl
      | cons i r3 =>
        by_cases h4 : i.length = 4
        · simp only [zmsg_popu32, h4, if_true]
          cases r3 with
          | nil => rfl
          | cons n r4 =>
            rcases hbad2 with h | h
            · exact absurd h4 h
            · simp only [List.length_cons] at h
              omega
        · simp only [zmsg_popu32, h4, if_false]
    · simp only [zmsg_popu64, h8, if_false]
  · simp only [new_port_response, ne_eq, hok, not_false_eq_true, if_true]

/-- A reply "OK" with an 8-byte sequence frame, a 4-byte index frame and a name
frame is accepted by `new_port_response`. -/
theorem new_port_response_some (c : Collab) (cont_src : cont_src_en) (msg : zmsg_t)
    (h4 : 4 ≤ msg.length) (hok : zframe_strdup (msg.getD 0 []) = str_OK)
    (h8 : (msg.getD 1 []).length = 8) (hidx : (msg.getD 2 []).length = 4) :
    new_port_response c cont_src msg
      = some (c.cont_src_ifindex cont_src (uint_of_bytes (msg.getD 2 [])) % 2 ^ 32,
          zframe_strdup (msg.getD 3 [])) := by
  match msg, h4 with
  | a :: s :: i :: n :: r4, _ =>
    simp only [List.getD_cons_zero, List.getD_cons_succ] at hok h8 hidx ⊢
    simp [new_port_response, hok, zmsg_popu64, h8, zmsg_popu32, hidx]

/-- Handling of an answer to an expected response leaves the resync list, the
session states and the timers of the sources as they were. -/
theorem matched_eq (c : Collab) (st : State) (cont_src : cont_src_en) (rsp : response)
    (msg : zmsg_t) (hnt : rsp.is_teardown = false) :
    async_response_matched c st cont_src rsp msg
      = with_response_list
          (record st
            ((match new_port_response c cont_src msg with
              | some r => handle_port_response_calls c cont_src rsp r.1 r.2
              | none => []) ++ [ext_call.rte_timer_stop cont_src rsp.portid rsp.seqno]))
          cont_src ((st.response_list.get cont_src).erase rsp) := by
  unfold async_response_matched
  rw [hnt]
  cases new_port_response c cont_src msg with
  | none => simp [record]
  | some r => simp [handle_port_response, record]

theorem matched_teardown_eq (c : Collab) (st : State) (cont_src : cont_src_en) (rsp : response)
    (msg : zmsg_t) (ht : rsp.is_teardown = true) :
    async_response_matched c st cont_src rsp msg
      = with_response_list st cont_src ((st.response_list.get cont_src).erase rsp) := by
  unfold async_response_matched
  rw [ht]
  rfl

theorem matched_resync_list (c : Collab) (st : State) (cont_src : cont_src_en) (rsp : response)
    (msg : zmsg_t) :
    (async_response_matched c st cont_src rsp msg).resync_list = st.resync_list := by
  cases ht : rsp.is_teardown
  · rw [matched_eq c st cont_src rsp msg ht]; rfl
  · rw [matched_teardown_eq c st cont_src rsp msg ht]; rfl

/-- Unfolding of `async_response_msg` for an answer to the expected response
`rsp`. -/
theorem async_msg_matched (env : Env) (c : Collab) (st : State) (cont_src : cont_src_en)
    (msg : zmsg_t) (rsp : response) (h2 : 2 ≤ msg.length) (h8 : (msg.getD 1 []).length = 8)
    (hfind : find_response st cont_src (msg_seqno msg) = some rsp) :
    async_response_msg env c st cont_src msg
      = async_response_drain env c cont_src (st.resync_list.get cont_src)
          (async_response_matched c st cont_src rsp msg) := by
  unfold msg_seqno at hfind
  unfold async_response_msg
  rw [if_neg (by omega), if_neg (by rw [h8]; decide), hfind]
  simp only [matched_resync_list]

/-- Unfolding of `async_response_msg` for a message that answers no expected
response while the source is in Resync. -/
theorem async_msg_stash (env : Env) (c : Collab) (st : State) (cont_src : cont_src_en)
    (msg : zmsg_t) (h2 : 2 ≤ msg.length) (h8 : (msg.getD 1 []).length = 8)
    (hfind : find_response st cont_src (msg_seqno msg) = none)
    (hs : st.master_state.get cont_src = MASTER_RESYNC) :
    async_response_msg env c st cont_src msg
      = async_response_drain env c cont_src (st.resync_list.get cont_src ++ [msg])
          (with_resync_list st cont_src (st.resync_list.get cont_src ++ [msg])) := by
  unfold msg_seqno at hfind
  unfold async_response_msg
  rw [if_neg (by omega), if_neg (by rw [h8]; decide), hfind]
  simp only [master_state_get_eq, hs, if_true, with_resync_list_get]

theorem find_response_facts (st : State) (cont_src : cont_src_en) (seqno : Nat)
    (rsp : response) (h : find_response st cont_src seqno = some rsp) :
    rsp ∈ st.response_list.get cont_src ∧ rsp.seqno = seqno := by
  unfold find_response at h
  refine ⟨List.mem_of_find?_eq_some h, ?_⟩
  have := List.find?_some h
  simpa using this

/-- With pairwise distinct sequence numbers, taking a response off the list
leaves none with its sequence number. -/
theorem find_after_erase (l : List response) (rsp : response) (hmem : rsp ∈ l)
    (hnd : (l.map (fun r => r.seqno)).Nodup) :
    (l.erase rsp).find? (fun r => decide (r.seqno = rsp.seqno)) = none := by
  rw [List.find?_eq_none]
  intro x hx
  have hl : l.Nodup := List.Nodup.of_map _ hnd
  have hx2 := (List.Nodup.mem_erase_iff hl).mp hx
  intro hp
  have hseq : x.seqno = rsp.seqno := by simpa using hp
  exact hx2.1 (List.inj_on_of_nodup_map hnd hx2.2 hmem hseq)

/-- Function `process_ready` only makes calls; what it records. -/
theorem process_ready_fst (c : Collab) (st : State) (cont_src : cont_src_en) (msg : zmsg_t) :
    (process_ready c st cont_src msg).1
      = record st ([ext_call.dpmsg_convert_zmsg msg] ++
          (if 0 ≤ c.dpmsg_convert_zmsg msg then [ext_call.process_ready_msg cont_src msg]
           else [])) := by
  unfold process_ready
  by_cases h : 0 ≤ c.dpmsg_convert_zmsg msg
  · simp [h, record]
  · simp [h, record]

theorem process_ready_snd (c : Collab) (st : State) (cont_src : cont_src_en) (msg : zmsg_t) :
    (process_ready c st cont_src msg).2
      = if 0 ≤ c.dpmsg_convert_zmsg msg then c.process_ready_msg cont_src msg
        else c.dpmsg_convert_zmsg msg := by
  unfold process_ready
  by_cases h : 0 ≤ c.dpmsg_convert_zmsg msg
  · simp [h]
  · simp [h]

/-! ### Runs of inbound messages -/

theorem snapshot_applied_handle_calls (c : Collab) (cont_src src : cont_src_en)
    (rsp : response) (ifindex : Nat) (ifname : List Nat) :
    snapshot_applied cont_src (handle_port_response_calls c src rsp ifindex ifname) = [] := by
  unfold handle_port_response_calls
  by_cases hz : ifindex ≠ 0
  · rw [if_pos hz]
    cases c.ifport_table rsp.portid with
    | none => rfl
    | some ifp =>
      by_cases hsh : c.shadow_init_port ifp.if_port ifname < 0
      · cases hname : c.rte_eth_dev_get_name_by_port ifp.if_port <;>
          simp [hsh, hname, snapshot_applied]
      · simp [hsh, snapshot_applied]
  · rw [if_neg hz]; rfl

/-- Handling of an answer to an expected response: the parts of the state the
drain loop and the session depend on. -/
theorem matched_facts (c : Collab) (st : State) (cont_src : cont_src_en) (rsp : response)
    (msg : zmsg_t) :
    (async_response_matched c st cont_src rsp msg).master_state = st.master_state
      ∧ (async_response_matched c st cont_src rsp msg).master_time = st.master_time
      ∧ (async_response_matched c st cont_src rsp msg).response_list.get cont_src
          = (st.response_list.get cont_src).erase rsp
      ∧ snapshot_applied cont_src (async_response_matched c st cont_src rsp msg).calls
          = snapshot_applied cont_src st.calls := by
  cases ht : rsp.is_teardown
  · rw [matched_eq c st cont_src rsp msg ht]
    refine ⟨rfl, rfl, by simp, ?_⟩
    rw [with_response_list_calls, record_calls, snapshot_applied_append,
      snapshot_applied_append]
    cases new_port_response c cont_src msg with
    | none => simp [snapshot_applied]
    | some r =>
      simp only [snapshot_applied_handle_calls]
      simp [snapshot_applied]
  · rw [matched_teardown_eq c st cont_src rsp msg ht]
    exact ⟨rfl, rfl, by simp, rfl⟩

/-- Whatever the outcomes, the messages the loop applies are an initial part
of the queue, in queue order. -/
theorem drain_applied_prefix (env : Env) (c : Collab) (cont_src : cont_src_en)
    (q : List zmsg_t) :
    ∀ st : State, ∃ t : List zmsg_t, t <+: q
      ∧ snapshot_applied cont_src (async_response_drain env c cont_src q st).calls
          = snapshot_applied cont_src st.calls ++ t := by
  induction q with
  | nil => intro st; exact ⟨[], List.prefix_refl _, by simp [async_response_drain]⟩
  | cons m rest ih =>
    intro st
    by_cases hp : st.response_list.get cont_src = []
    · rw [drain_cons env c cont_src m rest st hp]
      split
      · refine ⟨[], List.nil_prefix, ?_⟩
        rw [snapshot_applied_of_reset_grow cont_src
          (reset_dataplane_true_calls_grow env _ cont_src), record_calls,
          snapshot_applied_append, with_resync_list_calls]
        simp [snapshot_applied]
      · split
        · refine ⟨[m], by simp, ?_⟩
          rw [snapshot_applied_of_reset_grow cont_src
            (reset_dataplane_true_calls_grow env _ cont_src), record_calls,
            snapshot_applied_append, with_resync_list_calls]
          simp [snapshot_applied]
        · split
          · obtain ⟨t, ht, hcalls⟩ := ih (record (master_state_set env
              (record (with_resync_list st cont_src rest)
                [ext_call.dpmsg_convert_zmsg m, ext_call.process_snapshot_one cont_src m])
              cont_src MASTER_READY)
              [ext_call.controller_init_event_handler cont_src,
               ext_call.route_broker_init_event_handler cont_src])
            refine ⟨m :: t, by simpa using ht, ?_⟩
            rw [hcalls, (drain_ready_step_facts env cont_src m rest st).2.2.2.1]
            simp
          · obtain ⟨t, ht, hcalls⟩ := ih (record (with_resync_list st cont_src rest)
              [ext_call.dpmsg_convert_zmsg m, ext_call.process_snapshot_one cont_src m])
            refine ⟨m :: t, by simpa using ht, ?_⟩
            rw [hcalls, record_calls, snapshot_applied_append, with_resync_list_calls]
            simp [snapshot_applied]
    · rw [drain_pending env c cont_src _ st hp]
      exact ⟨[], List.nil_prefix, by simp⟩

theorem async_response_seq_append (env : Env) (c : Collab) (cont_src : cont_src_en)
    (a b : List zmsg_t) :
    ∀ st : State, async_response_seq env c cont_src (a ++ b) st
      = async_response_seq env c cont_src b (async_response_seq env c cont_src a st) := by
  induction a with
  | nil => intro st; rfl
  | cons m rest ih => intro st; exact ih _

theorem async_response_seq_cons (env : Env) (c : Collab) (cont_src : cont_src_en)
    (m : zmsg_t) (rest : List zmsg_t) (st : State) :
    async_response_seq env c cont_src (m :: rest) st
      = async_response_seq env c cont_src rest (async_response_msg env c st cont_src m) := rfl

/-- A run of inbound messages handled while the source is in Resync and
answers are outstanding: `S` lists the sequence numbers that count as answers.
As long as fewer answers arrive than responses are expected, nothing is
applied, and the other messages are stashed in arrival order. -/
theorem run_pending (env : Env) (c : Collab) (cont_src : cont_src_en) (S : List Nat)
    (evs : List zmsg_t) :
    ∀ st : State,
      st.master_state.get cont_src = MASTER_RESYNC →
      (∀ r ∈ st.response_list.get cont_src, r.seqno ∈ S) →
      (∀ m ∈ evs, 2 ≤ m.length ∧ (m.getD 1 []).length = 8) →
      (∀ m ∈ evs, msg_seqno m ∈ S →
        ∃ r ∈ st.response_list.get cont_src, r.seqno = msg_seqno m) →
      ((evs.filter (fun m => decide (msg_seqno m ∈ S))).map msg_seqno).Nodup →
      (evs.filter (fun m => decide (msg_seqno m ∈ S))).length
        < (st.response_list.get cont_src).length →
      (async_response_seq env c cont_src evs st).master_state.get cont_src = MASTER_RESYNC
        ∧ (async_response_seq env c cont_src evs st).resync_list.get cont_src
            = st.resync_list.get cont_src ++ evs.filter (fun m => decide (msg_seqno m ∉ S))
        ∧ snapshot_applied cont_src (async_response_seq env c cont_src evs st).calls
            = snapshot_applied cont_src st.calls
        ∧ ((async_response_seq env c cont_src evs st).response_list.get cont_src).length
            + (evs.filter (fun m => decide (msg_seqno m ∈ S))).length
            = (st.response_list.get cont_src).length
        ∧ (∀ r ∈ st.response_list.get cont_src,
            r.seqno ∉ (evs.filter (fun m => decide (msg_seqno m ∈ S))).map msg_seqno →
            r ∈ (async_response_seq env c cont_src evs st).response_list.get cont_src) := by
  induction evs with
  | nil =>
    intro st hs _ _ _ _ _
    exact ⟨hs, by simp [async_response_seq], rfl, by simp [async_response_seq],
      fun r hr _ => hr⟩
  | cons m rest ih =>
    intro st hs hS hwf hrep hnd hlen
    have hm := hwf m (List.mem_cons_self _ _)
    have hwf1 : ∀ x ∈ rest, 2 ≤ x.length ∧ (x.getD 1 []).length = 8 :=
      fun x hx => hwf x (List.mem_cons_of_mem _ hx)
    rw [async_response_seq_cons]
    by_cases hin : msg_seqno m ∈ S
    · -- an answer: the expected response is taken off the list
      obtain ⟨r, hr, hrs⟩ := hrep m (List.mem_cons_self _ _) hin
      have hsome : ∃ r0, find_response st cont_src (msg_seqno m) = some r0 := by
        cases hf : find_response st cont_src (msg_seqno m) with
        | none =>
          unfold find_response at hf
          rw [List.find?_eq_none] at hf
          exact absurd (by simpa using hrs) (hf r hr)
        | some r0 => exact ⟨r0, rfl⟩
      obtain ⟨r0, hr0⟩ := hsome
      obtain ⟨hr0mem, hr0seq⟩ := find_response_facts st cont_src (msg_seqno m) r0 hr0
      have hfilter : (m :: rest).filter (fun m => decide (msg_seqno m ∈ S))
          = m :: rest.filter (fun m => decide (msg_seqno m ∈ S)) := by
        simp [List.filter_cons, hin]
      have hfilter2 : (m :: rest).filter (fun m => decide (msg_seqno m ∉ S))
          = rest.filter (fun m => decide (msg_seqno m ∉ S)) := by
        simp [List.filter_cons, hin]
      rw [hfilter] at hnd hlen
      rw [hfilter, hfilter2]
      rw [List.map_cons, List.nodup_cons] at hnd
      rw [List.length_cons] at hlen
      have hlen1 : ((st.response_list.get cont_src).erase r0).length
          = (st.response_list.get cont_src).length - 1 := List.length_erase_of_mem hr0mem
      obtain ⟨mf1, -, mf3, mf4⟩ := matched_facts c st cont_src r0 m
      have hne : (async_response_matched c st cont_src r0 m).response_list.get cont_src
          ≠ [] := by
        rw [mf3]
        intro h
        rw [h] at hlen1
        simp only [List.length_nil] at hlen1
        omega
      have hstep : async_response_msg env c st cont_src m
          = async_response_matched c st cont_src r0 m := by
        rw [async_msg_matched env c st cont_src m r0 hm.1 hm.2 hr0]
        exact drain_pending env c cont_src _ _ hne
      rw [hstep]
      obtain ⟨i1, i2, i3, i4, i5⟩ := ih (async_response_matched c st cont_src r0 m)
        (by rw [mf1]; exact hs)
        (by rw [mf3]; exact fun x hx => hS x (List.mem_of_mem_erase hx))
        hwf1
        (by
          intro x hx hxS
          obtain ⟨y, hy, hys⟩ := hrep x (List.mem_cons_of_mem _ hx) hxS
          refine ⟨y, ?_, hys⟩
          rw [mf3]
          refine (List.mem_erase_of_ne ?_).mpr hy
          intro hyr
          apply hnd.1
          rw [List.mem_map]
          refine ⟨x, ?_, ?_⟩
          · rw [List.mem_filter]; exact ⟨hx, by simpa using hxS⟩
          · rw [← hys, hyr, hr0seq])
        hnd.2
        (by rw [mf3, hlen1]; omega)
      refine ⟨i1, ?_, ?_, ?_, ?_⟩
      · rw [i2, matched_resync_list]
      · rw [i3, mf4]
      · rw [List.length_cons]
        rw [mf3, hlen1] at i4
        omega
      · intro x hx hxs
        rw [List.map_cons, List.mem_cons, not_or] at hxs
        apply i5 x
        · rw [mf3]
          refine (List.mem_erase_of_ne ?_).mpr hx
          intro hxr
          apply hxs.1
          rw [hxr, hr0seq]
        · exact hxs.2
    · -- not an answer: the message is stashed
      have hnone : find_response st cont_src (msg_seqno m) = none := by
        unfold find_response
        rw [List.find?_eq_none]
        intro x hx hp
        apply hin
        have hseq : x.seqno = msg_seqno m := by simpa using hp
        rw [← hseq]
        exact hS x hx
      have hfilter : (m :: rest).filter (fun m => decide (msg_seqno m ∈ S))
          = rest.filter (fun m => decide (msg_seqno m ∈ S)) := by
        simp [List.filter_cons, hin]
      have hfilter2 : (m :: rest).filter (fun m => decide (msg_seqno m ∉ S))
          = m :: rest.filter (fun m => decide (msg_seqno m ∉ S)) := by
        simp [List.filter_cons, hin]
      rw [hfilter] at hnd hlen
      rw [hfilter, hfilter2]
      have hne : st.response_list.get cont_src ≠ [] := by
        intro h
        rw [h] at hlen
        simp at hlen
      have hstep : async_response_msg env c st cont_src m
          = with_resync_list st cont_src (st.resync_list.get cont_src ++ [m]) := by
        rw [async_msg_stash env c st cont_src m hm.1 hm.2 hnone hs]
        exact drain_pending env c cont_src _ _ (by simpa using hne)
      rw [hstep]
      obtain ⟨i1, i2, i3, i4, i5⟩ := ih
        (with_resync_list st cont_src (st.resync_list.get cont_src ++ [m]))
        (by simpa using hs) (by simpa using hS) hwf1
        (by
          intro x hx hxS
          simpa using hrep x (List.mem_cons_of_mem _ hx) hxS)
        hnd (by simpa using hlen)
      refine ⟨i1, ?_, ?_, ?_, ?_⟩
      · rw [i2]; simp
      · rw [i3]; rfl
      · simpa using i4
      · intro x hx hxs
        exact i5 x (by simpa using hx) hxs

/-! ## Claims on asynchronous responses -/

/-- C11 (fails as stated): the reply "FAIL" to the outstanding request 1001 of
the main source in Resync is handled without a reset: the source stays in
Resync and its reset timer is not armed. -/
theorem C11_failed_reply_no_reset :
    find_response st_main_awaiting CONT_SRC_MAIN (msg_seqno msg_fail_1001) = some rsp_port3
      ∧ ¬ (master_state_get (async_response_msg env_remote collab_ok st_main_awaiting
            CONT_SRC_MAIN msg_fail_1001) CONT_SRC_MAIN = MASTER_RESET
          ∧ ((async_response_msg env_remote collab_ok st_main_awaiting CONT_SRC_MAIN
              msg_fail_1001).master_time.get CONT_SRC_MAIN).reset_timer.pending = true) := by
  refine ⟨rfl, fun h => ?_⟩
  have h1 : master_state_get (async_response_msg env_remote collab_ok st_main_awaiting
      CONT_SRC_MAIN msg_fail_1001) CONT_SRC_MAIN = MASTER_RESYNC := rfl
  rw [h1] at h
  exact absurd h.1 (by decide)

/-- C11 (amended): a message of at least two frames with an 8-byte sequence
frame that answers an expected non-teardown response, and whose status is not
"OK" or whose index frame is missing or not 4 bytes long or whose name frame is
missing, is refused by `new_port_response`; `async_response` then stops the
timer of the response, takes the response off the list and runs the drain
loop.  No interface update is made; and unless the drain loop runs (the list
of expected responses became empty while messages are stashed), the session
states and timers are left as they were, so no reset is triggered. -/
theorem C11_refused_reply (env : Env) (c : Collab) (st : State) (src : cont_src_en)
    (msg : zmsg_t) (rsp : response)
    (h2 : 2 ≤ msg.length) (h8 : (msg.getD 1 []).length = 8)
    (hfind : find_response st src (msg_seqno msg) = some rsp)
    (hnt : rsp.is_teardown = false)
    (hbad : zframe_strdup (msg.getD 0 []) ≠ str_OK ∨ (msg.getD 2 []).length ≠ 4
      ∨ msg.length < 4) :
    new_port_response c src msg = none
      ∧ async_response_msg env c st src msg
          = async_response_drain env c src (st.resync_list.get src)
              (with_response_list
                (record st [ext_call.rte_timer_stop src rsp.portid rsp.seqno]) src
                ((st.response_list.get src).erase rsp))
      ∧ (async_response_msg env c st src msg).calls.filter is_if_update
          = st.calls.filter is_if_update
      ∧ (((st.response_list.get src).erase rsp ≠ [] ∨ st.resync_list.get src = []) →
          async_response_msg env c st src msg
              = with_response_list
                  (record st [ext_call.rte_timer_stop src rsp.portid rsp.seqno]) src
                  ((st.response_list.get src).erase rsp)
            ∧ (async_response_msg env c st src msg).master_state = st.master_state
            ∧ (async_response_msg env c st src msg).master_time = st.master_time
            ∧ (async_response_msg env c st src msg).running = st.running) := by
  have hnone := new_port_response_none c src msg h2 hbad
  have heq : async_response_msg env c st src msg
      = async_response_drain env c src (st.resync_list.get src)
          (with_response_list
            (record st [ext_call.rte_timer_stop src rsp.portid rsp.seqno]) src
            ((st.response_list.get src).erase rsp)) := by
    rw [async_msg_matched env c st src msg rsp h2 h8 hfind, matched_eq c st src rsp msg hnt,
      hnone]
    rfl
  refine ⟨hnone, heq, ?_, ?_⟩
  · rw [heq]
    have hg : calls_grow (fun x => is_drain_call src x || decide
        (x = ext_call.rte_timer_stop src rsp.portid rsp.seqno)) st
        (async_response_drain env c src (st.resync_list.get src)
          (with_response_list
            (record st [ext_call.rte_timer_stop src rsp.portid rsp.seqno]) src
            ((st.response_list.get src).erase rsp))) := by
      refine calls_grow_trans ?_ (calls_grow_mono (fun x hx => by simp [hx])
        (drain_calls_grow env c src _ _))
      refine ⟨[ext_call.rte_timer_stop src rsp.portid rsp.seqno], rfl, ?_⟩
      intro x hx
      simp only [List.mem_singleton] at hx
      simp [hx]
    refine calls_grow_filter _ hg ?_
    intro x hx
    simp only [Bool.or_eq_true, decide_eq_true_eq] at hx
    rcases hx with hx | hx
    · cases x <;> first | rfl | (simp [is_drain_call, is_reset_call] at hx)
    · subst hx; rfl
  · intro hcase
    have hstay : async_response_drain env c src (st.resync_list.get src)
          (with_response_list
            (record st [ext_call.rte_timer_stop src rsp.portid rsp.seqno]) src
            ((st.response_list.get src).erase rsp))
        = with_response_list
            (record st [ext_call.rte_timer_stop src rsp.portid rsp.seqno]) src
            ((st.response_list.get src).erase rsp) := by
      rcases hcase with h | h
      · exact drain_pending env c src _ _ (by simpa using h)
      · rw [h]; rfl
    rw [heq, hstay]
    exact ⟨rfl, rfl, rfl, rfl⟩

theorem C11_refused_reply_witness :
    new_port_response collab_ok CONT_SRC_MAIN msg_fail_1001 = none
      ∧ (async_response_msg env_remote collab_ok st_main_awaiting CONT_SRC_MAIN
          msg_fail_1001).calls.filter is_if_update = st_main_awaiting.calls.filter is_if_update
      ∧ (async_response_msg env_remote collab_ok st_main_awaiting CONT_SRC_MAIN
          msg_fail_1001).master_state = st_main_awaiting.master_state
      ∧ (async_response_msg env_remote collab_ok st_main_awaiting CONT_SRC_MAIN
          msg_fail_1001).master_time = st_main_awaiting.master_time :=
  ⟨(C11_refused_reply env_remote collab_ok st_main_awaiting CONT_SRC_MAIN msg_fail_1001
      rsp_port3 (by decide) rfl rfl rfl (Or.inl (by decide))).1,
   (C11_refused_reply env_remote collab_ok st_main_awaiting CONT_SRC_MAIN msg_fail_1001
      rsp_port3 (by decide) rfl rfl rfl (Or.inl (by decide))).2.2.1,
   ((C11_refused_reply env_remote collab_ok st_main_awaiting CONT_SRC_MAIN msg_fail_1001
      rsp_port3 (by decide) rfl rfl rfl (Or.inl (by decide))).2.2.2 (Or.inr rfl)).2.1,
   ((C11_refused_reply env_remote collab_ok st_main_awaiting CONT_SRC_MAIN msg_fail_1001
      rsp_port3 (by decide) rfl rfl rfl (Or.inl (by decide))).2.2.2 (Or.inr rfl)).2.2.1⟩

/-- C12 (fails as stated): the well-formed reply "OK" carrying index 0 for the
outstanding request 1001 makes no interface update at all; and a reply
carrying index 7 makes none either when the entry of port 3 in `ifport_table`
is NULL. -/
theorem C12_reply_without_update :
    ¬ (ext_call.if_set_ifindex 3 0 ∈ (async_response_msg env_remote collab_ok
          st_main_awaiting CONT_SRC_MAIN (msg_ok_1001 0)).calls
        ∧ ext_call.if_rename 3 [100, 112, 48, 112, 51] ∈ (async_response_msg env_remote
          collab_ok st_main_awaiting CONT_SRC_MAIN (msg_ok_1001 0)).calls)
      ∧ ¬ (ext_call.if_set_ifindex 3 7 ∈ (async_response_msg env_remote collab_no_ports
          st_main_awaiting CONT_SRC_MAIN (msg_ok_1001 7)).calls
        ∧ ext_call.if_rename 3 [100, 112, 48, 112, 51] ∈ (async_response_msg env_remote
          collab_no_ports st_main_awaiting CONT_SRC_MAIN (msg_ok_1001 7)).calls) := by
  have h1 : (async_response_msg env_remote collab_ok st_main_awaiting CONT_SRC_MAIN
      (msg_ok_1001 0)).calls = [ext_call.rte_timer_stop CONT_SRC_MAIN 3 1001] := rfl
  have h2 : (async_response_msg env_remote collab_no_ports st_main_awaiting CONT_SRC_MAIN
      (msg_ok_1001 7)).calls = [ext_call.rte_timer_stop CONT_SRC_MAIN 3 1001] := rfl
  rw [h1, h2]
  exact ⟨fun h => by simp at h, fun h => by simp at h⟩

theorem drain_call_not_if_update (cont_src : cont_src_en) (x : ext_call)
    (h : is_drain_call cont_src x = true) : is_if_update x = false := by
  cases x <;> simp_all [is_drain_call, is_reset_call, is_if_update]

/-- C12 (amended): for a reply "OK" with an 8-byte sequence frame, a 4-byte
index frame and a name frame that answers the expected non-teardown response
`rsp`, whatever the index and the port table: `async_response` takes `rsp` off
the list of expected responses (with pairwise distinct sequence numbers no
response with that number is left) and stops its timer; the calls it makes
are those of `handle_port_response`, the timer stop, and calls of the drain
loop, none of which updates an interface.  When the port of `rsp` is still in
`ifport_table` and the index mapped by `cont_src_ifindex` (kept to 32 bits) is
not zero, `handle_port_response` sets the identity of the port with the mapped
index and the name of the reply.  When the mapped index is zero or the port
is gone, it makes no call and no interface update is made. -/
theorem C12_accepted_reply (env : Env) (c : Collab) (st : State) (src : cont_src_en)
    (msg : zmsg_t) (rsp : response)
    (h4 : 4 ≤ msg.length) (hok : zframe_strdup (msg.getD 0 []) = str_OK)
    (h8 : (msg.getD 1 []).length = 8) (hidx : (msg.getD 2 []).length = 4)
    (hfind : find_response st src (msg_seqno msg) = some rsp)
    (hnt : rsp.is_teardown = false) :
    (rsp ∈ st.response_list.get src ∧ rsp.seqno = msg_seqno msg)
      ∧ (async_response_msg env c st src msg).response_list.get src
          = (st.response_list.get src).erase rsp
      ∧ (((st.response_list.get src).map (fun r => r.seqno)).Nodup →
          find_response (async_response_msg env c st src msg) src (msg_seqno msg) = none)
      ∧ (∃ drained : List ext_call,
          (async_response_msg env c st src msg).calls
            = st.calls
              ++ handle_port_response_calls c src rsp
                  (c.cont_src_ifindex src (uint_of_bytes (msg.getD 2 [])) % 2 ^ 32)
                  (zframe_strdup (msg.getD 3 []))
              ++ [ext_call.rte_timer_stop src rsp.portid rsp.seqno] ++ drained
          ∧ ∀ x ∈ drained, is_drain_call src x = true ∧ is_if_update x = false)
      ∧ (∀ ifp : ifnet, c.ifport_table rsp.portid = some ifp →
          c.cont_src_ifindex src (uint_of_bytes (msg.getD 2 [])) % 2 ^ 32 ≠ 0 →
          handle_port_response_calls c src rsp
              (c.cont_src_ifindex src (uint_of_bytes (msg.getD 2 [])) % 2 ^ 32)
              (zframe_strdup (msg.getD 3 []))
            = [ext_call.if_set_cont_src rsp.portid src,
               ext_call.if_rename rsp.portid (zframe_strdup (msg.getD 3 [])),
               ext_call.if_set_ifindex rsp.portid
                 (c.cont_src_ifindex src (uint_of_bytes (msg.getD 2 [])) % 2 ^ 32),
               ext_call.if_finish_create rsp.portid ifp.is_team,
               ext_call.shadow_init_port ifp.if_port (zframe_strdup (msg.getD 3 []))]
              ++ (if c.shadow_init_port ifp.if_port (zframe_strdup (msg.getD 3 [])) < 0 then
                  [ext_call.rte_eth_dev_get_name_by_port ifp.if_port] ++
                    (match c.rte_eth_dev_get_name_by_port ifp.if_port with
                     | none => []
                     | some port_name => [ext_call.detach_device port_name])
                 else []))
      ∧ ((c.cont_src_ifindex src (uint_of_bytes (msg.getD 2 [])) % 2 ^ 32 = 0
            ∨ c.ifport_table rsp.portid = none) →
          handle_port_response_calls c src rsp
              (c.cont_src_ifindex src (uint_of_bytes (msg.getD 2 [])) % 2 ^ 32)
              (zframe_strdup (msg.getD 3 [])) = []
            ∧ (async_response_msg env c st src msg).calls.filter is_if_update
              = st.calls.filter is_if_update) := by
  have hfacts := find_response_facts st src (msg_seqno msg) rsp hfind
  have heq : async_response_msg env c st src msg
      = async_response_drain env c src (st.resync_list.get src)
          (with_response_list
            (record st
              (handle_port_response_calls c src rsp
                (c.cont_src_ifindex src (uint_of_bytes (msg.getD 2 [])) % 2 ^ 32)
                (zframe_strdup (msg.getD 3 []))
                ++ [ext_call.rte_timer_stop src rsp.portid rsp.seqno])) src
            ((st.response_list.get src).erase rsp)) := by
    rw [async_msg_matched env c st src msg rsp (by omega) h8 hfind,
      matched_eq c st src rsp msg hnt, new_port_response_some c src msg h4 hok h8 hidx]
  have hlist : (async_response_msg env c st src msg).response_list.get src
      = (st.response_list.get src).erase rsp := by
    rw [heq, drain_response_list]
    simp
  obtain ⟨xs, hxs, hdrain⟩ := drain_calls_grow env c src (st.resync_list.get src)
    (with_response_list
      (record st
        (handle_port_response_calls c src rsp
          (c.cont_src_ifindex src (uint_of_bytes (msg.getD 2 [])) % 2 ^ 32)
          (zframe_strdup (msg.getD 3 []))
          ++ [ext_call.rte_timer_stop src rsp.portid rsp.seqno])) src
      ((st.response_list.get src).erase rsp))
  have hcalls : (async_response_msg env c st src msg).calls
      = st.calls
        ++ handle_port_response_calls c src rsp
            (c.cont_src_ifindex src (uint_of_bytes (msg.getD 2 [])) % 2 ^ 32)
            (zframe_strdup (msg.getD 3 []))
        ++ [ext_call.rte_timer_stop src rsp.portid rsp.seqno] ++ xs := by
    rw [heq, hxs]
    simp only [with_response_list_calls, record_calls, List.append_assoc]
  have hempty : (c.cont_src_ifindex src (uint_of_bytes (msg.getD 2 [])) % 2 ^ 32 = 0
        ∨ c.ifport_table rsp.portid = none) →
      handle_port_response_calls c src rsp
        (c.cont_src_ifindex src (uint_of_bytes (msg.getD 2 [])) % 2 ^ 32)
        (zframe_strdup (msg.getD 3 [])) = [] := by
    intro h
    unfold handle_port_response_calls
    rcases h with h | h
    · rw [if_neg (not_not.mpr h)]
    · rw [h]
      split <;> rfl
  refine ⟨hfacts, hlist, fun hnd => ?_,
    ⟨xs, hcalls, fun x hx => ⟨hdrain x hx, drain_call_not_if_update src x (hdrain x hx)⟩⟩,
    fun ifp hport hnz => ?_, fun h => ⟨hempty h, ?_⟩⟩
  · unfold find_response
    rw [hlist, ← hfacts.2]
    exact find_after_erase _ rsp hfacts.1 hnd
  · unfold handle_port_response_calls
    rw [if_pos hnz, hport]
  · rw [hcalls, hempty h, List.append_nil, List.append_assoc, List.filter_append]
    have hnone : List.filter is_if_update
        ([ext_call.rte_timer_stop src rsp.portid rsp.seqno] ++ xs) = [] := by
      rw [List.filter_eq_nil_iff]
      intro x hx
      rw [List.mem_append, List.mem_singleton] at hx
      rcases hx with hx | hx
      · subst hx
        simp [is_if_update]
      · rw [drain_call_not_if_update src x (hdrain x hx)]
        decide
    rw [hnone, List.append_nil]

theorem C12_accepted_reply_witness :
    (async_response_msg env_remote collab_ok st_main_awaiting CONT_SRC_MAIN
        (msg_ok_1001 7)).response_list.get CONT_SRC_MAIN
        = (st_main_awaiting.response_list.get CONT_SRC_MAIN).erase rsp_port3
      ∧ handle_port_response_calls collab_ok CONT_SRC_MAIN rsp_port3
          (collab_ok.cont_src_ifindex CONT_SRC_MAIN
            (uint_of_bytes ((msg_ok_1001 7).getD 2 [])) % 2 ^ 32)
          (zframe_strdup ((msg_ok_1001 7).getD 3 []))
        = [ext_call.if_set_cont_src rsp_port3.portid CONT_SRC_MAIN,
           ext_call.if_rename rsp_port3.portid (zframe_strdup ((msg_ok_1001 7).getD 3 [])),
           ext_call.if_set_ifindex rsp_port3.portid
             (collab_ok.cont_src_ifindex CONT_SRC_MAIN
               (uint_of_bytes ((msg_ok_1001 7).getD 2 [])) % 2 ^ 32),
           ext_call.if_finish_create rsp_port3.portid false,
           ext_call.shadow_init_port 3 (zframe_strdup ((msg_ok_1001 7).getD 3 []))]
          ++ (if collab_ok.shadow_init_port 3 (zframe_strdup ((msg_ok_1001 7).getD 3 [])) < 0
              then
                [ext_call.rte_eth_dev_get_name_by_port 3] ++
                  (match collab_ok.rte_eth_dev_get_name_by_port 3 with
                   | none => []
                   | some port_name => [ext_call.detach_device port_name])
              else [])
      ∧ (async_response_msg env_remote collab_ok st_main_awaiting CONT_SRC_MAIN
          (msg_ok_1001 0)).calls.filter is_if_update
        = st_main_awaiting.calls.filter is_if_update :=
  ⟨(C12_accepted_reply env_remote collab_ok st_main_awaiting CONT_SRC_MAIN (msg_ok_1001 7)
      rsp_port3 (by decide) rfl rfl rfl rfl rfl).2.1,
   (C12_accepted_reply env_remote collab_ok st_main_awaiting CONT_SRC_MAIN (msg_ok_1001 7)
      rsp_port3 (by decide) rfl rfl rfl rfl rfl).2.2.2.2.1
      { if_port := 3, if_index := 0, is_team := false } rfl (by decide),
   ((C12_accepted_reply env_remote collab_ok st_main_awaiting CONT_SRC_MAIN (msg_ok_1001 0)
      rsp_port3 (by decide) rfl rfl rfl rfl rfl).2.2.2.2.2 (Or.inl (by decide))).2⟩

/-- C14: the source is in Resync with `M ≥ 1` expected responses.  The inbound
messages `evs` (each of at least two frames with an 8-byte sequence frame)
contain, in any positions and any order, answers to all but one of the
expected responses, each sequence number answered once; the other messages of
`evs` answer nothing.  After every initial part of `evs` a response is still
expected, no message has been applied and the stashed messages are exactly
the non-answers received so far, in arrival order.  When the last answer
`last` then arrives, the list of expected responses is empty and the loop
applies an initial part of the stash in arrival order: all of it, emptying
the resync list, when every stashed message converts and applies. -/
theorem C14_stash_applied_in_arrival_order (env : Env) (c : Collab) (st : State)
    (src : cont_src_en) (evs : List zmsg_t) (last : zmsg_t)
    (hs : master_state_get st src = MASTER_RESYNC)
    (hwf : ∀ m ∈ evs ++ [last], 2 ≤ m.length ∧ (m.getD 1 []).length = 8)
    (hlast : msg_seqno last ∈ (st.response_list.get src).map (fun r => r.seqno))
    (hnd : (((evs ++ [last]).filter (fun m => decide
      (msg_seqno m ∈ (st.response_list.get src).map (fun r => r.seqno)))).map
        msg_seqno).Nodup)
    (hcount : (evs.filter (fun m => decide
      (msg_seqno m ∈ (st.response_list.get src).map (fun r => r.seqno)))).length + 1
        = (st.response_list.get src).length) :
    (∀ pre : List zmsg_t, pre <+: evs →
        (async_response_seq env c src pre st).response_list.get src ≠ []
          ∧ snapshot_applied src (async_response_seq env c src pre st).calls
              = snapshot_applied src st.calls
          ∧ (async_response_seq env c src pre st).resync_list.get src
              = st.resync_list.get src ++ pre.filter (fun m => decide
                  (msg_seqno m ∉ (st.response_list.get src).map (fun r => r.seqno)))
          ∧ master_state_get (async_response_seq env c src pre st) src = MASTER_RESYNC)
      ∧ (async_response_seq env c src (evs ++ [last]) st).response_list.get src = []
      ∧ (∃ t : List zmsg_t,
          t <+: st.resync_list.get src ++ evs.filter (fun m => decide
              (msg_seqno m ∉ (st.response_list.get src).map (fun r => r.seqno)))
            ∧ snapshot_applied src (async_response_seq env c src (evs ++ [last]) st).calls
                = snapshot_applied src st.calls ++ t)
      ∧ ((∀ m ∈ st.resync_list.get src ++ evs.filter (fun m => decide
              (msg_seqno m ∉ (st.response_list.get src).map (fun r => r.seqno))),
            0 ≤ c.dpmsg_convert_zmsg m ∧ 0 ≤ (c.process_snapshot_one src m).1) →
          snapshot_applied src (async_response_seq env c src (evs ++ [last]) st).calls
              = snapshot_applied src st.calls ++ (st.resync_list.get src
                  ++ evs.filter (fun m => decide
                    (msg_seqno m ∉ (st.response_list.get src).map (fun r => r.seqno))))
            ∧ (async_response_seq env c src (evs ++ [last]) st).resync_list.get src = []) := by
  simp only [master_state_get_eq] at hs ⊢
  have hS : ∀ r ∈ st.response_list.get src,
      r.seqno ∈ (st.response_list.get src).map (fun r => r.seqno) :=
    fun r hr => List.mem_map_of_mem _ hr
  have hrep : ∀ m : zmsg_t, msg_seqno m ∈ (st.response_list.get src).map (fun r => r.seqno) →
      ∃ r ∈ st.response_list.get src, r.seqno = msg_seqno m := by
    intro m hm
    obtain ⟨r, hr, hrs⟩ := List.mem_map.mp hm
    exact ⟨r, hr, hrs⟩
  have hfl : (evs ++ [last]).filter (fun m => decide
      (msg_seqno m ∈ (st.response_list.get src).map (fun r => r.seqno)))
      = evs.filter (fun m => decide
          (msg_seqno m ∈ (st.response_list.get src).map (fun r => r.seqno))) ++ [last] := by
    rw [List.filter_append, List.filter_cons, if_pos (decide_eq_true hlast), List.filter_nil]
  rw [hfl, List.map_append, List.nodup_append] at hnd
  obtain ⟨hnd1, -, hdisj⟩ := hnd
  have hlast_new : msg_seqno last ∉ (evs.filter (fun m => decide
      (msg_seqno m ∈ (st.response_list.get src).map (fun r => r.seqno)))).map msg_seqno := by
    intro h
    exact hdisj h (by simp)
  have hwf_evs : ∀ m ∈ evs, 2 ≤ m.length ∧ (m.getD 1 []).length = 8 :=
    fun m hm => hwf m (List.mem_append_left _ hm)
  have hwf_last := hwf last (List.mem_append_right _ (List.mem_singleton_self _))
  -- the run over the whole of `evs`
  obtain ⟨e1, e2, e3, e4, e5⟩ := run_pending env c src
    ((st.response_list.get src).map (fun r => r.seqno)) evs st hs hS hwf_evs
    (fun m _ hm => hrep m hm) hnd1 (by omega)
  refine ⟨?_, ?_⟩
  · intro pre hpre
    obtain ⟨t, ht⟩ := hpre
    have hfp : evs.filter (fun m => decide
        (msg_seqno m ∈ (st.response_list.get src).map (fun r => r.seqno)))
        = pre.filter (fun m => decide
            (msg_seqno m ∈ (st.response_list.get src).map (fun r => r.seqno)))
          ++ t.filter (fun m => decide
            (msg_seqno m ∈ (st.response_list.get src).map (fun r => r.seqno))) := by
      rw [← ht, List.filter_append]
    have hndp : ((pre.filter (fun m => decide
        (msg_seqno m ∈ (st.response_list.get src).map (fun r => r.seqno)))).map
          msg_seqno).Nodup := by
      rw [hfp, List.map_append, List.nodup_append] at hnd1
      exact hnd1.1
    have hlenp : (pre.filter (fun m => decide
        (msg_seqno m ∈ (st.response_list.get src).map (fun r => r.seqno)))).length
        < (st.response_list.get src).length := by
      have := congrArg List.length hfp
      rw [List.length_append] at this
      omega
    obtain ⟨p1, p2, p3, p4, -⟩ := run_pending env c src
      ((st.response_list.get src).map (fun r => r.seqno)) pre st hs hS
      (fun m hm => hwf_evs m (by rw [← ht]; exact List.mem_append_left _ hm))
      (fun m _ hm => hrep m hm) hndp hlenp
    refine ⟨?_, p3, p2, p1⟩
    intro hnil
    rw [hnil] at p4
    simp only [List.length_nil] at p4
    omega
  · -- the last answer
    obtain ⟨r, hr, hrs⟩ := hrep last hlast
    have hr1 : r ∈ (async_response_seq env c src evs st).response_list.get src :=
      e5 r hr (by rw [hrs]; exact hlast_new)
    have hsome : ∃ r0, find_response (async_response_seq env c src evs st) src
        (msg_seqno last) = some r0 := by
      cases hf : find_response (async_response_seq env c src evs st) src (msg_seqno last) with
      | none =>
        unfold find_response at hf
        rw [List.find?_eq_none] at hf
        exact absurd (by simpa using hrs) (hf r hr1)
      | some r0 => exact ⟨r0, rfl⟩
    obtain ⟨r0, hr0⟩ := hsome
    obtain ⟨hr0mem, -⟩ := find_response_facts _ src (msg_seqno last) r0 hr0
    obtain ⟨mf1, -, mf3, mf4⟩ := matched_facts c (async_response_seq env c src evs st) src
      r0 last
    have hempty : (async_response_matched c (async_response_seq env c src evs st) src r0
        last).response_list.get src = [] := by
      rw [mf3]
      apply List.eq_nil_of_length_eq_zero
      rw [List.length_erase_of_mem hr0mem]
      omega
    have hrun : async_response_seq env c src (evs ++ [last]) st
        = async_response_drain env c src
            (st.resync_list.get src ++ evs.filter (fun m => decide
              (msg_seqno m ∉ (st.response_list.get src).map (fun r => r.seqno))))
            (async_response_matched c (async_response_seq env c src evs st) src r0 last) := by
      rw [async_response_seq_append]
      show async_response_msg env c (async_response_seq env c src evs st) src last = _
      rw [async_msg_matched env c _ src last r0 hwf_last.1 hwf_last.2 hr0, e2]
    have hq : (async_response_matched c (async_response_seq env c src evs st) src r0
        last).resync_list.get src
        = st.resync_list.get src ++ evs.filter (fun m => decide
            (msg_seqno m ∉ (st.response_list.get src).map (fun r => r.seqno))) := by
      rw [matched_resync_list, e2]
    refine ⟨?_, ?_, ?_⟩
    · rw [hrun, drain_response_list, hempty]
    · obtain ⟨t, ht, hcalls⟩ := drain_applied_prefix env c src
        (st.resync_list.get src ++ evs.filter (fun m => decide
          (msg_seqno m ∉ (st.response_list.get src).map (fun r => r.seqno))))
        (async_response_matched c (async_response_seq env c src evs st) src r0 last)
      exact ⟨t, ht, by rw [hrun, hcalls, mf4, e3]⟩
    · intro hok
      obtain ⟨d1, d2, -⟩ := drain_all_ok env c src _ _ hempty hq hok
      exact ⟨by rw [hrun, d2, mf4, e3], by rw [hrun, d1]⟩

theorem C14_stash_applied_in_arrival_order_witness :
    snapshot_applied CONT_SRC_MAIN (async_response_seq env_remote collab_ok CONT_SRC_MAIN
        ([msg_unsolicited, msg_ok_1001 7, msg_unsolicited2] ++ [msg_ok_1000])
        st_two_awaiting).calls
        = snapshot_applied CONT_SRC_MAIN st_two_awaiting.calls
            ++ (st_two_awaiting.resync_list.get CONT_SRC_MAIN
              ++ [msg_unsolicited, msg_ok_1001 7, msg_unsolicited2].filter (fun m => decide
                (msg_seqno m ∉ (st_two_awaiting.response_list.get CONT_SRC_MAIN).map
                  (fun r => r.seqno))))
      ∧ (async_response_seq env_remote collab_ok CONT_SRC_MAIN
          ([msg_unsolicited, msg_ok_1001 7, msg_unsolicited2] ++ [msg_ok_1000])
          st_two_awaiting).resync_list.get CONT_SRC_MAIN = [] :=
  (C14_stash_applied_in_arrival_order env_remote collab_ok st_two_awaiting CONT_SRC_MAIN
    [msg_unsolicited, msg_ok_1001 7, msg_unsolicited2] msg_ok_1000 rfl (by decide) (by decide)
    (by decide) (by decide)).2.2.2 (by decide)

/-- C15: the drain loop runs with no response expected on the resync list
`pre ++ m :: post`, every message of `pre` converting and applying.  If `m`
fails to convert or to apply, the loop ends there: the messages of `post` stay
in the resync list, the messages applied are those of `pre` (and `m` itself
when it converted), the source is in Reset and its reset timer is armed for
the retry delay.  If `m` and every message of `post` convert and apply and `m`
reports the end of the snapshot, all messages are applied in order, the
resync list is empty and the source is in Ready; the round that handles a
message reporting the end of the snapshot continues in the state in which the
source has been moved to Ready. -/
theorem C15_drain_abort_and_eof (env : Env) (c : Collab) (st : State) (src : cont_src_en)
    (pre post : List zmsg_t) (m : zmsg_t)
    (hp : st.response_list.get src = [])
    (hq : st.resync_list.get src = pre ++ m :: post)
    (hpre : ∀ x ∈ pre, 0 ≤ c.dpmsg_convert_zmsg x ∧ 0 ≤ (c.process_snapshot_one src x).1) :
    ((c.dpmsg_convert_zmsg m < 0 ∨ (c.process_snapshot_one src m).1 < 0) →
        (async_response_drain env c src (pre ++ m :: post) st).resync_list.get src = post
          ∧ snapshot_applied src (async_response_drain env c src (pre ++ m :: post) st).calls
              = snapshot_applied src st.calls ++ pre
                  ++ (if c.dpmsg_convert_zmsg m < 0 then [] else [m])
          ∧ master_state_get (async_response_drain env c src (pre ++ m :: post) st) src
              = MASTER_RESET
          ∧ ((async_response_drain env c src (pre ++ m :: post) st).master_time.get
              src).reset_timer
              = { pending := true,
                  ticks := ((async_response_drain env c src (pre ++ m :: post)
                    st).master_time.get src).retry_delay,
                  f := some (timer_fn.reset_timer_event src) })
      ∧ ((0 ≤ c.dpmsg_convert_zmsg m ∧ 0 ≤ (c.process_snapshot_one src m).1
            ∧ (c.process_snapshot_one src m).2 = true
            ∧ ∀ x ∈ post, 0 ≤ c.dpmsg_convert_zmsg x
                ∧ 0 ≤ (c.process_snapshot_one src x).1) →
          master_state_get (async_response_drain env c src (pre ++ m :: post) st) src
              = MASTER_READY
            ∧ (async_response_drain env c src (pre ++ m :: post) st).resync_list.get src = []
            ∧ snapshot_applied src
                (async_response_drain env c src (pre ++ m :: post) st).calls
                = snapshot_applied src st.calls ++ (pre ++ m :: post))
      ∧ ((0 ≤ c.dpmsg_convert_zmsg m ∧ 0 ≤ (c.process_snapshot_one src m).1
            ∧ (c.process_snapshot_one src m).2 = true) →
          async_response_drain env c src (m :: post) st
              = async_response_drain env c src post
                  (record (master_state_set env
                    (record (with_resync_list st src post)
                      [ext_call.dpmsg_convert_zmsg m, ext_call.process_snapshot_one src m])
                    src MASTER_READY)
                    [ext_call.controller_init_event_handler src,
                     ext_call.route_broker_init_event_handler src])
            ∧ master_state_get (record (master_state_set env
                (record (with_resync_list st src post)
                  [ext_call.dpmsg_convert_zmsg m, ext_call.process_snapshot_one src m])
                src MASTER_READY)
                [ext_call.controller_init_event_handler src,
                 ext_call.route_broker_init_event_handler src]) src = MASTER_READY) := by
  simp only [master_state_get_eq]
  refine ⟨fun hfail => drain_first_failure env c src m post pre st hp hpre hfail,
    fun hok => ?_, fun hok => ?_⟩
  · have hall : ∀ x ∈ pre ++ m :: post, 0 ≤ c.dpmsg_convert_zmsg x
        ∧ 0 ≤ (c.process_snapshot_one src x).1 := by
      intro x hx
      rcases List.mem_append.mp hx with h | h
      · exact hpre x h
      · rcases List.mem_cons.mp h with h | h
        · rw [h]; exact ⟨hok.1, hok.2.1⟩
        · exact hok.2.2.2 x h
    obtain ⟨d1, d2, d3⟩ := drain_all_ok env c src (pre ++ m :: post) st hp hq hall
    refine ⟨?_, d1, d2⟩
    rw [d3, if_pos]
    rw [List.any_eq_true]
    exact ⟨m, by simp, hok.2.2.1⟩
  · refine ⟨?_, (drain_ready_step_facts env src m post st).2.2.1⟩
    rw [drain_cons env c src m post st hp, if_neg (not_lt.mpr hok.1),
      if_neg (not_lt.mpr hok.2.1), if_pos hok.2.2]

theorem C15_drain_abort_and_eof_witness :
    ((async_response_drain env_remote (collab_snapshot msg_unsolicited2 msg_ok_1000)
        CONT_SRC_MAIN ([msg_unsolicited] ++ msg_unsolicited2 :: [msg_ok_1000])
        (st_stashed [msg_unsolicited, msg_unsolicited2, msg_ok_1000])).resync_list.get
        CONT_SRC_MAIN = [msg_ok_1000]
      ∧ snapshot_applied CONT_SRC_MAIN
          (async_response_drain env_remote (collab_snapshot msg_unsolicited2 msg_ok_1000)
            CONT_SRC_MAIN ([msg_unsolicited] ++ msg_unsolicited2 :: [msg_ok_1000])
            (st_stashed [msg_unsolicited, msg_unsolicited2, msg_ok_1000])).calls
          = snapshot_applied CONT_SRC_MAIN
              (st_stashed [msg_unsolicited, msg_unsolicited2, msg_ok_1000]).calls
              ++ [msg_unsolicited]
              ++ (if (collab_snapshot msg_unsolicited2 msg_ok_1000).dpmsg_convert_zmsg
                    msg_unsolicited2 < 0 then [] else [msg_unsolicited2])
      ∧ master_state_get
          (async_response_drain env_remote (collab_snapshot msg_unsolicited2 msg_ok_1000)
            CONT_SRC_MAIN ([msg_unsolicited] ++ msg_unsolicited2 :: [msg_ok_1000])
            (st_stashed [msg_unsolicited, msg_unsolicited2, msg_ok_1000])) CONT_SRC_MAIN
          = MASTER_RESET)
    ∧ master_state_get
        (async_response_drain env_remote (collab_snapshot (msg_ok_1001 0) msg_unsolicited2)
          CONT_SRC_MAIN ([msg_unsolicited] ++ msg_unsolicited2 :: [msg_ok_1000])
          (st_stashed [msg_unsolicited, msg_unsolicited2, msg_ok_1000])) CONT_SRC_MAIN
        = MASTER_READY :=
  ⟨⟨((C15_drain_abort_and_eof env_remote (collab_snapshot msg_unsolicited2 msg_ok_1000)
        (st_stashed [msg_unsolicited, msg_unsolicited2, msg_ok_1000]) CONT_SRC_MAIN
        [msg_unsolicited] [msg_ok_1000] msg_unsolicited2 rfl rfl (by decide)).1
        (Or.inl (by decide))).1,
     ((C15_drain_abort_and_eof env_remote (collab_snapshot msg_unsolicited2 msg_ok_1000)
        (st_stashed [msg_unsolicited, msg_unsolicited2, msg_ok_1000]) CONT_SRC_MAIN
        [msg_unsolicited] [msg_ok_1000] msg_unsolicited2 rfl rfl (by decide)).1
        (Or.inl (by decide))).2.1,
     ((C15_drain_abort_and_eof env_remote (collab_snapshot msg_unsolicited2 msg_ok_1000)
        (st_stashed [msg_unsolicited, msg_unsolicited2, msg_ok_1000]) CONT_SRC_MAIN
        [msg_unsolicited] [msg_ok_1000] msg_unsolicited2 rfl rfl (by decide)).1
        (Or.inl (by decide))).2.2.1⟩,
   ((C15_drain_abort_and_eof env_remote (collab_snapshot (msg_ok_1001 0) msg_unsolicited2)
      (st_stashed [msg_unsolicited, msg_unsolicited2, msg_ok_1000]) CONT_SRC_MAIN
      [msg_unsolicited] [msg_ok_1000] msg_unsolicited2 rfl rfl (by decide)).2.1
      ⟨by decide, by decide, by decide, by decide⟩).1⟩

/-! ## Port registration: facts -/

theorem new_port_request_ok (c : Collab) (st : State) (cont_src : cont_src_en) (seqno : Nat)
    (portid : Nat) (h : (c.zmsg_new portid && c.if_port_info portid) = true) :
    new_port_request c st cont_src seqno portid
      = (record st [ext_call.new_port_request cont_src seqno portid], 0) := by
  rw [Bool.and_eq_true] at h
  simp [new_port_request, h.1, h.2]

theorem new_port_request_fail (c : Collab) (st : State) (cont_src : cont_src_en) (seqno : Nat)
    (portid : Nat) (h : (c.zmsg_new portid && c.if_port_info portid) = false) :
    new_port_request c st cont_src seqno portid = (st, -ENOMEM) := by
  rw [Bool.and_eq_false_iff] at h
  unfold new_port_request
  rcases h with h | h
  · simp [h]
  · by_cases h1 : c.zmsg_new portid = false
    · simp [h1]
    · simp [h1, h]

theorem del_port_request_facts (c : Collab) (st : State) (cont_src : cont_src_en) (seqno : Nat)
    (portid : Nat) :
    (del_port_request c st cont_src seqno portid).master_state = st.master_state
      ∧ (del_port_request c st cont_src seqno portid).master_state_stats
          = st.master_state_stats
      ∧ (del_port_request c st cont_src seqno portid).master_time = st.master_time
      ∧ (del_port_request c st cont_src seqno portid).response_list = st.response_list
      ∧ (del_port_request c st cont_src seqno portid).resync_list = st.resync_list := by
  unfold del_port_request
  split <;> exact ⟨rfl, rfl, rfl, rfl, rfl⟩

/-- A port that is not eligible, or whose entry cannot be allocated, is passed
over by the loop. -/
theorem setup_loop_skip (env : Env) (c : Collab) (cont_src : cont_src_en) (td : Bool)
    (p : Nat) (rest : List Nat) (seqno : Nat) (st : State)
    (h : (port_eligible env c cont_src p && c.malloc_response p) = false) :
    setup_interfaces_loop env c cont_src td (p :: rest) seqno st
      = setup_interfaces_loop env c cont_src td rest seqno st := by
  unfold port_eligible at h
  rw [setup_interfaces_loop]
  cases hport : c.ifport_table p with
  | none => rfl
  | some ifp =>
    rw [hport] at h
    simp only
    by_cases h1 : env.is_local_controller = false
        ∧ (if c.if_port_is_uplink p = true then cont_src ≠ CONT_SRC_UPLINK
           else cont_src ≠ CONT_SRC_MAIN)
    · rw [if_pos h1]
    · rw [if_neg h1]
      by_cases h2 : ifp.is_team = true
      · rw [if_pos h2]
      · rw [if_neg h2]
        by_cases h3 : c.malloc_response p = false
        · rw [if_pos h3]
        · exfalso
          have hm : c.malloc_response p = true := by simpa using h3
          have ht : ifp.is_team = false := by simpa using h2
          simp only [hm, ht, Bool.and_true, Bool.not_false] at h
          cases hl : env.is_local_controller <;> cases hu : c.if_port_is_uplink p <;>
            cases cont_src <;> simp_all

/-- An eligible port whose entry is allocated gets the next sequence number. -/
theorem setup_loop_take (env : Env) (c : Collab) (cont_src : cont_src_en) (td : Bool)
    (p : Nat) (rest : List Nat) (seqno : Nat) (st : State)
    (h : (port_eligible env c cont_src p && c.malloc_response p) = true) :
    setup_interfaces_loop env c cont_src td (p :: rest) seqno st
      = if td = true then
          setup_interfaces_loop env c cont_src td rest ((seqno + 1) % 2 ^ 64)
            (with_response_list (del_port_request c st cont_src ((seqno + 1) % 2 ^ 64) p)
              cont_src
              ((del_port_request c st cont_src ((seqno + 1) % 2 ^ 64) p).response_list.get
                  cont_src
                ++ [expected_response cont_src td (st.master_time.get cont_src).retry_delay p
                    ((seqno + 1) % 2 ^ 64)]))
        else if (new_port_request c st cont_src ((seqno + 1) % 2 ^ 64) p).2 ≠ 0 then
          ((new_port_request c st cont_src ((seqno + 1) % 2 ^ 64) p).1, -1)
        else
          setup_interfaces_loop env c cont_src td rest ((seqno + 1) % 2 ^ 64)
            (with_response_list (new_port_request c st cont_src ((seqno + 1) % 2 ^ 64) p).1
              cont_src
              ((new_port_request c st cont_src ((seqno + 1) % 2 ^ 64) p).1.response_list.get
                  cont_src
                ++ [expected_response cont_src td (st.master_time.get cont_src).retry_delay p
                    ((seqno + 1) % 2 ^ 64)])) := by
  unfold port_eligible at h
  rw [setup_interfaces_loop]
  cases hport : c.ifport_table p with
  | none => rw [hport] at h; simp at h
  | some ifp =>
    rw [hport] at h
    simp only [Bool.and_eq_true, Bool.or_eq_true, Bool.not_eq_true'] at h
    obtain ⟨⟨hown, hteam⟩, hm⟩ := h
    have h1 : ¬ (env.is_local_controller = false
        ∧ (if c.if_port_is_uplink p = true then cont_src ≠ CONT_SRC_UPLINK
           else cont_src ≠ CONT_SRC_MAIN)) := by
      rintro ⟨hl, hsrc⟩
      rcases hown with hown | hown
      · rw [hl] at hown; cases hown
      · cases hu : c.if_port_is_uplink p <;> rw [hu] at hown hsrc <;> simp at hown hsrc <;>
          exact hsrc hown
    have h2 : ¬ ifp.is_team = true := by rw [hteam]; decide
    have h3 : ¬ c.malloc_response p = false := by rw [hm]; decide
    simp only [if_neg h1, if_neg h2, if_neg h3]

theorem setup_registered_skip (env : Env) (c : Collab) (cont_src : cont_src_en) (td : Bool)
    (p : Nat) (rest : List Nat)
    (h : (port_eligible env c cont_src p && c.malloc_response p) = false) :
    setup_registered env c cont_src td (p :: rest) = setup_registered env c cont_src td rest := by
  rw [setup_registered, h]
  rfl

theorem setup_registered_take (env : Env) (c : Collab) (cont_src : cont_src_en) (td : Bool)
    (p : Nat) (rest : List Nat)
    (h : (port_eligible env c cont_src p && c.malloc_response p) = true)
    (hreq : (!td && !(c.zmsg_new p && c.if_port_info p)) = false) :
    setup_registered env c cont_src td (p :: rest)
      = (p :: (setup_registered env c cont_src td rest).1,
          (setup_registered env c cont_src td rest).2) := by
  rw [setup_registered, h, hreq]
  rfl

theorem setup_registered_stop (env : Env) (c : Collab) (cont_src : cont_src_en) (td : Bool)
    (p : Nat) (rest : List Nat)
    (h : (port_eligible env c cont_src p && c.malloc_response p) = true)
    (hreq : (!td && !(c.zmsg_new p && c.if_port_info p)) = true) :
    setup_registered env c cont_src td (p :: rest) = ([], true) := by
  rw [setup_registered, h, hreq]
  rfl

/-- The loop of `setup_interfaces`, entered with the counter at `seed + j`:
its return value, the responses it appends (numbered from `seed + j + 1` on, in
port order) and the NEWPORT requests it sends; nothing else changes but the
record of calls. -/
theorem setup_loop_spec (env : Env) (c : Collab) (cont_src : cont_src_en) (td : Bool)
    (seed : Nat) (ports : List Nat) :
    ∀ (j : Nat) (st : State),
      (setup_interfaces_loop env c cont_src td ports ((seed + j) % 2 ^ 64) st).2
          = (if (setup_registered env c cont_src td ports).2 = true then -1 else 0)
        ∧ (setup_interfaces_loop env c cont_src td ports ((seed + j) % 2 ^ 64)
            st).1.response_list.get cont_src
            = st.response_list.get cont_src
              ++ List.zipWith (fun p i => expected_response cont_src td
                    (st.master_time.get cont_src).retry_delay p ((seed + i) % 2 ^ 64))
                  (setup_registered env c cont_src td ports).1
                  (List.range' (j + 1) (setup_registered env c cont_src td ports).1.length)
        ∧ (setup_interfaces_loop env c cont_src td ports ((seed + j) % 2 ^ 64)
            st).1.master_state = st.master_state
        ∧ (setup_interfaces_loop env c cont_src td ports ((seed + j) % 2 ^ 64)
            st).1.master_state_stats = st.master_state_stats
        ∧ (setup_interfaces_loop env c cont_src td ports ((seed + j) % 2 ^ 64)
            st).1.master_time = st.master_time
        ∧ (setup_interfaces_loop env c cont_src td ports ((seed + j) % 2 ^ 64)
            st).1.resync_list = st.resync_list
        ∧ (∀ s : cont_src_en, s ≠ cont_src →
            (setup_interfaces_loop env c cont_src td ports ((seed + j) % 2 ^ 64)
              st).1.response_list.get s = st.response_list.get s)
        ∧ (td = false →
            (setup_interfaces_loop env c cont_src td ports ((seed + j) % 2 ^ 64) st).1.calls
              = st.calls
                ++ List.zipWith (fun p i =>
                      ext_call.new_port_request cont_src ((seed + i) % 2 ^ 64) p)
                    (setup_registered env c cont_src td ports).1
                    (List.range' (j + 1)
                      (setup_registered env c cont_src td ports).1.length)) := by
  induction ports with
  | nil =>
    intro j st
    simp [setup_interfaces_loop, setup_registered]
  | cons p rest ih =>
    intro j st
    have hseq : ((seed + j) % 2 ^ 64 + 1) % 2 ^ 64 = (seed + (j + 1)) % 2 ^ 64 := by omega
    by_cases h : (port_eligible env c cont_src p && c.malloc_response p) = true
    · rw [setup_loop_take env c cont_src td p rest _ st h, hseq]
      cases td with
      | true =>
        rw [if_pos rfl, setup_registered_take env c cont_src true p rest h rfl]
        obtain ⟨d1, d2, d3, d4, d5⟩ :=
          del_port_request_facts c st cont_src ((seed + (j + 1)) % 2 ^ 64) p
        obtain ⟨i1, i2, i3, i4, i5, i6, i7, -⟩ := ih (j + 1)
          (with_response_list (del_port_request c st cont_src ((seed + (j + 1)) % 2 ^ 64) p)
            cont_src
            ((del_port_request c st cont_src ((seed + (j + 1)) % 2 ^ 64) p).response_list.get
                cont_src
              ++ [expected_response cont_src true (st.master_time.get cont_src).retry_delay p
                  ((seed + (j + 1)) % 2 ^ 64)]))
        refine ⟨i1, ?_, ?_, ?_, ?_, ?_, ?_, fun hf => by cases hf⟩
        · rw [i2]
          simp only [with_response_list_get, with_response_list_master_time, d3, d4,
            List.length_cons, List.range'_succ, List.zipWith_cons_cons, List.append_assoc,
            List.singleton_append]
        · rw [i3]; exact d1
        · rw [i4]; exact d2
        · rw [i5]; exact d3
        · rw [i6]; exact d5
        · intro s hs
          rw [i7 s hs]
          simp only [with_response_list]
          rw [per_src_get_set_ne _ _ _ _ (Ne.symm hs), d4]
      | false =>
        rw [if_neg (by decide)]
        by_cases hreq : (c.zmsg_new p && c.if_port_info p) = true
        · rw [new_port_request_ok c st cont_src _ p hreq, if_neg (by simp),
            setup_registered_take env c cont_src false p rest h (by simp [hreq])]
          obtain ⟨i1, i2, i3, i4, i5, i6, i7, i8⟩ := ih (j + 1)
            (with_response_list
              (record st [ext_call.new_port_request cont_src ((seed + (j + 1)) % 2 ^ 64) p])
              cont_src
              ((record st [ext_call.new_port_request cont_src
                  ((seed + (j + 1)) % 2 ^ 64) p]).response_list.get cont_src
                ++ [expected_response cont_src false (st.master_time.get cont_src).retry_delay
                    p ((seed + (j + 1)) % 2 ^ 64)]))
          refine ⟨i1, ?_, i3, i4, i5, i6, ?_, fun _ => ?_⟩
          · rw [i2]
            simp only [with_response_list_get, with_response_list_master_time,
              record_master_time, record_response_list, List.length_cons, List.range'_succ,
              List.zipWith_cons_cons, List.append_assoc, List.singleton_append]
          · intro s hs
            rw [i7 s hs]
            simp only [with_response_list, record_response_list]
            rw [per_src_get_set_ne _ _ _ _ (Ne.symm hs)]
          · rw [i8 rfl]
            simp only [with_response_list_calls, record_calls, List.length_cons,
              List.range'_succ, List.zipWith_cons_cons, List.append_assoc,
              List.singleton_append]
        · have hreq2 : (c.zmsg_new p && c.if_port_info p) = false := by simpa using hreq
          rw [new_port_request_fail c st cont_src _ p hreq2,
            if_pos (by simp [ENOMEM]),
            setup_registered_stop env c cont_src false p rest h (by simp [hreq2])]
          simp
    · have h2 : (port_eligible env c cont_src p && c.malloc_response p) = false := by
        simpa using h
      rw [setup_loop_skip env c cont_src td p rest _ st h2,
        setup_registered_skip env c cont_src td p rest h2]
      exact ih j st

/-- When no NEWPORT request fails to be built, the loop registers exactly the
eligible ports whose entry could be allocated. -/
theorem setup_registered_all (env : Env) (c : Collab) (cont_src : cont_src_en) (td : Bool)
    (ports : List Nat)
    (hreq : ∀ p ∈ ports, td = true ∨ (c.zmsg_new p && c.if_port_info p) = true) :
    setup_registered env c cont_src td ports
      = (ports.filter (fun p => port_eligible env c cont_src p && c.malloc_response p),
          false) := by
  induction ports with
  | nil => rfl
  | cons p rest ih =>
    have ih1 := ih (fun x hx => hreq x (List.mem_cons_of_mem _ hx))
    by_cases h : (port_eligible env c cont_src p && c.malloc_response p) = true
    · have hr : (!td && !(c.zmsg_new p && c.if_port_info p)) = false := by
        rcases hreq p (List.mem_cons_self _ _) with h1 | h1
        · simp [h1]
        · simp [h1]
      rw [setup_registered_take env c cont_src td p rest h hr, ih1, List.filter_cons, if_pos h]
    · have h2 : (port_eligible env c cont_src p && c.malloc_response p) = false := by
        simpa using h
      rw [setup_registered_skip env c cont_src td p rest h2, ih1, List.filter_cons,
        if_neg h]

/-- The first NEWPORT request that fails to be built ends the loop: the ports
before it are registered, none after it. -/
theorem setup_registered_first_failure (env : Env) (c : Collab) (cont_src : cont_src_en)
    (pre post : List Nat) (p : Nat)
    (hpre : ∀ x ∈ pre, (c.zmsg_new x && c.if_port_info x) = true)
    (hp : (port_eligible env c cont_src p && c.malloc_response p) = true)
    (hfail : (c.zmsg_new p && c.if_port_info p) = false) :
    setup_registered env c cont_src false (pre ++ p :: post)
      = (pre.filter (fun x => port_eligible env c cont_src x && c.malloc_response x),
          true) := by
  induction pre with
  | nil =>
    rw [List.nil_append, setup_registered_stop env c cont_src false p post hp
      (by simp [hfail])]
    rfl
  | cons x rest ih =>
    have ih1 := ih (fun y hy => hpre y (List.mem_cons_of_mem _ hy))
    rw [List.cons_append]
    by_cases h : (port_eligible env c cont_src x && c.malloc_response x) = true
    · rw [setup_registered_take env c cont_src false x _ h
        (by simp [hpre x (List.mem_cons_self _ _)]), ih1, List.filter_cons, if_pos h]
    · have h2 : (port_eligible env c cont_src x && c.malloc_response x) = false := by
        simpa using h
      rw [setup_registered_skip env c cont_src false x _ h2, ih1, List.filter_cons,
        if_neg h]

theorem setup_registered_length_le (env : Env) (c : Collab) (cont_src : cont_src_en)
    (td : Bool) (ports : List Nat) :
    (setup_registered env c cont_src td ports).1.length ≤ ports.length := by
  induction ports with
  | nil => simp [setup_registered]
  | cons p rest ih =>
    by_cases h : (port_eligible env c cont_src p && c.malloc_response p) = true
    · by_cases hr : (!td && !(c.zmsg_new p && c.if_port_info p)) = true
      · rw [setup_registered_stop env c cont_src td p rest h hr]
        simp
      · have hr2 : (!td && !(c.zmsg_new p && c.if_port_info p)) = false := by simpa using hr
        rw [setup_registered_take env c cont_src td p rest h hr2]
        simp only [List.length_cons]
        omega
    · have h2 : (port_eligible env c cont_src p && c.malloc_response p) = false := by
        simpa using h
      rw [setup_registered_skip env c cont_src td p rest h2]
      simp only [List.length_cons]
      omega

/-- Function `setup_interfaces` on a valid range is its loop over that range,
entered with the counter at the value drawn by `random()`. -/
theorem setup_interfaces_valid (env : Env) (c : Collab) (st : State) (startid num_ports : Nat)
    (cont_src : cont_src_en) (td : Bool) (seed : Nat)
    (hs : startid < 256) (hn : num_ports < 256)
    (hvalid : startid + num_ports ≤ c.DATAPLANE_MAX_PORTS) :
    setup_interfaces env c st startid num_ports cont_src td seed
      = setup_interfaces_loop env c cont_src td (List.range' startid num_ports)
          ((seed + 0) % 2 ^ 64) st := by
  unfold setup_interfaces
  rw [Nat.mod_eq_of_lt hs, Nat.mod_eq_of_lt hn, if_neg (by omega)]
  rfl

/-- Sequence numbers of the responses appended by one call. -/
theorem zipWith_expected_seqno (cont_src : cont_src_en) (td : Bool) (delay seed : Nat)
    (l : List Nat) :
    ∀ k : Nat, (List.zipWith (fun p i => expected_response cont_src td delay p
        ((seed + i) % 2 ^ 64)) l (List.range' k l.length)).map (fun r => r.seqno)
      = (List.range' k l.length).map (fun i => (seed + i) % 2 ^ 64) := by
  induction l with
  | nil => intro k; rfl
  | cons p rest ih =>
    intro k
    simp only [List.length_cons, List.range'_succ, List.zipWith_cons_cons, List.map_cons]
    rw [ih (k + 1)]
    rfl

/-- Fewer than 2^64 consecutive counter values are pairwise distinct. -/
theorem nodup_fresh_seqnos (seed k n : Nat) (hn : n < 2 ^ 64) :
    ((List.range' k n).map (fun i => (seed + i) % 2 ^ 64)).Nodup := by
  refine List.Nodup.map_on ?_ (List.nodup_range' k n)
  intro x hx y hy hxy
  rw [List.mem_range'_1] at hx hy
  omega

/-! ### Operations that only take responses off the lists -/

theorem store_response_list_sublist (env : Env) (st : State) (cont_src : cont_src_en)
    (new_state : master_state_en) (s : cont_src_en) :
    ((master_state_set_store env st cont_src new_state).response_list.get s).Sublist
      (st.response_list.get s) := by
  rw [store_response_list]
  split
  · cases s
    · simp
    · exact List.Sublist.refl _
  · exact List.Sublist.refl _

theorem set_response_list_sublist (env : Env) (st : State) (cont_src : cont_src_en)
    (new_state : master_state_en) (s : cont_src_en) :
    ((master_state_set env st cont_src new_state).response_list.get s).Sublist
      (st.response_list.get s) := by
  rw [master_state_set_unfold]
  split
  · exact List.Sublist.refl _
  · refine List.Sublist.trans (store_response_list_sublist env _ cont_src new_state s) ?_
    split
    · split
      · exact List.Sublist.refl _
      · exact store_response_list_sublist env st CONT_SRC_MAIN MASTER_IDLE s
    · exact List.Sublist.refl _

theorem reset_dataplane_true_response_list_sublist (env : Env) (st : State)
    (cont_src : cont_src_en) (s : cont_src_en) :
    ((reset_dataplane env st cont_src true).response_list.get s).Sublist
      (st.response_list.get s) :=
  set_response_list_sublist env st cont_src MASTER_RESET s

theorem drain_response_list_sublist (env : Env) (c : Collab) (cont_src : cont_src_en)
    (s : cont_src_en) (q : List zmsg_t) :
    ∀ st : State, ((async_response_drain env c cont_src q st).response_list.get s).Sublist
      (st.response_list.get s) := by
  induction q with
  | nil => intro st; exact List.Sublist.refl _
  | cons m rest ih =>
    intro st
    by_cases hp : st.response_list.get cont_src = []
    · rw [drain_cons env c cont_src m rest st hp]
      split
      · exact reset_dataplane_true_response_list_sublist env _ cont_src s
      · split
        · exact reset_dataplane_true_response_list_sublist env _ cont_src s
        · split
          · refine List.Sublist.trans (ih _) ?_
            exact set_response_list_sublist env _ cont_src MASTER_READY s
          · exact ih _
    · rw [drain_pending env c cont_src _ st hp]

theorem matched_response_list_sublist (c : Collab) (st : State) (cont_src : cont_src_en)
    (rsp : response) (msg : zmsg_t) (s : cont_src_en) :
    ((async_response_matched c st cont_src rsp msg).response_list.get s).Sublist
      (st.response_list.get s) := by
  have key : ∀ st0 : State, st0.response_list = st.response_list →
      ((with_response_list st0 cont_src ((st0.response_list.get cont_src).erase
        rsp)).response_list.get s).Sublist (st.response_list.get s) := by
    intro st0 h0
    by_cases hs : cont_src = s
    · subst hs
      rw [with_response_list_get, h0]
      exact List.erase_sublist _ _
    · simp only [with_response_list]
      rw [per_src_get_set_ne _ _ _ _ hs, h0]
  cases ht : rsp.is_teardown
  · rw [matched_eq c st cont_src rsp msg ht]
    exact key (record st _) rfl
  · rw [matched_teardown_eq c st cont_src rsp msg ht]
    exact key st rfl

/-- Handling an inbound message never adds an expected response. -/
theorem async_response_msg_sublist (env : Env) (c : Collab) (st : State)
    (cont_src : cont_src_en) (msg : zmsg_t) (s : cont_src_en) :
    ((async_response_msg env c st cont_src msg).response_list.get s).Sublist
      (st.response_list.get s) := by
  unfold async_response_msg
  split
  · exact reset_dataplane_true_response_list_sublist env st cont_src s
  · split
    · exact reset_dataplane_true_response_list_sublist env st cont_src s
    · split
      · exact List.Sublist.trans (drain_response_list_sublist env c cont_src s _ _)
          (matched_response_list_sublist c st cont_src _ msg s)
      · split
        · exact drain_response_list_sublist env c cont_src s _ _
        · show ((if (process_ready c st cont_src msg).2 < 0
              then reset_dataplane env (process_ready c st cont_src msg).1 cont_src true
              else (process_ready c st cont_src msg).1).response_list.get s).Sublist
              (st.response_list.get s)
          split
          · refine List.Sublist.trans
              (reset_dataplane_true_response_list_sublist env _ cont_src s) ?_
            rw [process_ready_fst]
            exact List.Sublist.refl _
          · rw [process_ready_fst]
            exact List.Sublist.refl _

theorem master_cleanup_response_list_sublist (env : Env) (st : State) (cont_src : cont_src_en)
    (s : cont_src_en) :
    ((master_cleanup env st cont_src).response_list.get s).Sublist
      (st.response_list.get s) := by
  unfold master_cleanup
  split
  · exact List.Sublist.refl _
  · cases cont_src <;> cases s <;>
      simp [cleanup_resync, cleanup_responses, per_src.get, per_src.set]

theorem nodup_seqno_of_sublist {l1 l2 : List response} (h : l1.Sublist l2)
    (hnd : (l2.map (fun r => r.seqno)).Nodup) : (l1.map (fun r => r.seqno)).Nodup :=
  List.Nodup.sublist (List.Sublist.map _ h) hnd

theorem port_eligible_iff (env : Env) (c : Collab) (cont_src : cont_src_en) (p : Nat) :
    port_eligible env c cont_src p = true
      ↔ ∃ ifp, c.ifport_table p = some ifp
          ∧ (env.is_local_controller = true
              ∨ (c.if_port_is_uplink p = true ∧ cont_src = CONT_SRC_UPLINK)
              ∨ (c.if_port_is_uplink p = false ∧ cont_src = CONT_SRC_MAIN))
          ∧ ifp.is_team = false := by
  unfold port_eligible
  cases hm : c.ifport_table p with
  | none => simp
  | some ifp =>
    cases hl : env.is_local_controller <;> cases hu : c.if_port_is_uplink p <;>
      cases ht : ifp.is_team <;> cases cont_src <;> simp

theorem expected_response_eq (cont_src : cont_src_en) (td : Bool) (delay seed : Nat) :
    (fun (p i : Nat) => expected_response cont_src td delay p ((seed + i) % 2 ^ 64))
      = (fun (p i : Nat) =>
          ({ portid := p
             seqno := (seed + i) % 2 ^ 64
             is_teardown := td
             timer :=
               if td = true then { pending := false, ticks := 0, f := none }
               else { pending := true, ticks := delay,
                      f := some (timer_fn.expire_response cont_src p ((seed + i) % 2 ^ 64)) }
             rsp_cont_src := cont_src } : response)) := by
  funext p i
  cases td <;> rfl

/-! ## Claims on port registration -/

/-- C16: for a valid port range (`startid + num_ports ≤ DATAPLANE_MAX_PORTS`,
both arguments being `uint8_t`) and no allocation failure, `setup_interfaces`
returns 0 and appends to the list of expected responses of the source, in port
order, one entry for each port of the range that exists, is owned by the
source and is not a team port, and nothing else.  The i-th appended entry,
counting from 1, carries the sequence number `seed + i` (on 64 bits), the port
id, the teardown flag and the source; its timer is armed, with the current
retry delay as timeout, exactly when the call is not a teardown.  The list of
the other source is unchanged. -/
theorem C16_setup_interfaces_registers (env : Env) (c : Collab) (st : State)
    (startid num_ports : Nat) (cont_src : cont_src_en) (td : Bool) (seed : Nat)
    (hs : startid < 256) (hn : num_ports < 256)
    (hvalid : startid + num_ports ≤ c.DATAPLANE_MAX_PORTS)
    (halloc : ∀ p ∈ List.range' startid num_ports,
      c.malloc_response p = true ∧ c.zmsg_new p = true ∧ c.if_port_info p = true) :
    (setup_interfaces env c st startid num_ports cont_src td seed).2 = 0
      ∧ (setup_interfaces env c st startid num_ports cont_src td seed).1.response_list.get
          cont_src
        = st.response_list.get cont_src
          ++ List.zipWith
              (fun p i =>
                ({ portid := p
                   seqno := (seed + i) % 2 ^ 64
                   is_teardown := td
                   timer :=
                     if td = true then { pending := false, ticks := 0, f := none }
                     else { pending := true
                            ticks := (st.master_time.get cont_src).retry_delay
                            f := some (timer_fn.expire_response cont_src p
                              ((seed + i) % 2 ^ 64)) }
                   rsp_cont_src := cont_src } : response))
              ((List.range' startid num_ports).filter (port_eligible env c cont_src))
              (List.range' 1
                ((List.range' startid num_ports).filter (port_eligible env c cont_src)).length)
      ∧ (∀ s : cont_src_en, s ≠ cont_src →
          (setup_interfaces env c st startid num_ports cont_src td seed).1.response_list.get s
            = st.response_list.get s)
      ∧ (∀ p : Nat, port_eligible env c cont_src p = true
          ↔ ∃ ifp, c.ifport_table p = some ifp
              ∧ (env.is_local_controller = true
                  ∨ (c.if_port_is_uplink p = true ∧ cont_src = CONT_SRC_UPLINK)
                  ∨ (c.if_port_is_uplink p = false ∧ cont_src = CONT_SRC_MAIN))
              ∧ ifp.is_team = false) := by
  have hreg := setup_registered_all env c cont_src td (List.range' startid num_ports)
    (fun p hp => Or.inr (by simp [(halloc p hp).2.1, (halloc p hp).2.2]))
  have hfilter : (List.range' startid num_ports).filter
        (fun p => port_eligible env c cont_src p && c.malloc_response p)
      = (List.range' startid num_ports).filter (port_eligible env c cont_src) := by
    apply List.filter_congr
    intro p hp
    simp [(halloc p hp).1]
  rw [hfilter] at hreg
  obtain ⟨h1, h2, -, -, -, -, h7, -⟩ :=
    setup_loop_spec env c cont_src td seed (List.range' startid num_ports) 0 st
  rw [hreg] at h1 h2
  rw [setup_interfaces_valid env c st startid num_ports cont_src td seed hs hn hvalid]
  refine ⟨by simpa using h1, ?_, h7, port_eligible_iff env c cont_src⟩
  rw [h2, expected_response_eq]

theorem C16_setup_interfaces_registers_witness :
    (setup_interfaces env_remote collab_ok st_main_ready 0 4 CONT_SRC_MAIN false 1000).2 = 0
      ∧ ((setup_interfaces env_remote collab_ok st_main_ready 0 4 CONT_SRC_MAIN false
          1000).1.response_list.get CONT_SRC_MAIN).map (fun r => (r.portid, r.seqno))
        = [(1, 1001), (2, 1002), (3, 1003)] :=
  ⟨(C16_setup_interfaces_registers env_remote collab_ok st_main_ready 0 4 CONT_SRC_MAIN false
      1000 (by decide) (by decide) (by decide) (by decide)).1,
   by
    rw [(C16_setup_interfaces_registers env_remote collab_ok st_main_ready 0 4 CONT_SRC_MAIN
      false 1000 (by decide) (by decide) (by decide) (by decide)).2.1]
    rfl⟩

/-- What one call of `setup_interfaces` does to the sequence numbers the source
is waiting for: it appends `seed + 1, ..., seed + n` (on 64 bits) for some
`n < 256`. -/
theorem setup_interfaces_seqnos (env : Env) (c : Collab) (st : State)
    (startid num_ports : Nat) (cont_src : cont_src_en) (td : Bool) (seed : Nat) :
    ∃ n : Nat, n < 256
      ∧ outstanding_seqnos (setup_interfaces env c st startid num_ports cont_src td seed).1
          cont_src
        = outstanding_seqnos st cont_src
            ++ (List.range' 1 n).map (fun i => (seed + i) % 2 ^ 64)
      ∧ ∀ s : cont_src_en, s ≠ cont_src →
          outstanding_seqnos (setup_interfaces env c st startid num_ports cont_src td seed).1 s
            = outstanding_seqnos st s := by
  unfold setup_interfaces
  split
  · exact ⟨0, by decide, by simp, fun s _ => rfl⟩
  · obtain ⟨-, h2, -, -, -, -, h7, -⟩ :=
      setup_loop_spec env c cont_src td seed
        (List.range' (startid % 256) (num_ports % 256)) 0 st
    have hlen := setup_registered_length_le env c cont_src td
      (List.range' (startid % 256) (num_ports % 256))
    rw [List.length_range'] at hlen
    have hlt : num_ports % 256 < 256 := Nat.mod_lt _ (by decide)
    rw [Nat.add_zero] at h2 h7
    refine ⟨_, lt_of_le_of_lt hlen hlt, ?_, ?_⟩
    · unfold outstanding_seqnos
      rw [h2, List.map_append, zipWith_expected_seqno]
    · intro s hs
      unfold outstanding_seqnos
      rw [h7 s hs]

/-- C17, counterexample: the full registration of ports 1 to 3 with random base
1000 leaves the distinct sequence numbers 1001, 1002, 1003 outstanding; a
single-port registration of port 2 issued then, whose own random base is
1001, appends a second request numbered 1002. -/
theorem C17_fresh_base_collides :
    outstanding_seqnos
        (setup_interfaces env_remote collab_ok st_main_ready 0 4 CONT_SRC_MAIN false 1000).1
        CONT_SRC_MAIN = [1001, 1002, 1003]
      ∧ outstanding_seqnos
          (setup_interface_portid env_remote collab_ok
            (setup_interfaces env_remote collab_ok st_main_ready 0 4 CONT_SRC_MAIN false
              1000).1 2 1001).1
          CONT_SRC_MAIN = [1001, 1002, 1003, 1002]
      ∧ ¬ (outstanding_seqnos
          (setup_interface_portid env_remote collab_ok
            (setup_interfaces env_remote collab_ok st_main_ready 0 4 CONT_SRC_MAIN false
              1000).1 2 1001).1
          CONT_SRC_MAIN).Nodup := by
  have h : outstanding_seqnos
      (setup_interface_portid env_remote collab_ok
        (setup_interfaces env_remote collab_ok st_main_ready 0 4 CONT_SRC_MAIN false
          1000).1 2 1001).1
      CONT_SRC_MAIN = [1001, 1002, 1003, 1002] := rfl
  refine ⟨rfl, h, ?_⟩
  rw [h]
  decide

/-- C17, amended: handling an inbound message, a state change and the cleanup
only take entries off the lists of expected responses, so they keep the
outstanding sequence numbers of every source pairwise distinct.  A call of
`setup_interfaces` (full registration or a single-port call) with random base
`seed` appends the numbers `seed + 1, ..., seed + n` (on 64 bits) for some
`n < 256`; these are distinct from one another, and the outstanding numbers
are pairwise distinct afterwards exactly when they were before and none of
the appended numbers was already outstanding.  The numbers of the other
source are unchanged. -/
theorem C17_seqno_uniqueness (env : Env) (c : Collab) (st : State) (src : cont_src_en)
    (hnd : ∀ s : cont_src_en, (outstanding_seqnos st s).Nodup) :
    (∀ (msg : zmsg_t) (s : cont_src_en),
        (outstanding_seqnos (async_response_msg env c st src msg) s).Nodup)
      ∧ (∀ (new_state : master_state_en) (s : cont_src_en),
        (outstanding_seqnos (master_state_set env st src new_state) s).Nodup)
      ∧ (∀ s : cont_src_en, (outstanding_seqnos (master_cleanup env st src) s).Nodup)
      ∧ (∀ (startid num_ports : Nat) (td : Bool) (seed : Nat),
          ∃ n : Nat, n < 256
            ∧ outstanding_seqnos (setup_interfaces env c st startid num_ports src td seed).1 src
              = outstanding_seqnos st src
                  ++ (List.range' 1 n).map (fun i => (seed + i) % 2 ^ 64)
            ∧ ((List.range' 1 n).map (fun i => (seed + i) % 2 ^ 64)).Nodup
            ∧ ((outstanding_seqnos
                  (setup_interfaces env c st startid num_ports src td seed).1 src).Nodup
                ↔ ∀ i : Nat, 1 ≤ i → i ≤ n →
                    (seed + i) % 2 ^ 64 ∉ outstanding_seqnos st src)
            ∧ ∀ s : cont_src_en, s ≠ src →
                outstanding_seqnos (setup_interfaces env c st startid num_ports src td seed).1 s
                  = outstanding_seqnos st s) := by
  refine ⟨?_, ?_, ?_, ?_⟩
  · intro msg s
    exact nodup_seqno_of_sublist (async_response_msg_sublist env c st src msg s) (hnd s)
  · intro new_state s
    exact nodup_seqno_of_sublist (set_response_list_sublist env st src new_state s) (hnd s)
  · intro s
    exact nodup_seqno_of_sublist (master_cleanup_response_list_sublist env st src s) (hnd s)
  · intro startid num_ports td seed
    obtain ⟨n, hn, happ, hother⟩ :=
      setup_interfaces_seqnos env c st startid num_ports src td seed
    have hfresh := nodup_fresh_seqnos seed 1 n (lt_trans hn (by decide))
    refine ⟨n, hn, happ, hfresh, ?_, hother⟩
    rw [happ, List.nodup_append]
    constructor
    · rintro ⟨-, -, hdis⟩ i h1 h2 hmem
      refine hdis hmem ?_
      rw [List.mem_map]
      exact ⟨i, by rw [List.mem_range'_1]; omega, rfl⟩
    · intro h
      refine ⟨hnd src, hfresh, ?_⟩
      intro x hx1 hx2
      rw [List.mem_map] at hx2
      obtain ⟨i, hi, rfl⟩ := hx2
      rw [List.mem_range'_1] at hi
      exact h i hi.1 (by omega) hx1

theorem C17_seqno_uniqueness_witness :
    (outstanding_seqnos (async_response_msg env_remote collab_ok st_two_awaiting CONT_SRC_MAIN
        msg_ok_1000) CONT_SRC_MAIN).Nodup
      ∧ (outstanding_seqnos (master_cleanup env_remote st_two_awaiting CONT_SRC_MAIN)
          CONT_SRC_MAIN).Nodup :=
  ⟨(C17_seqno_uniqueness env_remote collab_ok st_two_awaiting CONT_SRC_MAIN
      (by intro s; cases s <;> decide)).1 msg_ok_1000 CONT_SRC_MAIN,
   (C17_seqno_uniqueness env_remote collab_ok st_two_awaiting CONT_SRC_MAIN
      (by intro s; cases s <;> decide)).2.2.1 CONT_SRC_MAIN⟩

/-- C18, counterexample: no response entry can be allocated for port 1.
`setup_interfaces` passes over port 1, still sends the requests for the later
ports 2 and 3 and appends their entries, and returns 0; the main loop then
moves the source from Setup to ResyncNeeded, not to Reset. -/
theorem C18_allocation_failure_skips_port :
    collab_malloc_fail.malloc_response 1 = false
      ∧ (setup_interfaces env_remote collab_malloc_fail
          (st_remote MASTER_SETUP MASTER_READY (RETRY_MIN_TICKS env_remote) [] [])
          0 4 CONT_SRC_MAIN false 1000).2 = 0
      ∧ ((setup_interfaces env_remote collab_malloc_fail
          (st_remote MASTER_SETUP MASTER_READY (RETRY_MIN_TICKS env_remote) [] [])
          0 4 CONT_SRC_MAIN false 1000).1.response_list.get CONT_SRC_MAIN).map
            (fun r => (r.portid, r.seqno)) = [(2, 1001), (3, 1002)]
      ∧ (setup_interfaces env_remote collab_malloc_fail
          (st_remote MASTER_SETUP MASTER_READY (RETRY_MIN_TICKS env_remote) [] [])
          0 4 CONT_SRC_MAIN false 1000).1.calls
          = (st_remote MASTER_SETUP MASTER_READY (RETRY_MIN_TICKS env_remote) [] []).calls
            ++ [ext_call.new_port_request CONT_SRC_MAIN 1001 2,
                ext_call.new_port_request CONT_SRC_MAIN 1002 3]
      ∧ master_state_get
          (master_loop_switch env_remote collab_malloc_fail id
            (st_remote MASTER_SETUP MASTER_READY (RETRY_MIN_TICKS env_remote) [] [])
            CONT_SRC_MAIN) CONT_SRC_MAIN = MASTER_RESYNC_NEEDED := by
  refine ⟨rfl, rfl, rfl, rfl, rfl⟩

/-- C18, amended: for a valid port range of a registration (not a teardown),
a failed allocation of a response entry only makes `setup_interfaces` pass
over that port: when every NEWPORT request of the range can be built, the
call returns 0 and appends an entry for every port that is eligible and whose
entry could be allocated, later ports included.  What aborts the batch is a
NEWPORT request that cannot be built: at the first such port `p` the call
returns -1, and entries and requests exist only for ports before `p`.  The
Setup case of the main loop moves the source to Reset when the call returns a
negative value and to ResyncNeeded otherwise. -/
theorem C18_setup_failures (env : Env) (c : Collab) (st : State) (startid num_ports : Nat)
    (src : cont_src_en) (seed : Nat)
    (hs : startid < 256) (hn : num_ports < 256)
    (hvalid : startid + num_ports ≤ c.DATAPLANE_MAX_PORTS) :
    ((∀ p ∈ List.range' startid num_ports, (c.zmsg_new p && c.if_port_info p) = true) →
        (setup_interfaces env c st startid num_ports src false seed).2 = 0
          ∧ (setup_interfaces env c st startid num_ports src false seed).1.response_list.get src
            = st.response_list.get src
              ++ List.zipWith (fun p i => expected_response src false
                    (st.master_time.get src).retry_delay p ((seed + i) % 2 ^ 64))
                  ((List.range' startid num_ports).filter
                    (fun p => port_eligible env c src p && c.malloc_response p))
                  (List.range' 1 ((List.range' startid num_ports).filter
                    (fun p => port_eligible env c src p && c.malloc_response p)).length))
      ∧ (∀ (pre post : List Nat) (p : Nat),
          List.range' startid num_ports = pre ++ p :: post →
          (∀ x ∈ pre, (c.zmsg_new x && c.if_port_info x) = true) →
          (port_eligible env c src p && c.malloc_response p) = true →
          (c.zmsg_new p && c.if_port_info p) = false →
          (setup_interfaces env c st startid num_ports src false seed).2 = -1
            ∧ (setup_interfaces env c st startid num_ports src false seed).1.response_list.get
                src
              = st.response_list.get src
                ++ List.zipWith (fun q i => expected_response src false
                      (st.master_time.get src).retry_delay q ((seed + i) % 2 ^ 64))
                    (pre.filter (fun q => port_eligible env c src q && c.malloc_response q))
                    (List.range' 1 (pre.filter
                      (fun q => port_eligible env c src q && c.malloc_response q)).length)
            ∧ (setup_interfaces env c st startid num_ports src false seed).1.calls
              = st.calls
                ++ List.zipWith (fun q i =>
                      ext_call.new_port_request src ((seed + i) % 2 ^ 64) q)
                    (pre.filter (fun q => port_eligible env c src q && c.malloc_response q))
                    (List.range' 1 (pre.filter
                      (fun q => port_eligible env c src q && c.malloc_response q)).length))
      ∧ master_state_get (master_loop_setup env c st src) src
          = (if (setup_interfaces env c
                  (record st [ext_call.conf_query src, ext_call.controller_init src])
                  0 c.nb_ports src false c.random).2 < 0
             then MASTER_RESET else MASTER_RESYNC_NEEDED) := by
  obtain ⟨h1, h2, -, -, -, -, -, h8⟩ :=
    setup_loop_spec env c src false seed (List.range' startid num_ports) 0 st
  rw [← setup_interfaces_valid env c st startid num_ports src false seed hs hn hvalid]
    at h1 h2 h8
  refine ⟨?_, ?_, ?_⟩
  · intro hreq
    have hreg := setup_registered_all env c src false (List.range' startid num_ports)
      (fun p hp => Or.inr (hreq p hp))
    rw [hreg] at h1 h2
    exact ⟨by simpa using h1, h2⟩
  · intro pre post p hsplit hpre hp hfail
    have hreg := setup_registered_first_failure env c src pre post p hpre hp hfail
    rw [hsplit, hreg] at h1 h2
    have h8a := h8 rfl
    rw [hsplit, hreg] at h8a
    exact ⟨by simpa using h1, h2, h8a⟩
  · show master_state_get
        (if (setup_interfaces env c
              (record st [ext_call.conf_query src, ext_call.controller_init src])
              0 c.nb_ports src false c.random).2 < 0
          then reset_dataplane env (setup_interfaces env c
              (record st [ext_call.conf_query src, ext_call.controller_init src])
              0 c.nb_ports src false c.random).1 src true
          else master_state_set env (setup_interfaces env c
              (record st [ext_call.conf_query src, ext_call.controller_init src])
              0 c.nb_ports src false c.random).1 src MASTER_RESYNC_NEEDED) src = _
    split
    · exact reset_dataplane_true_state env _ src
    · exact set_master_state_get_self env _ src MASTER_RESYNC_NEEDED

theorem C18_setup_failures_witness :
    (setup_interfaces env_remote collab_request_fail
        (st_remote MASTER_SETUP MASTER_READY (RETRY_MIN_TICKS env_remote) [] [])
        0 4 CONT_SRC_MAIN false 1000).2 = -1
      ∧ (setup_interfaces env_remote collab_request_fail
          (st_remote MASTER_SETUP MASTER_READY (RETRY_MIN_TICKS env_remote) [] [])
          0 4 CONT_SRC_MAIN false 1000).1.calls
        = (st_remote MASTER_SETUP MASTER_READY (RETRY_MIN_TICKS env_remote) [] []).calls
          ++ [ext_call.new_port_request CONT_SRC_MAIN 1001 1] :=
  ⟨((C18_setup_failures env_remote collab_request_fail
      (st_remote MASTER_SETUP MASTER_READY (RETRY_MIN_TICKS env_remote) [] [])
      0 4 CONT_SRC_MAIN 1000 (by decide) (by decide) (by decide)).2.1
      [0, 1] [3] 2 rfl (by decide) rfl rfl).1,
   ((C18_setup_failures env_remote collab_request_fail
      (st_remote MASTER_SETUP MASTER_READY (RETRY_MIN_TICKS env_remote) [] [])
      0 4 CONT_SRC_MAIN 1000 (by decide) (by decide) (by decide)).2.1
      [0, 1] [3] 2 rfl (by decide) rfl rfl).2.2⟩

/-! ## State changes within one iteration of the main loop: facts -/

theorem store_master_state_stats (env : Env) (st : State) (cont_src : cont_src_en)
    (new_state : master_state_en) :
    (master_state_set_store env st cont_src new_state).master_state_stats
      = st.master_state_stats.set cont_src
          (stats_bump (st.master_state_stats.get cont_src) new_state) := by
  unfold master_state_set_store
  by_cases h : env.is_local_controller = false ∧ cont_src = CONT_SRC_MAIN
  · cases new_state <;>
      simp [h, master_state_info, master_cleanup, cleanup_resync, cleanup_responses,
        set_retry_delay] <;> rfl
  · simp [h, master_state_info]
    rfl

/-- Entry counters of the source after `master_state_set`: untouched when the
state is already the requested one, else the counter of the new state goes up
by one. -/
theorem set_master_state_stats (env : Env) (st : State) (cont_src : cont_src_en)
    (new_state : master_state_en) :
    (master_state_set env st cont_src new_state).master_state_stats.get cont_src
      = if st.master_state.get cont_src = new_state then st.master_state_stats.get cont_src
        else stats_bump (st.master_state_stats.get cont_src) new_state := by
  rw [master_state_set_unfold]
  by_cases h : st.master_state.get cont_src = new_state
  · rw [if_pos h, if_pos h]
  · rw [if_neg h, if_neg h, store_master_state_stats, per_src_get_set_same]
    split
    · split
      · rfl
      · rename_i hu _
        rw [store_master_state_stats, hu.1]
        rfl
    · rfl

theorem reset_dataplane_true_master_state (env : Env) (st : State) (cont_src : cont_src_en) :
    (reset_dataplane env st cont_src true).master_state
      = (master_state_set env st cont_src MASTER_RESET).master_state := rfl

theorem reset_dataplane_true_stats (env : Env) (st : State) (cont_src : cont_src_en) :
    (reset_dataplane env st cont_src true).master_state_stats
      = (master_state_set env st cont_src MASTER_RESET).master_state_stats := rfl

/-- Only the state and the entry counters of the source matter. -/
theorem at_most_one_transition_congr {a a1 b b1 : State} (cont_src : cont_src_en)
    (h1 : a1.master_state = a.master_state)
    (h2 : a1.master_state_stats = a.master_state_stats)
    (h3 : b1.master_state = b.master_state)
    (h4 : b1.master_state_stats = b.master_state_stats)
    (h : at_most_one_transition a b cont_src) : at_most_one_transition a1 b1 cont_src := by
  unfold at_most_one_transition at h ⊢
  rw [h1, h2, h3, h4]
  exact h

theorem at_most_one_transition_refl (st : State) (cont_src : cont_src_en) :
    at_most_one_transition st st cont_src := Or.inl ⟨rfl, rfl⟩

theorem at_most_one_transition_set (env : Env) (st : State) (cont_src : cont_src_en)
    (new_state : master_state_en) :
    at_most_one_transition st (master_state_set env st cont_src new_state) cont_src := by
  unfold at_most_one_transition
  rw [set_master_state_self, set_master_state_stats]
  by_cases h : st.master_state.get cont_src = new_state
  · exact Or.inl ⟨h.symm, by rw [if_pos h]⟩
  · exact Or.inr ⟨fun e => h e.symm, by rw [if_neg h]⟩

theorem at_most_one_transition_reset (env : Env) (st : State) (cont_src : cont_src_en) :
    at_most_one_transition st (reset_dataplane env st cont_src true) cont_src :=
  at_most_one_transition_congr cont_src rfl rfl
    (reset_dataplane_true_master_state env st cont_src)
    (reset_dataplane_true_stats env st cont_src)
    (at_most_one_transition_set env st cont_src MASTER_RESET)

theorem setup_interfaces_master_state (env : Env) (c : Collab) (st : State)
    (startid num_ports : Nat) (cont_src : cont_src_en) (td : Bool) (seed : Nat) :
    (setup_interfaces env c st startid num_ports cont_src td seed).1.master_state
        = st.master_state
      ∧ (setup_interfaces env c st startid num_ports cont_src td seed).1.master_state_stats
        = st.master_state_stats := by
  unfold setup_interfaces
  split
  · exact ⟨rfl, rfl⟩
  · obtain ⟨-, -, h3, h4, -⟩ :=
      setup_loop_spec env c cont_src td seed
        (List.range' (startid % 256) (num_ports % 256)) 0 st
    rw [Nat.add_zero] at h3 h4
    exact ⟨h3, h4⟩

theorem master_loop_idle_transition (env : Env) (st : State) (cont_src : cont_src_en) :
    at_most_one_transition st (master_loop_idle env st cont_src) cont_src := by
  unfold master_loop_idle
  by_cases h1 : env.is_local_controller = true ∨ cont_src = CONT_SRC_UPLINK
  · by_cases h2 : cont_src = CONT_SRC_MAIN
        ∧ master_state_get (master_state_set env st cont_src MASTER_SOCKET_CREATE)
            CONT_SRC_UPLINK = MASTER_READY
        ∧ (master_state_set env st cont_src MASTER_SOCKET_CREATE).control_addr = true
    · simp only [if_pos h1, if_pos h2]
      obtain ⟨h3, -, -⟩ := h2
      subst h3
      have hsame : master_state_set env
          (master_state_set env st CONT_SRC_MAIN MASTER_SOCKET_CREATE) CONT_SRC_MAIN
          MASTER_SOCKET_CREATE = master_state_set env st CONT_SRC_MAIN MASTER_SOCKET_CREATE := by
        rw [master_state_set_unfold env (master_state_set env st CONT_SRC_MAIN
          MASTER_SOCKET_CREATE), if_pos (set_master_state_self env st CONT_SRC_MAIN
          MASTER_SOCKET_CREATE)]
      rw [hsame]
      exact at_most_one_transition_set env st CONT_SRC_MAIN MASTER_SOCKET_CREATE
    · simp only [if_pos h1, if_neg h2]
      exact at_most_one_transition_set env st cont_src MASTER_SOCKET_CREATE
  · by_cases h2 : cont_src = CONT_SRC_MAIN
        ∧ master_state_get st CONT_SRC_UPLINK = MASTER_READY ∧ st.control_addr = true
    · simp only [if_neg h1, if_pos h2]
      obtain ⟨h3, -, -⟩ := h2
      subst h3
      exact at_most_one_transition_set env st CONT_SRC_MAIN MASTER_SOCKET_CREATE
    · simp only [if_neg h1, if_neg h2]
      exact at_most_one_transition_refl st cont_src

theorem master_loop_socket_create_transition (env : Env) (c : Collab) (st : State)
    (cont_src : cont_src_en) :
    at_most_one_transition st (master_loop_socket_create env c st cont_src) cont_src := by
  show at_most_one_transition st
    (if c.console_bind cont_src = 0 then
      master_state_set env (record st [ext_call.console_bind cont_src]) cont_src MASTER_CONNECT
     else record st [ext_call.console_bind cont_src]) cont_src
  split
  · exact at_most_one_transition_congr cont_src rfl rfl rfl rfl
      (at_most_one_transition_set env (record st [ext_call.console_bind cont_src]) cont_src
        MASTER_CONNECT)
  · exact Or.inl ⟨rfl, rfl⟩

theorem master_loop_connect_wait_transition (env : Env) (c : Collab) (st : State)
    (cont_src : cont_src_en) :
    at_most_one_transition st (master_loop_connect_wait env c st cont_src) cont_src := by
  show at_most_one_transition st
    (if c.try_controller_response cont_src < 0 then
      (if c.try_controller_response cont_src ≠ -EAGAIN then
        reset_dataplane env (record st [ext_call.try_controller_response cont_src]) cont_src
          true
       else record st [ext_call.try_controller_response cont_src])
     else master_state_set env (record st [ext_call.try_controller_response cont_src])
       cont_src MASTER_SETUP) cont_src
  split
  · split
    · exact at_most_one_transition_congr cont_src rfl rfl rfl rfl
        (at_most_one_transition_reset env
          (record st [ext_call.try_controller_response cont_src]) cont_src)
    · exact Or.inl ⟨rfl, rfl⟩
  · exact at_most_one_transition_congr cont_src rfl rfl rfl rfl
      (at_most_one_transition_set env
        (record st [ext_call.try_controller_response cont_src]) cont_src MASTER_SETUP)

theorem master_loop_setup_transition (env : Env) (c : Collab) (st : State)
    (cont_src : cont_src_en) :
    at_most_one_transition st (master_loop_setup env c st cont_src) cont_src := by
  obtain ⟨h1, h2⟩ := setup_interfaces_master_state env c
    (record st [ext_call.conf_query cont_src, ext_call.controller_init cont_src])
    0 c.nb_ports cont_src false c.random
  show at_most_one_transition st
    (if (setup_interfaces env c
          (record st [ext_call.conf_query cont_src, ext_call.controller_init cont_src])
          0 c.nb_ports cont_src false c.random).2 < 0
     then reset_dataplane env (setup_interfaces env c
          (record st [ext_call.conf_query cont_src, ext_call.controller_init cont_src])
          0 c.nb_ports cont_src false c.random).1 cont_src true
     else master_state_set env (setup_interfaces env c
          (record st [ext_call.conf_query cont_src, ext_call.controller_init cont_src])
          0 c.nb_ports cont_src false c.random).1 cont_src MASTER_RESYNC_NEEDED) cont_src
  split
  · exact at_most_one_transition_congr cont_src h1.symm h2.symm rfl rfl
      (at_most_one_transition_reset env _ cont_src)
  · exact at_most_one_transition_congr cont_src h1.symm h2.symm rfl rfl
      (at_most_one_transition_set env _ cont_src MASTER_RESYNC_NEEDED)

theorem master_loop_resync_needed_transition (env : Env) (c : Collab) (st : State)
    (cont_src : cont_src_en) :
    at_most_one_transition st (master_loop_resync_needed env c st cont_src) cont_src := by
  show at_most_one_transition st
    (if c.controller_snapshot cont_src < 0 then
      reset_dataplane env (record st
        [ext_call.dp_unregister_event_socket cont_src,
         ext_call.register_event_socket_src cont_src,
         ext_call.controller_snapshot cont_src]) cont_src true
     else arm_snapshot_timer (master_state_set env (record st
        [ext_call.dp_unregister_event_socket cont_src,
         ext_call.register_event_socket_src cont_src,
         ext_call.controller_snapshot cont_src]) cont_src MASTER_RESYNC) cont_src) cont_src
  split
  · exact at_most_one_transition_congr cont_src rfl rfl rfl rfl
      (at_most_one_transition_reset env _ cont_src)
  · exact at_most_one_transition_congr cont_src rfl rfl rfl rfl
      (at_most_one_transition_set env _ cont_src MASTER_RESYNC)

/-- The Connect case written by outcome of its three collaborators. -/
theorem master_loop_connect_eq (env : Env) (c : Collab) (st : State) (cont_src : cont_src_en) :
    master_loop_connect env c st cont_src
      = if check_uplink_route env c cont_src = false then st
        else if c.init_controller_connection cont_src < 0 then
          (if c.init_route_broker_ctrl_connection cont_src < 0 then
            reset_dataplane env
              (record (reset_dataplane env
                  (record st [ext_call.init_controller_connection cont_src]) cont_src true)
                [ext_call.init_route_broker_ctrl_connection cont_src]) cont_src true
           else
            record (reset_dataplane env
                (record st [ext_call.init_controller_connection cont_src]) cont_src true)
              [ext_call.init_route_broker_ctrl_connection cont_src])
        else
          (if c.init_route_broker_ctrl_connection cont_src < 0 then
            reset_dataplane env
              (record (arm_connect_timer (master_state_set env
                  (record st [ext_call.init_controller_connection cont_src]) cont_src
                  MASTER_CONNECT_WAIT) cont_src (st.master_time.get cont_src).connect_timeout)
                [ext_call.init_route_broker_ctrl_connection cont_src]) cont_src true
           else
            record (arm_connect_timer (master_state_set env
                (record st [ext_call.init_controller_connection cont_src]) cont_src
                MASTER_CONNECT_WAIT) cont_src (st.master_time.get cont_src).connect_timeout)
              [ext_call.init_route_broker_ctrl_connection cont_src]) := by
  unfold master_loop_connect
  by_cases h1 : check_uplink_route env c cont_src = false
  · rw [if_pos h1, if_pos h1]
  · rw [if_neg h1, if_neg h1]
    by_cases h2 : c.init_controller_connection cont_src < 0
    · by_cases h3 : c.init_route_broker_ctrl_connection cont_src < 0
      · simp only [if_pos h2, if_pos h3]
      · simp only [if_pos h2, if_neg h3]
    · by_cases h3 : c.init_route_broker_ctrl_connection cont_src < 0
      · simp only [if_neg h2, if_pos h3]
        rfl
      · simp only [if_neg h2, if_neg h3]
        rfl

/-- A reset of a source already in Reset changes neither its state nor its
entry counters. -/
theorem reset_dataplane_true_of_reset (env : Env) (st : State) (cont_src : cont_src_en)
    (h : st.master_state.get cont_src = MASTER_RESET) :
    (reset_dataplane env st cont_src true).master_state = st.master_state
      ∧ (reset_dataplane env st cont_src true).master_state_stats = st.master_state_stats := by
  rw [reset_dataplane_true_master_state, reset_dataplane_true_stats, master_state_set_unfold,
    if_pos h]
  exact ⟨rfl, rfl⟩

/-- The Connect case when the controller connection is set up and the route
broker connection fails: the source enters ConnectWait and then Reset. -/
theorem master_loop_connect_two_steps (env : Env) (c : Collab) (st : State)
    (cont_src : cont_src_en) (hs : st.master_state.get cont_src = MASTER_CONNECT)
    (hroute : check_uplink_route env c cont_src = true)
    (hconn : 0 ≤ c.init_controller_connection cont_src)
    (hbroker : c.init_route_broker_ctrl_connection cont_src < 0) :
    (master_loop_connect env c st cont_src).master_state.get cont_src = MASTER_RESET
      ∧ (master_loop_connect env c st cont_src).master_state_stats.get cont_src
        = stats_bump (stats_bump (st.master_state_stats.get cont_src) MASTER_CONNECT_WAIT)
            MASTER_RESET := by
  rw [master_loop_connect_eq, if_neg (by simp [hroute]), if_neg (not_lt.mpr hconn),
    if_pos hbroker]
  refine ⟨reset_dataplane_true_state env _ cont_src, ?_⟩
  rw [reset_dataplane_true_stats, set_master_state_stats]
  have hcw : (record (arm_connect_timer (master_state_set env
      (record st [ext_call.init_controller_connection cont_src]) cont_src
      MASTER_CONNECT_WAIT) cont_src (st.master_time.get cont_src).connect_timeout)
      [ext_call.init_route_broker_ctrl_connection cont_src]).master_state.get cont_src
      = MASTER_CONNECT_WAIT :=
    set_master_state_self env _ cont_src MASTER_CONNECT_WAIT
  rw [hcw, if_neg (by decide)]
  have hst : (record (arm_connect_timer (master_state_set env
      (record st [ext_call.init_controller_connection cont_src]) cont_src
      MASTER_CONNECT_WAIT) cont_src (st.master_time.get cont_src).connect_timeout)
      [ext_call.init_route_broker_ctrl_connection cont_src]).master_state_stats.get cont_src
      = stats_bump (st.master_state_stats.get cont_src) MASTER_CONNECT_WAIT := by
    have h := set_master_state_stats env
      (record st [ext_call.init_controller_connection cont_src]) cont_src MASTER_CONNECT_WAIT
    have hs1 : (record st [ext_call.init_controller_connection cont_src]).master_state.get
        cont_src = MASTER_CONNECT := hs
    rw [hs1, if_neg (by decide)] at h
    exact h
  rw [hst]

/-- The Connect case in every other outcome: at most one state change. -/
theorem master_loop_connect_transition (env : Env) (c : Collab) (st : State)
    (cont_src : cont_src_en)
    (h : ¬ (check_uplink_route env c cont_src = true
        ∧ 0 ≤ c.init_controller_connection cont_src
        ∧ c.init_route_broker_ctrl_connection cont_src < 0)) :
    at_most_one_transition st (master_loop_connect env c st cont_src) cont_src := by
  rw [master_loop_connect_eq]
  by_cases h1 : check_uplink_route env c cont_src = false
  · rw [if_pos h1]
    exact at_most_one_transition_refl st cont_src
  · rw [if_neg h1]
    have hroute : check_uplink_route env c cont_src = true := by simpa using h1
    by_cases h2 : c.init_controller_connection cont_src < 0
    · rw [if_pos h2]
      have hr := reset_dataplane_true_state env
        (record st [ext_call.init_controller_connection cont_src]) cont_src
      have hone := at_most_one_transition_reset env
        (record st [ext_call.init_controller_connection cont_src]) cont_src
      split
      · obtain ⟨e1, e2⟩ := reset_dataplane_true_of_reset env
          (record (reset_dataplane env
            (record st [ext_call.init_controller_connection cont_src]) cont_src true)
            [ext_call.init_route_broker_ctrl_connection cont_src]) cont_src hr
        exact at_most_one_transition_congr cont_src rfl rfl e1 e2 hone
      · exact at_most_one_transition_congr cont_src rfl rfl rfl rfl hone
    · rw [if_neg h2]
      have h3 : ¬ c.init_route_broker_ctrl_connection cont_src < 0 :=
        fun h3 => h ⟨hroute, not_lt.mp h2, h3⟩
      rw [if_neg h3]
      exact at_most_one_transition_congr cont_src rfl rfl rfl rfl
        (at_most_one_transition_set env
          (record st [ext_call.init_controller_connection cont_src]) cont_src
          MASTER_CONNECT_WAIT)

/-! ## Claims on one iteration of the main loop -/

/-- C19, counterexample: the main source is in Connect, the route to the
controller is known, the controller connection is set up and the connection
to the route broker fails.  One iteration enters ConnectWait and then Reset:
the entry counters of both states go up and the source ends in Reset, which
is not a single state change. -/
theorem C19_connect_two_transitions :
    master_state_get (st_remote MASTER_CONNECT MASTER_READY (RETRY_MIN_TICKS env_remote) [] [])
        CONT_SRC_MAIN = MASTER_CONNECT
      ∧ master_state_get
          (master_loop_switch env_remote collab_broker_fail id
            (st_remote MASTER_CONNECT MASTER_READY (RETRY_MIN_TICKS env_remote) [] [])
            CONT_SRC_MAIN) CONT_SRC_MAIN = MASTER_RESET
      ∧ (master_loop_switch env_remote collab_broker_fail id
            (st_remote MASTER_CONNECT MASTER_READY (RETRY_MIN_TICKS env_remote) [] [])
            CONT_SRC_MAIN).master_state_stats.get CONT_SRC_MAIN MASTER_CONNECT_WAIT
          = (st_remote MASTER_CONNECT MASTER_READY (RETRY_MIN_TICKS env_remote) []
              []).master_state_stats.get CONT_SRC_MAIN MASTER_CONNECT_WAIT + 1
      ∧ (master_loop_switch env_remote collab_broker_fail id
            (st_remote MASTER_CONNECT MASTER_READY (RETRY_MIN_TICKS env_remote) [] [])
            CONT_SRC_MAIN).master_state_stats.get CONT_SRC_MAIN MASTER_RESET
          = (st_remote MASTER_CONNECT MASTER_READY (RETRY_MIN_TICKS env_remote) []
              []).master_state_stats.get CONT_SRC_MAIN MASTER_RESET + 1
      ∧ ¬ at_most_one_transition
          (st_remote MASTER_CONNECT MASTER_READY (RETRY_MIN_TICKS env_remote) [] [])
          (master_loop_switch env_remote collab_broker_fail id
            (st_remote MASTER_CONNECT MASTER_READY (RETRY_MIN_TICKS env_remote) [] [])
            CONT_SRC_MAIN) CONT_SRC_MAIN := by
  refine ⟨rfl, rfl, rfl, rfl, ?_⟩
  rintro (⟨h, -⟩ | ⟨-, h⟩)
  · exact absurd h (by decide)
  · have h1 := congrFun h MASTER_CONNECT_WAIT
    exact absurd h1 (by decide)

/-- C19, amended: from Idle, SocketCreate, ConnectWait, Setup and ResyncNeeded
one iteration of the switch makes at most one state change of the serviced
source, whatever the collaborators return.  From Connect it makes at most one
state change except when the route is known, the controller connection is
set up and the route broker connection fails: then it makes two, entering
ConnectWait and then Reset. -/
theorem C19_transitions_per_iteration (env : Env) (c : Collab) (next_event : State → State)
    (st : State) (src : cont_src_en) :
    ((master_state_get st src = MASTER_IDLE ∨ master_state_get st src = MASTER_SOCKET_CREATE
        ∨ master_state_get st src = MASTER_CONNECT_WAIT
        ∨ master_state_get st src = MASTER_SETUP
        ∨ master_state_get st src = MASTER_RESYNC_NEEDED) →
      at_most_one_transition st (master_loop_switch env c next_event st src) src)
    ∧ (master_state_get st src = MASTER_CONNECT →
        (¬ (check_uplink_route env c src = true ∧ 0 ≤ c.init_controller_connection src
            ∧ c.init_route_broker_ctrl_connection src < 0) →
          at_most_one_transition st (master_loop_switch env c next_event st src) src)
        ∧ (check_uplink_route env c src = true ∧ 0 ≤ c.init_controller_connection src
            ∧ c.init_route_broker_ctrl_connection src < 0 →
          (master_loop_switch env c next_event st src).master_state.get src = MASTER_RESET
            ∧ (master_loop_switch env c next_event st src).master_state_stats.get src
              = stats_bump (stats_bump (st.master_state_stats.get src) MASTER_CONNECT_WAIT)
                  MASTER_RESET)) := by
  constructor
  · rintro (h | h | h | h | h)
    · simp only [master_loop_switch, h]
      exact master_loop_idle_transition env st src
    · simp only [master_loop_switch, h]
      exact master_loop_socket_create_transition env c st src
    · simp only [master_loop_switch, h]
      exact master_loop_connect_wait_transition env c st src
    · simp only [master_loop_switch, h]
      exact master_loop_setup_transition env c st src
    · simp only [master_loop_switch, h]
      exact master_loop_resync_needed_transition env c st src
  · intro h
    simp only [master_loop_switch, h]
    exact ⟨master_loop_connect_transition env c st src,
      fun hc => master_loop_connect_two_steps env c st src h hc.1 hc.2.1 hc.2.2⟩

theorem C19_transitions_per_iteration_witness :
    at_most_one_transition
        (st_remote MASTER_SETUP MASTER_READY (RETRY_MIN_TICKS env_remote) [] [])
        (master_loop_switch env_remote collab_ok id
          (st_remote MASTER_SETUP MASTER_READY (RETRY_MIN_TICKS env_remote) [] [])
          CONT_SRC_MAIN) CONT_SRC_MAIN
      ∧ at_most_one_transition
          (st_remote MASTER_CONNECT MASTER_READY (RETRY_MIN_TICKS env_remote) [] [])
          (master_loop_switch env_remote collab_ok id
            (st_remote MASTER_CONNECT MASTER_READY (RETRY_MIN_TICKS env_remote) [] [])
            CONT_SRC_MAIN) CONT_SRC_MAIN
      ∧ (master_loop_switch env_remote collab_broker_fail id
          (st_remote MASTER_CONNECT MASTER_READY (RETRY_MIN_TICKS env_remote) [] [])
          CONT_SRC_MAIN).master_state.get CONT_SRC_MAIN = MASTER_RESET :=
  ⟨(C19_transitions_per_iteration env_remote collab_ok id
      (st_remote MASTER_SETUP MASTER_READY (RETRY_MIN_TICKS env_remote) [] [])
      CONT_SRC_MAIN).1 (Or.inr (Or.inr (Or.inr (Or.inl rfl)))),
   ((C19_transitions_per_iteration env_remote collab_ok id
      (st_remote MASTER_CONNECT MASTER_READY (RETRY_MIN_TICKS env_remote) [] [])
      CONT_SRC_MAIN).2 rfl).1 (by decide),
   (((C19_transitions_per_iteration env_remote collab_broker_fail id
      (st_remote MASTER_CONNECT MASTER_READY (RETRY_MIN_TICKS env_remote) [] [])
      CONT_SRC_MAIN).2 rfl).2 (by decide)).1⟩

/-- C20: when the console socket does not bind in SocketCreate, when the route
to the controller is not reachable in Connect, or when the handshake poll
returns -EAGAIN in ConnectWait, one iteration of the switch leaves the states
of both sources, the timing records (retry delay and timers), the lists of
expected responses and the resync lists as they were, and the only call it
makes is the poll itself: no reset.  Any other negative result of the
handshake poll in ConnectWait is followed by `reset_dataplane(cont_src, true)`:
the source is in Reset and its reset timer is armed with the retry delay. -/
theorem C20_guards_not_yet_true (env : Env) (c : Collab) (next_event : State → State)
    (st : State) (src : cont_src_en) :
    (master_state_get st src = MASTER_SOCKET_CREATE → c.console_bind src ≠ 0 →
        (master_loop_switch env c next_event st src).master_state = st.master_state
          ∧ (master_loop_switch env c next_event st src).master_time = st.master_time
          ∧ (master_loop_switch env c next_event st src).response_list = st.response_list
          ∧ (master_loop_switch env c next_event st src).resync_list = st.resync_list
          ∧ (master_loop_switch env c next_event st src).calls
            = st.calls ++ [ext_call.console_bind src])
      ∧ (master_state_get st src = MASTER_CONNECT → check_uplink_route env c src = false →
          master_loop_switch env c next_event st src = st)
      ∧ (master_state_get st src = MASTER_CONNECT_WAIT →
          c.try_controller_response src = -EAGAIN →
          (master_loop_switch env c next_event st src).master_state = st.master_state
            ∧ (master_loop_switch env c next_event st src).master_time = st.master_time
            ∧ (master_loop_switch env c next_event st src).response_list = st.response_list
            ∧ (master_loop_switch env c next_event st src).resync_list = st.resync_list
            ∧ (master_loop_switch env c next_event st src).calls
              = st.calls ++ [ext_call.try_controller_response src])
      ∧ (master_state_get st src = MASTER_CONNECT_WAIT →
          c.try_controller_response src < 0 → c.try_controller_response src ≠ -EAGAIN →
          master_loop_switch env c next_event st src
              = reset_dataplane env (record st [ext_call.try_controller_response src]) src true
            ∧ master_state_get (master_loop_switch env c next_event st src) src = MASTER_RESET
            ∧ ((master_loop_switch env c next_event st src).master_time.get src).reset_timer
              = { pending := true, ticks := (st.master_time.get src).retry_delay,
                  f := some (timer_fn.reset_timer_event src) }) := by
  refine ⟨?_, ?_, ?_, ?_⟩
  · intro hs hbind
    have h : master_loop_switch env c next_event st src
        = record st [ext_call.console_bind src] := by
      simp only [master_loop_switch, hs, master_loop_socket_create, if_neg hbind]
    rw [h]
    exact ⟨rfl, rfl, rfl, rfl, rfl⟩
  · intro hs hroute
    simp only [master_loop_switch, hs, master_loop_connect, hroute, if_true]
  · intro hs hrc
    have hneg : c.try_controller_response src < 0 := by
      rw [hrc]
      decide
    have h : master_loop_switch env c next_event st src
        = record st [ext_call.try_controller_response src] := by
      simp only [master_loop_switch, hs, master_loop_connect_wait, if_pos hneg]
      rw [if_neg (not_not.mpr hrc)]
    rw [h]
    exact ⟨rfl, rfl, rfl, rfl, rfl⟩
  · intro hs hneg hne
    have h : master_loop_switch env c next_event st src
        = reset_dataplane env (record st [ext_call.try_controller_response src]) src true := by
      simp only [master_loop_switch, hs, master_loop_connect_wait, if_pos hneg]
      rw [if_pos hne]
    rw [h]
    refine ⟨rfl, reset_dataplane_true_state env _ src, ?_⟩
    rw [reset_dataplane_true_reset_timer]
    rfl

theorem C20_guards_not_yet_true_witness :
    (master_loop_switch env_remote collab_bind_fail id (st_main_in MASTER_SOCKET_CREATE)
        CONT_SRC_MAIN).master_state = (st_main_in MASTER_SOCKET_CREATE).master_state
      ∧ master_loop_switch env_remote collab_no_route id (st_main_in MASTER_CONNECT)
          CONT_SRC_MAIN = st_main_in MASTER_CONNECT
      ∧ (master_loop_switch env_remote (collab_handshake (-11)) id
          (st_main_in MASTER_CONNECT_WAIT) CONT_SRC_MAIN).response_list
          = (st_main_in MASTER_CONNECT_WAIT).response_list
      ∧ master_state_get (master_loop_switch env_remote (collab_handshake (-1)) id
          (st_main_in MASTER_CONNECT_WAIT) CONT_SRC_MAIN) CONT_SRC_MAIN = MASTER_RESET :=
  ⟨((C20_guards_not_yet_true env_remote collab_bind_fail id (st_main_in MASTER_SOCKET_CREATE)
      CONT_SRC_MAIN).1 rfl (by decide)).1,
   (C20_guards_not_yet_true env_remote collab_no_route id (st_main_in MASTER_CONNECT)
      CONT_SRC_MAIN).2.1 rfl rfl,
   ((C20_guards_not_yet_true env_remote (collab_handshake (-11)) id
      (st_main_in MASTER_CONNECT_WAIT) CONT_SRC_MAIN).2.2.1 rfl rfl).2.2.1,
   ((C20_guards_not_yet_true env_remote (collab_handshake (-1)) id
      (st_main_in MASTER_CONNECT_WAIT) CONT_SRC_MAIN).2.2.2 rfl (by decide) (by decide)).2.1⟩

/-! ## Timer callbacks and the reset timer: facts -/

theorem reset_timer_stopped_master_state (st : State) (cont_src : cont_src_en) :
    (reset_timer_stopped st cont_src).master_state = st.master_state := rfl

theorem reset_timer_stopped_running (st : State) (cont_src : cont_src_en) :
    (reset_timer_stopped st cont_src).running = st.running := rfl

/-- Expiry of the reset timer armed by `reset_dataplane(cont_src, true)`. -/
theorem reset_timer_fire_after_reset (env : Env) (st : State) (cont_src : cont_src_en) :
    reset_timer_fire env (reset_dataplane env st cont_src true) cont_src
      = reset_timer_event env
          (reset_timer_stopped (reset_dataplane env st cont_src true) cont_src) cont_src :=
  reset_timer_fire_armed env _ cont_src _ (reset_dataplane_true_reset_timer env st cont_src)

theorem stopped_after_reset_retry_delay (env : Env) (st : State) (cont_src : cont_src_en) :
    ((reset_timer_stopped (reset_dataplane env st cont_src true) cont_src).master_time.get
        cont_src).retry_delay = (st.master_time.get cont_src).retry_delay := by
  rw [reset_timer_stopped_retry_delay, reset_dataplane_true_retry_delay]

/-! ## Claims on timers, the latch and malformed messages -/

/-- C21, counterexample: with a remote controller and a 1 GHz timer the
connect timeout of the uplink source fires in ConnectWait.  The source is
reset, and neither the timeout nor the later expiry of the reset timer adds to
its retry delay: the expiry requests shutdown.  For the main source the retry
delay is still the old one right after the timeout. -/
theorem C21_timeout_without_increment :
    master_state_get (st_both MASTER_READY MASTER_CONNECT_WAIT) CONT_SRC_UPLINK
        = MASTER_CONNECT_WAIT
      ∧ ((st_both MASTER_READY MASTER_CONNECT_WAIT).master_time.get
          CONT_SRC_UPLINK).retry_delay = 10000000000
      ∧ RETRY_MIN_TICKS env_remote = 10000000000
      ∧ ((connect_timeout env_remote (st_both MASTER_READY MASTER_CONNECT_WAIT)
          CONT_SRC_UPLINK).master_time.get CONT_SRC_UPLINK).retry_delay = 10000000000
      ∧ ((reset_timer_fire env_remote
          (connect_timeout env_remote (st_both MASTER_READY MASTER_CONNECT_WAIT)
            CONT_SRC_UPLINK) CONT_SRC_UPLINK).master_time.get CONT_SRC_UPLINK).retry_delay
          = 10000000000
      ∧ (reset_timer_fire env_remote
          (connect_timeout env_remote (st_both MASTER_READY MASTER_CONNECT_WAIT)
            CONT_SRC_UPLINK) CONT_SRC_UPLINK).running = false
      ∧ master_state_get (st_both MASTER_CONNECT_WAIT MASTER_READY) CONT_SRC_MAIN
          = MASTER_CONNECT_WAIT
      ∧ ((connect_timeout env_remote (st_both MASTER_CONNECT_WAIT MASTER_READY)
          CONT_SRC_MAIN).master_time.get CONT_SRC_MAIN).retry_delay = 10000000000 :=
  ⟨rfl, rfl, rfl, rfl, rfl, rfl, rfl, rfl⟩

/-- C21, amended: when the connect timeout fires while its source is in
ConnectWait it does `reset_dataplane(cont_src, true)`: the source enters
Reset, the reset timer is armed with the current retry delay, and the retry
delay is unchanged.  The increment comes with the expiry of that reset timer,
and only for the main source with a remote controller and a retry delay of at
most RETRY_MAX_DELAY_TICKS: the delay is then increased by RETRY_MIN_TICKS
(on 64 bits) and the source moves to Idle.  For the uplink source, with a
local controller, or above the ceiling, the expiry requests shutdown and
leaves the retry delay and the Reset state.  When the timeout fires in any
other state, nothing changes. -/
theorem C21_connect_timeout (env : Env) (st : State) (src : cont_src_en) :
    (master_state_get st src = MASTER_CONNECT_WAIT →
        connect_timeout env st src = reset_dataplane env st src true
          ∧ master_state_get (connect_timeout env st src) src = MASTER_RESET
          ∧ ((connect_timeout env st src).master_time.get src).reset_timer
              = { pending := true, ticks := (st.master_time.get src).retry_delay,
                  f := some (timer_fn.reset_timer_event src) }
          ∧ ((connect_timeout env st src).master_time.get src).retry_delay
              = (st.master_time.get src).retry_delay
          ∧ (env.is_local_controller = false → src = CONT_SRC_MAIN →
              (st.master_time.get src).retry_delay ≤ RETRY_MAX_DELAY_TICKS env →
              ((reset_timer_fire env (connect_timeout env st src) src).master_time.get
                  src).retry_delay
                  = ((st.master_time.get src).retry_delay + RETRY_MIN_TICKS env) % 2 ^ 64
                ∧ master_state_get (reset_timer_fire env (connect_timeout env st src) src) src
                  = MASTER_IDLE)
          ∧ ((env.is_local_controller = true ∨ src = CONT_SRC_UPLINK
                ∨ (st.master_time.get src).retry_delay > RETRY_MAX_DELAY_TICKS env) →
              (reset_timer_fire env (connect_timeout env st src) src).running = false
                ∧ ((reset_timer_fire env (connect_timeout env st src) src).master_time.get
                    src).retry_delay = (st.master_time.get src).retry_delay
                ∧ master_state_get (reset_timer_fire env (connect_timeout env st src) src) src
                    = MASTER_RESET))
      ∧ (master_state_get st src ≠ MASTER_CONNECT_WAIT → connect_timeout env st src = st) := by
  constructor
  · intro hs
    have heq : connect_timeout env st src = reset_dataplane env st src true := by
      unfold connect_timeout
      rw [if_pos hs]
    rw [heq]
    refine ⟨rfl, reset_dataplane_true_state env st src,
      reset_dataplane_true_reset_timer env st src,
      reset_dataplane_true_retry_delay env st src, ?_, ?_⟩
    · intro hmode hsrc hd
      subst hsrc
      have hd1 := stopped_after_reset_retry_delay env st CONT_SRC_MAIN
      have hev := reset_timer_event_retry env
        (reset_timer_stopped (reset_dataplane env st CONT_SRC_MAIN true) CONT_SRC_MAIN)
        hmode (by rw [hd1]; exact hd)
      rw [reset_timer_fire_after_reset, hev]
      refine ⟨?_, set_master_state_get_self _ _ _ _⟩
      rw [set_master_time_of_ne_ready _ _ _ _ (by decide), set_retry_delay_get_self, hd1]
    · intro h
      have hd1 := stopped_after_reset_retry_delay env st src
      have hev := reset_timer_event_shutdown env
        (reset_timer_stopped (reset_dataplane env st src true) src) src
        (by
          rcases h with h | h | h
          · exact Or.inl h
          · exact Or.inr (Or.inl h)
          · exact Or.inr (Or.inr (by rw [hd1]; exact h)))
      rw [reset_timer_fire_after_reset, hev]
      exact ⟨rfl, hd1, reset_dataplane_true_state env st src⟩
  · intro hs
    unfold connect_timeout
    rw [if_neg hs]

theorem C21_connect_timeout_witness :
    master_state_get (connect_timeout env_remote (st_both MASTER_CONNECT_WAIT MASTER_READY)
        CONT_SRC_MAIN) CONT_SRC_MAIN = MASTER_RESET
      ∧ ((reset_timer_fire env_remote
          (connect_timeout env_remote (st_both MASTER_CONNECT_WAIT MASTER_READY)
            CONT_SRC_MAIN) CONT_SRC_MAIN).master_time.get CONT_SRC_MAIN).retry_delay
          = (((st_both MASTER_CONNECT_WAIT MASTER_READY).master_time.get
              CONT_SRC_MAIN).retry_delay + RETRY_MIN_TICKS env_remote) % 2 ^ 64
      ∧ connect_timeout env_remote (st_both MASTER_SETUP MASTER_READY) CONT_SRC_MAIN
          = st_both MASTER_SETUP MASTER_READY :=
  ⟨((C21_connect_timeout env_remote (st_both MASTER_CONNECT_WAIT MASTER_READY)
      CONT_SRC_MAIN).1 rfl).2.1,
   (((C21_connect_timeout env_remote (st_both MASTER_CONNECT_WAIT MASTER_READY)
      CONT_SRC_MAIN).1 rfl).2.2.2.2.1 rfl rfl (by decide)).1,
   (C21_connect_timeout env_remote (st_both MASTER_SETUP MASTER_READY)
      CONT_SRC_MAIN).2 (by decide)⟩

/-- C23: `master_state_set(src, s)` called while `src` is already in state `s`
returns at once: the whole state is as before, in particular the session
states of both sources, every entry counter, the timing records, the lists
of expected responses, the resync lists and the record of calls. -/
theorem C23_set_same_state (env : Env) (st : State) (src : cont_src_en) (s : master_state_en)
    (h : master_state_get st src = s) :
    master_state_set env st src s = st
      ∧ (master_state_set env st src s).master_state = st.master_state
      ∧ (master_state_set env st src s).master_state_stats = st.master_state_stats
      ∧ (master_state_set env st src s).master_time = st.master_time
      ∧ (master_state_set env st src s).response_list = st.response_list
      ∧ (master_state_set env st src s).resync_list = st.resync_list
      ∧ (master_state_set env st src s).calls = st.calls := by
  have heq : master_state_set env st src s = st := by
    rw [master_state_set_unfold]
    exact if_pos h
  rw [heq]
  exact ⟨rfl, rfl, rfl, rfl, rfl, rfl, rfl⟩

theorem C23_set_same_state_witness :
    master_state_set env_remote st_main_ready CONT_SRC_MAIN MASTER_READY = st_main_ready
      ∧ master_state_set env_remote (st_main_resync 30000000000) CONT_SRC_UPLINK MASTER_READY
          = st_main_resync 30000000000 :=
  ⟨(C23_set_same_state env_remote st_main_ready CONT_SRC_MAIN MASTER_READY rfl).1,
   (C23_set_same_state env_remote (st_main_resync 30000000000) CONT_SRC_UPLINK MASTER_READY
      rfl).1⟩

/-- C25: the step of the soft clock is `1000 / SOFT_CLOCK_HZ = 10`.  With the
override latch off, `soft_clock_event` adds 10 to `soft_ticks` modulo 2^64
and changes nothing else; with the latch on it changes nothing.
`enable_soft_clock_override` and `disable_soft_clock_override` write the
latch only, and doing either twice is the same as doing it once. -/
theorem C25_soft_clock (st : State) :
    1000 / SOFT_CLOCK_HZ = 10
      ∧ (st.soft_clock_override = 0 →
          soft_clock_event st = { st with soft_ticks := (st.soft_ticks + 10) % 2 ^ 64 })
      ∧ (st.soft_clock_override ≠ 0 → soft_clock_event st = st)
      ∧ enable_soft_clock_override st = { st with soft_clock_override := 1 }
      ∧ disable_soft_clock_override st = { st with soft_clock_override := 0 }
      ∧ enable_soft_clock_override (enable_soft_clock_override st)
          = enable_soft_clock_override st
      ∧ disable_soft_clock_override (disable_soft_clock_override st)
          = disable_soft_clock_override st
      ∧ soft_clock_event (enable_soft_clock_override st) = enable_soft_clock_override st
      ∧ (soft_clock_event (disable_soft_clock_override st)).soft_ticks
          = (st.soft_ticks + 10) % 2 ^ 64 := by
  refine ⟨rfl, ?_, ?_, rfl, rfl, rfl, rfl, rfl, rfl⟩
  · intro h
    unfold soft_clock_event
    rw [if_neg (not_not.mpr h)]
    rfl
  · intro h
    unfold soft_clock_event
    rw [if_pos h]

theorem C25_soft_clock_witness :
    (soft_clock_event st_main_ready).soft_ticks = (st_main_ready.soft_ticks + 10) % 2 ^ 64
      ∧ soft_clock_event (enable_soft_clock_override st_main_ready)
          = enable_soft_clock_override st_main_ready :=
  ⟨congrArg State.soft_ticks ((C25_soft_clock st_main_ready).2.1 rfl),
   (C25_soft_clock (enable_soft_clock_override st_main_ready)).2.2.1 (by decide)⟩

/-- C26: for an inbound message with fewer than two frames, or whose second
frame is not exactly 8 bytes long, `async_response` does
`reset_dataplane(cont_src, true)` and nothing else: the source is in Reset,
its reset timer is armed with the current retry delay, its lists of expected
responses and of stashed messages are as before, and the only calls made are
those of the reset. -/
theorem C26_malformed_message (env : Env) (c : Collab) (st : State) (src : cont_src_en)
    (msg : zmsg_t) (hbad : msg.length < 2 ∨ (msg.getD 1 []).length ≠ 8) :
    async_response env c st src (some msg) = (reset_dataplane env st src true, 0)
      ∧ master_state_get (async_response env c st src (some msg)).1 src = MASTER_RESET
      ∧ ((async_response env c st src (some msg)).1.master_time.get src).reset_timer
          = { pending := true, ticks := (st.master_time.get src).retry_delay,
              f := some (timer_fn.reset_timer_event src) }
      ∧ (async_response env c st src (some msg)).1.response_list.get src
          = st.response_list.get src
      ∧ (async_response env c st src (some msg)).1.resync_list.get src
          = st.resync_list.get src
      ∧ calls_grow is_reset_call st (async_response env c st src (some msg)).1 := by
  have heq : async_response env c st src (some msg) = (reset_dataplane env st src true, 0) := by
    show (async_response_msg env c st src msg, (0 : Int)) = _
    unfold async_response_msg
    by_cases h1 : msg.length < 2
    · rw [if_pos h1]
    · rw [if_neg h1]
      rcases hbad with h | h
      · exact absurd h h1
      · rw [if_pos h]
  rw [heq]
  exact ⟨rfl, reset_dataplane_true_state env st src,
    reset_dataplane_true_reset_timer env st src,
    reset_dataplane_true_response_list env st src,
    reset_dataplane_true_resync_list env st src,
    reset_dataplane_true_calls_grow env st src⟩

theorem C26_malformed_message_witness :
    async_response env_remote collab_ok st_main_awaiting CONT_SRC_MAIN (some [[79, 75]])
        = (reset_dataplane env_remote st_main_awaiting CONT_SRC_MAIN true, 0)
      ∧ (async_response env_remote collab_ok st_main_awaiting CONT_SRC_MAIN
          (some [[79, 75], [233, 3, 0, 0]])).1.response_list.get CONT_SRC_MAIN
          = st_main_awaiting.response_list.get CONT_SRC_MAIN :=
  ⟨(C26_malformed_message env_remote collab_ok st_main_awaiting CONT_SRC_MAIN [[79, 75]]
      (Or.inl (by decide))).1,
   (C26_malformed_message env_remote collab_ok st_main_awaiting CONT_SRC_MAIN
      [[79, 75], [233, 3, 0, 0]] (Or.inr (by decide))).2.2.2.1⟩

/-- C28: for the uplink source, or for any source with a local controller,
`reset_timer_event` sets `running` to false whatever the retry delay and
changes nothing else: session states and timing records are as before, so a
source in Reset stays in Reset.  Run synchronously by
`reset_dataplane(src, false)`, it leaves the source in Reset with the retry
delay RETRY_MIN_TICKS that `reset_dataplane` wrote just before; run by the
expiry of the reset timer armed by `reset_dataplane(src, true)`, it leaves the
source in Reset with its retry delay unchanged. -/
theorem C28_shutdown_event (env : Env) (st : State) (src : cont_src_en)
    (h : env.is_local_controller = true ∨ src = CONT_SRC_UPLINK) :
    reset_timer_event env st src = { st with running := false }
      ∧ (reset_timer_event env st src).running = false
      ∧ (reset_timer_event env st src).master_state = st.master_state
      ∧ (reset_timer_event env st src).master_time = st.master_time
      ∧ (master_state_get st src = MASTER_RESET →
          master_state_get (reset_timer_event env st src) src = MASTER_RESET)
      ∧ reset_dataplane env st src false
          = { set_retry_delay (reset_dataplane_flushed env st src) src (RETRY_MIN_TICKS env)
              with running := false }
      ∧ (reset_dataplane env st src false).running = false
      ∧ master_state_get (reset_dataplane env st src false) src = MASTER_RESET
      ∧ ((reset_dataplane env st src false).master_time.get src).retry_delay
          = RETRY_MIN_TICKS env
      ∧ (reset_timer_fire env (reset_dataplane env st src true) src).running = false
      ∧ master_state_get (reset_timer_fire env (reset_dataplane env st src true) src) src
          = MASTER_RESET
      ∧ ((reset_timer_fire env (reset_dataplane env st src true) src).master_time.get
          src).retry_delay = (st.master_time.get src).retry_delay := by
  have hcond : ∀ s : State, env.is_local_controller = true ∨ src = CONT_SRC_UPLINK
      ∨ (s.master_time.get src).retry_delay > RETRY_MAX_DELAY_TICKS env :=
    fun _ => h.elim Or.inl (fun h2 => Or.inr (Or.inl h2))
  have hev : ∀ s : State, reset_timer_event env s src = { s with running := false } :=
    fun s => reset_timer_event_shutdown env s src (hcond s)
  refine ⟨hev st, ?_, ?_, ?_, ?_, ?_, ?_, ?_, ?_, ?_, ?_, ?_⟩
  · rw [hev st]
  · rw [hev st]
  · rw [hev st]
  · intro hs
    rw [hev st]
    exact hs
  · rw [reset_dataplane_immediate, hev]
  · rw [reset_dataplane_immediate, hev]
  · rw [reset_dataplane_immediate, hev]
    exact flushed_master_state env st src
  · rw [reset_dataplane_immediate, hev]
    exact set_retry_delay_get_self _ _ _
  · rw [reset_timer_fire_after_reset, hev]
  · rw [reset_timer_fire_after_reset, hev]
    exact reset_dataplane_true_state env st src
  · rw [reset_timer_fire_after_reset, hev]
    exact stopped_after_reset_retry_delay env st src

theorem C28_shutdown_event_witness :
    (reset_timer_event env_remote (st_both MASTER_READY MASTER_RESET) CONT_SRC_UPLINK).running
        = false
      ∧ master_state_get (reset_dataplane env_local (st_local MASTER_READY) CONT_SRC_MAIN false)
          CONT_SRC_MAIN = MASTER_RESET :=
  ⟨(C28_shutdown_event env_remote (st_both MASTER_READY MASTER_RESET) CONT_SRC_UPLINK
      (Or.inr rfl)).2.1,
   (C28_shutdown_event env_local (st_local MASTER_READY) CONT_SRC_MAIN
      (Or.inl rfl)).2.2.2.2.2.2.2.1⟩

/-! ## Address notifications -/

/-- Unfolding of `master_control_intf` for a notification it accepts. -/
theorem master_control_intf_accepted (env : Env) (lib : AddrCollab) (st : State)
    (cfg : config_s) (ifp : ifnet) (family : Nat) (addr : List Nat) (add : Bool)
    (ctrladdr : ip_addr)
    (hfam : family = cfg.remote_ip_type)
    (hcc : lib.if_is_control_channel ifp = true)
    (hstore : lib.addr_store family addr = some ctrladdr)
    (hll : ¬ (ctrladdr.type = AF_INET6 ∧ lib.IN6_IS_ADDR_LINKLOCAL ctrladdr.address = true)) :
    master_control_intf env lib st cfg ifp family addr add
      = if add = true then
          (if st.control_addr = true then (st, cfg)
           else if lib.ifa_has_addr ifp family = true then
             ({ (if cfg.console_url_set = false then
                  record st [ext_call.default_endpoint_dataplane] else st)
                with control_addr := true },
              { cfg with local_ip := ctrladdr })
           else (st, cfg))
        else
          (if lib.is_addr_set cfg.local_ip = false then (st, cfg)
           else
             (master_state_set env
                { (if cfg.console_url_set = false then
                    record st [ext_call.free_console_url] else st)
                  with control_addr := false } CONT_SRC_MAIN MASTER_IDLE,
              { cfg with
                local_ip :=
                  { (lib.addr_store cfg.local_ip.type IN6ADDR_ANY_INIT).getD cfg.local_ip
                    with type := 0 } })) := by
  unfold master_control_intf
  rw [if_neg (not_not.mpr hfam), if_neg (by rw [hcc]; decide)]
  simp only [hstore]
  rw [if_neg hll]

/-- C24: an address notification is accepted when it is reported by the
uplink source for a known interface that is a control channel, its family is
that of the controller address, the address can be stored and it is not an
IPv6 link-local address.  For every accepted delete notification received
while `config.local_ip` is set, whatever the deleted address, `control_addr`
becomes false, the family of `config.local_ip` becomes `AF_UNSPEC` and the
main source is in Idle, through `master_state_set(CONT_SRC_MAIN, MASTER_IDLE)`.
An accepted add notification received while `control_addr` is true changes
neither the state nor the configuration. -/
theorem C24_address_notifications (env : Env) (lib : AddrCollab) (st : State) (cfg : config_s)
    (ifp : ifnet) (family : Nat) (addr : List Nat) (ctrladdr : ip_addr)
    (hfam : family % 256 = cfg.remote_ip_type)
    (hcc : lib.if_is_control_channel ifp = true)
    (hstore : lib.addr_store (family % 256) addr = some ctrladdr)
    (hll : ¬ (ctrladdr.type = AF_INET6 ∧ lib.IN6_IS_ADDR_LINKLOCAL ctrladdr.address = true)) :
    (lib.is_addr_set cfg.local_ip = true →
        (master_addr_sig_del env lib st cfg CONT_SRC_UPLINK (some ifp) family addr).1.control_addr
            = false
          ∧ (master_addr_sig_del env lib st cfg CONT_SRC_UPLINK (some ifp) family
              addr).2.local_ip.type = AF_UNSPEC
          ∧ master_state_get
              (master_addr_sig_del env lib st cfg CONT_SRC_UPLINK (some ifp) family addr).1
              CONT_SRC_MAIN = MASTER_IDLE
          ∧ (master_addr_sig_del env lib st cfg CONT_SRC_UPLINK (some ifp) family addr).1
            = master_state_set env
                { (if cfg.console_url_set = false then
                    record st [ext_call.free_console_url] else st)
                  with control_addr := false } CONT_SRC_MAIN MASTER_IDLE)
      ∧ (st.control_addr = true →
          master_addr_sig_add env lib st cfg CONT_SRC_UPLINK (some ifp) family addr
            = (st, cfg)) := by
  constructor
  · intro hset
    have heq : master_addr_sig_del env lib st cfg CONT_SRC_UPLINK (some ifp) family addr
        = (master_state_set env
            { (if cfg.console_url_set = false then
                record st [ext_call.free_console_url] else st)
              with control_addr := false } CONT_SRC_MAIN MASTER_IDLE,
           { cfg with
             local_ip :=
               { (lib.addr_store cfg.local_ip.type IN6ADDR_ANY_INIT).getD cfg.local_ip
                 with type := 0 } }) := by
      show master_control_intf env lib st cfg ifp (family % 256) addr false = _
      rw [master_control_intf_accepted env lib st cfg ifp (family % 256) addr false ctrladdr
        hfam hcc hstore hll, if_neg (by decide), if_neg (by rw [hset]; decide)]
    rw [heq]
    refine ⟨?_, rfl, set_master_state_get_self _ _ _ _, rfl⟩
    rw [set_control_addr]
  · intro hca
    show master_control_intf env lib st cfg ifp (family % 256) addr true = _
    rw [master_control_intf_accepted env lib st cfg ifp (family % 256) addr true ctrladdr
      hfam hcc hstore hll, if_pos rfl, if_pos hca]

theorem C24_address_notifications_witness :
    (master_addr_sig_del env_remote addr_lib st_main_ready cfg_v4 CONT_SRC_UPLINK
        (some ifp_uplink) 2 [192, 168, 0, 9]).1.control_addr = false
      ∧ master_state_get
          (master_addr_sig_del env_remote addr_lib st_main_ready cfg_v4 CONT_SRC_UPLINK
            (some ifp_uplink) 2 [192, 168, 0, 9]).1 CONT_SRC_MAIN = MASTER_IDLE
      ∧ master_addr_sig_add env_remote addr_lib st_main_ready cfg_v4 CONT_SRC_UPLINK
          (some ifp_uplink) 2 [192, 168, 0, 9] = (st_main_ready, cfg_v4) :=
  ⟨((C24_address_notifications env_remote addr_lib st_main_ready cfg_v4 ifp_uplink 2
      [192, 168, 0, 9] { type := 2, address := [192, 168, 0, 9] } rfl rfl rfl
      (by decide)).1 rfl).1,
   ((C24_address_notifications env_remote addr_lib st_main_ready cfg_v4 ifp_uplink 2
      [192, 168, 0, 9] { type := 2, address := [192, 168, 0, 9] } rfl rfl rfl
      (by decide)).1 rfl).2.2.1,
   (C24_address_notifications env_remote addr_lib st_main_ready cfg_v4 ifp_uplink 2
      [192, 168, 0, 9] { type := 2, address := [192, 168, 0, 9] } rfl rfl rfl
      (by decide)).2 rfl⟩

/-! ## The retry delays of reachable states: facts -/

/-- A property kept by the writes of a retry delay is kept by everything that
leaves the retry delays as they are. -/
theorem kept_congr (env : Env) {I : State → Prop} (hI : delay_property env I)
    {st st1 : State}
    (h : ∀ s : cont_src_en,
      (st1.master_time.get s).retry_delay = (st.master_time.get s).retry_delay)
    (hinv : I st) : I st1 :=
  hI.of_delays st st1 h hinv

theorem kept_of_master_time (env : Env) {I : State → Prop} (hI : delay_property env I)
    {st st1 : State} (h : st1.master_time = st.master_time) (hinv : I st) : I st1 :=
  kept_congr env hI (fun s => by rw [h]) hinv

theorem kept_same (env : Env) {I : State → Prop} (hI : delay_property env I)
    {st : State} (hinv : I st) {st1 : State} (h : st1.master_time = st.master_time) : I st1 :=
  kept_of_master_time env hI h hinv

theorem kept_record (env : Env) {I : State → Prop}
    (hI : delay_property env I) (st : State) (cs : List ext_call)
    (hinv : I st) : I (record st cs) :=
  kept_same env hI hinv rfl

theorem kept_with_resync_list (env : Env) {I : State → Prop}
    (hI : delay_property env I) (st : State) (cont_src : cont_src_en)
    (q : List zmsg_t) (hinv : I st) :
    I (with_resync_list st cont_src q) :=
  kept_same env hI hinv rfl

theorem kept_set (env : Env) {I : State → Prop}
    (hI : delay_property env I) (st : State) (cont_src : cont_src_en)
    (new_state : master_state_en) (hinv : I st) :
    I (master_state_set env st cont_src new_state) := by
  by_cases hc : env.is_local_controller = false ∧ cont_src = CONT_SRC_MAIN
      ∧ new_state = MASTER_READY ∧ st.master_state.get CONT_SRC_MAIN ≠ MASTER_READY
  · have hmt : (master_state_set env st cont_src new_state).master_time
        = (set_retry_delay st CONT_SRC_MAIN (RETRY_MIN_TICKS env)).master_time := by
      rw [set_master_time, if_pos hc]
      rfl
    exact kept_of_master_time env hI hmt
      (hI.write_min st CONT_SRC_MAIN hinv)
  · have hmt : (master_state_set env st cont_src new_state).master_time = st.master_time := by
      rw [set_master_time, if_neg hc]
    exact kept_of_master_time env hI hmt hinv

theorem reset_dataplane_true_delays (env : Env) (st : State) (cont_src s : cont_src_en) :
    ((reset_dataplane env st cont_src true).master_time.get s).retry_delay
      = (st.master_time.get s).retry_delay := by
  rw [reset_dataplane_delayed]
  simp only [flushed_master_time]
  cases cont_src <;> cases s <;> rfl

theorem kept_reset_true (env : Env) {I : State → Prop}
    (hI : delay_property env I) (st : State) (cont_src : cont_src_en)
    (hinv : I st) :
    I (reset_dataplane env st cont_src true) :=
  kept_congr env hI (reset_dataplane_true_delays env st cont_src) hinv

/-- The tick constants when 50 seconds of ticks fit in 64 bits. -/
theorem retry_ticks_values (env : Env)
    (hz : (RETRY_MAX_DELAY_SEC + RETRY_MIN_SEC) * env.timer_hz < 2 ^ 64) :
    RETRY_MIN_TICKS env = 10 * env.timer_hz ∧ RETRY_MAX_DELAY_TICKS env = 40 * env.timer_hz := by
  unfold RETRY_MIN_TICKS RETRY_MAX_DELAY_TICKS
  unfold RETRY_MAX_DELAY_SEC RETRY_MIN_SEC at *
  constructor
  · exact Nat.mod_eq_of_lt (by omega)
  · exact Nat.mod_eq_of_lt (by omega)

theorem kept_timer_event (env : Env) {I : State → Prop} (hI : delay_property env I)
    (st : State) (cont_src : cont_src_en) (hinv : I st) :
    I (reset_timer_event env st cont_src) := by
  unfold reset_timer_event
  split
  · exact kept_same env hI hinv rfl
  · rename_i hmode
    split
    · exact kept_same env hI hinv rfl
    · rename_i hd
      apply kept_set env hI
      have hl : env.is_local_controller = false := by
        cases hx : env.is_local_controller
        · rfl
        · exact absurd (Or.inl hx) hmode
      have hsrc : cont_src = CONT_SRC_MAIN := by
        cases cont_src
        · rfl
        · exact absurd (Or.inr rfl) hmode
      subst hsrc
      exact hI.increment st hl (Nat.not_lt.mp hd) hinv

theorem kept_reset (env : Env) {I : State → Prop}
    (hI : delay_property env I) (st : State) (cont_src : cont_src_en)
    (delay : Bool) (hinv : I st) :
    I (reset_dataplane env st cont_src delay) := by
  cases delay with
  | true => exact kept_reset_true env hI st cont_src hinv
  | false =>
    rw [reset_dataplane_immediate]
    apply kept_timer_event env hI _ cont_src
    apply hI.write_min
    exact kept_of_master_time env hI (flushed_master_time env st cont_src) hinv

theorem kept_timer_run (env : Env) {I : State → Prop}
    (hI : delay_property env I) (st : State) (fct : timer_fn)
    (hinv : I st) : I (fct.run env st) := by
  cases fct with
  | reset_timer_event src => exact kept_timer_event env hI st src hinv
  | connect_timeout src =>
    show I (connect_timeout env st src)
    unfold connect_timeout
    split
    · exact kept_reset_true env hI st src hinv
    · exact hinv
  | snapshot_timeout src =>
    show I (snapshot_timeout env st src)
    unfold snapshot_timeout
    split
    · exact kept_reset_true env hI st src hinv
    · exact hinv
  | expire_response src portid seqno =>
    exact kept_reset_true env hI st src hinv

theorem reset_timer_stopped_delays (st : State) (cont_src s : cont_src_en) :
    ((reset_timer_stopped st cont_src).master_time.get s).retry_delay
      = (st.master_time.get s).retry_delay := by
  cases cont_src <;> cases s <;> rfl

theorem kept_reset_timer_fire (env : Env) {I : State → Prop}
    (hI : delay_property env I) (st : State) (cont_src : cont_src_en)
    (hinv : I st) :
    I (reset_timer_fire env st cont_src) := by
  have hstop : I (reset_timer_stopped st cont_src) :=
    kept_congr env hI (reset_timer_stopped_delays st cont_src) hinv
  unfold reset_timer_fire
  dsimp only
  split
  · split
    · exact kept_timer_run env hI _ _ hstop
    · exact hstop
  · exact hinv

theorem setup_interfaces_master_time (env : Env) (c : Collab) (st : State)
    (startid num_ports : Nat) (cont_src : cont_src_en) (td : Bool) (seed : Nat) :
    (setup_interfaces env c st startid num_ports cont_src td seed).1.master_time
      = st.master_time := by
  unfold setup_interfaces
  split
  · rfl
  · obtain ⟨-, -, -, -, h5, -⟩ :=
      setup_loop_spec env c cont_src td seed
        (List.range' (startid % 256) (num_ports % 256)) 0 st
    rw [Nat.add_zero] at h5
    exact h5

theorem kept_drain (env : Env) {I : State → Prop}
    (hI : delay_property env I) (c : Collab) (cont_src : cont_src_en)
    (q : List zmsg_t) :
    ∀ st : State, I st →
      I (async_response_drain env c cont_src q st) := by
  induction q with
  | nil => intro st h; exact h
  | cons m rest ih =>
    intro st h
    by_cases hp : st.response_list.get cont_src = []
    · rw [drain_cons env c cont_src m rest st hp]
      split
      · exact kept_reset_true env hI _ cont_src
          (kept_same env hI h rfl)
      · split
        · exact kept_reset_true env hI _ cont_src
            (kept_same env hI h rfl)
        · split
          · apply ih
            apply kept_record env hI
            apply kept_set env hI
            exact kept_same env hI h rfl
          · apply ih
            exact kept_same env hI h rfl
    · rw [drain_pending env c cont_src _ st hp]
      exact h

theorem kept_message (env : Env) {I : State → Prop}
    (hI : delay_property env I) (c : Collab) (st : State) (cont_src : cont_src_en)
    (msg : zmsg_t) (hinv : I st) :
    I (async_response_msg env c st cont_src msg) := by
  unfold async_response_msg
  split
  · exact kept_reset_true env hI st cont_src hinv
  · split
    · exact kept_reset_true env hI st cont_src hinv
    · split
      · apply kept_drain env hI
        exact kept_of_master_time env hI (matched_facts c st cont_src _ msg).2.1 hinv
      · split
        · apply kept_drain env hI
          exact kept_same env hI hinv rfl
        · have hp : I (process_ready c st cont_src msg).1 := by
            rw [process_ready_fst]
            exact kept_record env hI st _ hinv
          show I
            (if (process_ready c st cont_src msg).2 < 0
              then reset_dataplane env (process_ready c st cont_src msg).1 cont_src true
              else (process_ready c st cont_src msg).1)
          split
          · exact kept_reset_true env hI _ cont_src hp
          · exact hp

theorem kept_arm_connect_timer (env : Env) {I : State → Prop}
    (hI : delay_property env I) (st : State) (cont_src : cont_src_en)
    (timeout : Nat) (hinv : I st) :
    I (arm_connect_timer st cont_src timeout) :=
  kept_congr env hI (fun s => by cases cont_src <;> cases s <;> rfl) hinv

theorem kept_arm_snapshot_timer (env : Env) {I : State → Prop}
    (hI : delay_property env I) (st : State) (cont_src : cont_src_en)
    (hinv : I st) :
    I (arm_snapshot_timer st cont_src) :=
  kept_congr env hI (fun s => by cases cont_src <;> cases s <;> rfl) hinv

theorem kept_loop (env : Env) {I : State → Prop}
    (hI : delay_property env I) (c : Collab) (st : State) (cont_src : cont_src_en)
    (hinv : I st) :
    I (master_loop_switch env c id st cont_src) := by
  unfold master_loop_switch
  split
  · unfold master_loop_idle
    by_cases h1 : env.is_local_controller = true ∨ cont_src = CONT_SRC_UPLINK
    · simp only [if_pos h1]
      split
      · exact kept_set env hI _ _ _ (kept_set env hI st cont_src _ hinv)
      · exact kept_set env hI st cont_src _ hinv
    · simp only [if_neg h1]
      split
      · exact kept_set env hI st _ _ hinv
      · exact hinv
  · show I
      (if c.console_bind cont_src = 0 then
        master_state_set env (record st [ext_call.console_bind cont_src]) cont_src
          MASTER_CONNECT
       else record st [ext_call.console_bind cont_src])
    split
    · exact kept_set env hI _ _ _ (kept_record env hI st _ hinv)
    · exact kept_record env hI st _ hinv
  · rw [master_loop_connect_eq]
    have h1 := kept_record env hI st
      [ext_call.init_controller_connection cont_src] hinv
    split
    · exact hinv
    · split
      · split
        · exact kept_reset_true env hI _ _ (kept_record env hI _ _
            (kept_reset_true env hI _ _ h1))
        · exact kept_record env hI _ _ (kept_reset_true env hI _ _ h1)
      · split
        · exact kept_reset_true env hI _ _ (kept_record env hI _ _
            (kept_arm_connect_timer env hI _ _ _
              (kept_set env hI _ _ _ h1)))
        · exact kept_record env hI _ _
            (kept_arm_connect_timer env hI _ _ _
              (kept_set env hI _ _ _ h1))
  · have h1 := kept_record env hI st
      [ext_call.try_controller_response cont_src] hinv
    show I
      (if c.try_controller_response cont_src < 0 then
        (if c.try_controller_response cont_src ≠ -EAGAIN then
          reset_dataplane env (record st [ext_call.try_controller_response cont_src])
            cont_src true
         else record st [ext_call.try_controller_response cont_src])
       else master_state_set env (record st [ext_call.try_controller_response cont_src])
         cont_src MASTER_SETUP)
    split
    · split
      · exact kept_reset_true env hI _ _ h1
      · exact h1
    · exact kept_set env hI _ _ _ h1
  · have h1 : I (setup_interfaces env c
        (record st [ext_call.conf_query cont_src, ext_call.controller_init cont_src])
        0 c.nb_ports cont_src false c.random).1 :=
      kept_of_master_time env hI
        (setup_interfaces_master_time env c _ 0 c.nb_ports cont_src false c.random)
        (kept_record env hI st _ hinv)
    show I
      (if (setup_interfaces env c
            (record st [ext_call.conf_query cont_src, ext_call.controller_init cont_src])
            0 c.nb_ports cont_src false c.random).2 < 0
       then reset_dataplane env (setup_interfaces env c
            (record st [ext_call.conf_query cont_src, ext_call.controller_init cont_src])
            0 c.nb_ports cont_src false c.random).1 cont_src true
       else master_state_set env (setup_interfaces env c
            (record st [ext_call.conf_query cont_src, ext_call.controller_init cont_src])
            0 c.nb_ports cont_src false c.random).1 cont_src MASTER_RESYNC_NEEDED)
    split
    · exact kept_reset_true env hI _ _ h1
    · exact kept_set env hI _ _ _ h1
  · have h1 := kept_record env hI st
      [ext_call.dp_unregister_event_socket cont_src,
       ext_call.register_event_socket_src cont_src,
       ext_call.controller_snapshot cont_src] hinv
    show I
      (if c.controller_snapshot cont_src < 0 then
        reset_dataplane env (record st
          [ext_call.dp_unregister_event_socket cont_src,
           ext_call.register_event_socket_src cont_src,
           ext_call.controller_snapshot cont_src]) cont_src true
       else arm_snapshot_timer (master_state_set env (record st
          [ext_call.dp_unregister_event_socket cont_src,
           ext_call.register_event_socket_src cont_src,
           ext_call.controller_snapshot cont_src]) cont_src MASTER_RESYNC) cont_src)
    split
    · exact kept_reset_true env hI _ _ h1
    · exact kept_arm_snapshot_timer env hI _ _ (kept_set env hI _ _ _ h1)
  · exact hinv
  · exact hinv
  · exact hinv

theorem kept_control_intf (env : Env) {I : State → Prop}
    (hI : delay_property env I) (lib : AddrCollab) (st : State)
    (cfg : config_s) (ifp : ifnet) (family : Nat) (addr : List Nat) (add : Bool)
    (hinv : I st) :
    I (master_control_intf env lib st cfg ifp family addr add).1 := by
  unfold master_control_intf
  split
  · exact hinv
  · split
    · exact hinv
    · split
      · exact hinv
      · split
        · exact hinv
        · split
          · split
            · exact hinv
            · split
              · exact kept_of_master_time env hI
                  (by dsimp only; split <;> rfl) hinv
              · exact hinv
          · split
            · exact hinv
            · dsimp only
              apply kept_set env hI
              exact kept_of_master_time env hI (by dsimp only; split <;> rfl) hinv

theorem kept_addr_sig (env : Env) {I : State → Prop}
    (hI : delay_property env I) (lib : AddrCollab) (st : State)
    (cfg : config_s) (ifp : Option ifnet) (family : Nat) (addr : List Nat) (add : Bool)
    (hinv : I st) :
    I (master_addr_sig env lib st cfg ifp family addr add).1 := by
  cases ifp with
  | none => exact hinv
  | some i => exact kept_control_intf env hI lib st cfg i _ addr add hinv

/-- Every operation of the model keeps the invariant on the retry delays. -/
theorem kept_step (env : Env) {I : State → Prop}
    (hI : delay_property env I)
    {st st1 : State} (hstep : master_step env st st1) (hinv : I st) :
    I st1 := by
  cases hstep with
  | state_set cont_src new_state => exact kept_set env hI st cont_src new_state hinv
  | reset cont_src delay => exact kept_reset env hI st cont_src delay hinv
  | timer_event fct => exact kept_timer_run env hI st fct hinv
  | reset_timer_expiry cont_src => exact kept_reset_timer_fire env hI st cont_src hinv
  | loop_iteration c cont_src => exact kept_loop env hI c st cont_src hinv
  | message c cont_src msg => exact kept_message env hI c st cont_src msg hinv
  | registration c startid num_ports cont_src is_teardown seed =>
    exact kept_of_master_time env hI
      (setup_interfaces_master_time env c st startid num_ports cont_src is_teardown seed) hinv
  | addr_add lib cfg cont_src ifp family addr =>
    unfold master_addr_sig_add
    split
    · exact hinv
    · exact kept_addr_sig env hI lib st cfg ifp family addr true hinv
  | addr_del lib cfg cont_src ifp family addr =>
    unfold master_addr_sig_del
    split
    · exact hinv
    · exact kept_addr_sig env hI lib st cfg ifp family addr false hinv
  | soft_clock =>
    unfold soft_clock_event
    split
    · exact hinv
    · exact kept_same env hI hinv rfl
  | soft_clock_enable => exact kept_same env hI hinv rfl
  | soft_clock_disable => exact kept_same env hI hinv rfl

/-- Every operation of the model keeps such a property; so it holds in every
reachable state once it holds after the prologue of `master_loop`. -/
theorem kept_reachable (env : Env) {I : State → Prop} (hI : delay_property env I)
    (hinit : ∀ st0 : State, I (master_loop_init env st0))
    {st : State} (hr : reachable_state env st) : I st := by
  induction hr with
  | start st0 => exact hinit st0
  | next st0 st1 _ hstep ih => exact kept_step env hI hstep ih

theorem min_delay_inv_property (env : Env) : delay_property env (min_delay_inv env) := by
  refine ⟨?_, ?_, ?_⟩
  · intro st st1 h hinv
    unfold min_delay_inv at hinv ⊢
    rw [h CONT_SRC_MAIN, h CONT_SRC_UPLINK]
    exact hinv
  · intro st cont_src hinv
    unfold min_delay_inv at hinv ⊢
    obtain ⟨hl, hu⟩ := hinv
    cases cont_src with
    | CONT_SRC_MAIN => exact ⟨fun _ => set_retry_delay_get_self _ _ _, hu⟩
    | CONT_SRC_UPLINK => exact ⟨hl, fun _ => set_retry_delay_get_self _ _ _⟩
  · intro st hmode _ hinv
    unfold min_delay_inv at hinv ⊢
    obtain ⟨-, hu⟩ := hinv
    refine ⟨fun hx => ?_, hu⟩
    rw [hmode] at hx
    exact absurd hx (by decide)

theorem min_delay_inv_init (env : Env) (st : State) :
    min_delay_inv env (master_loop_init env st) := by
  unfold min_delay_inv master_loop_init
  cases hl : env.is_local_controller
  · refine ⟨(fun hx => absurd hx (by decide)), fun _ => ?_⟩
    simp [master_init_src, per_src.get, per_src.set]
  · refine ⟨(fun _ => ?_), fun hx => absurd hx (by decide)⟩
    simp [master_init_src, per_src.get, per_src.set]

/-- With a local controller the retry delay of the main source, and with a
remote controller that of the uplink source, is RETRY_MIN_TICKS in every
reachable state. -/
theorem min_delay_inv_reachable (env : Env) {st : State} (hr : reachable_state env st) :
    min_delay_inv env st :=
  kept_reachable env (min_delay_inv_property env) (min_delay_inv_init env) hr

theorem retry_delay_inv_property (env : Env)
    (hz : (RETRY_MAX_DELAY_SEC + RETRY_MIN_SEC) * env.timer_hz < 2 ^ 64) :
    delay_property env (retry_delay_inv env) := by
  refine ⟨?_, ?_, ?_⟩
  · intro st st1 h hinv
    unfold retry_delay_inv at hinv ⊢
    rw [h CONT_SRC_MAIN, h CONT_SRC_UPLINK]
    exact hinv
  · intro st cont_src hinv
    unfold retry_delay_inv at hinv ⊢
    obtain ⟨⟨⟨k, hk1, hk2⟩, hb⟩, hl, hu⟩ := hinv
    cases cont_src with
    | CONT_SRC_MAIN =>
      refine ⟨⟨⟨1, le_refl 1, ?_⟩, ?_⟩, fun _ => ?_, fun hm => ?_⟩
      · rw [set_retry_delay_get_self, Nat.one_mul]
      · rw [set_retry_delay_get_self]
        exact Nat.le_add_left _ _
      · exact set_retry_delay_get_self _ _ _
      · exact hu hm
    | CONT_SRC_UPLINK =>
      refine ⟨⟨⟨k, hk1, hk2⟩, hb⟩, hl, fun _ => ?_⟩
      exact set_retry_delay_get_self _ _ _
  · intro st hl hd1 hinv
    obtain ⟨hmin, hmax⟩ := retry_ticks_values env hz
    unfold retry_delay_inv at hinv ⊢
    obtain ⟨⟨⟨k, hk1, hk2⟩, -⟩, -, hu⟩ := hinv
    have hsum : (st.master_time.get CONT_SRC_MAIN).retry_delay + RETRY_MIN_TICKS env
        < 2 ^ 64 := by
      unfold RETRY_MAX_DELAY_SEC RETRY_MIN_SEC at hz
      omega
    have hget : ((set_retry_delay st CONT_SRC_MAIN
        (((st.master_time.get CONT_SRC_MAIN).retry_delay + RETRY_MIN_TICKS env)
          % 2 ^ 64)).master_time.get CONT_SRC_MAIN).retry_delay
        = (st.master_time.get CONT_SRC_MAIN).retry_delay + RETRY_MIN_TICKS env := by
      rw [set_retry_delay_get_self, Nat.mod_eq_of_lt hsum]
    refine ⟨⟨⟨k + 1, by omega, ?_⟩, ?_⟩, fun hx => ?_, fun hx => ?_⟩
    · rw [hget, hk2, Nat.add_mul, Nat.one_mul]
    · rw [hget]
      exact Nat.add_le_add_right hd1 _
    · rw [hl] at hx
      cases hx
    · exact hu hx

theorem retry_delay_inv_init (env : Env) (st : State) :
    retry_delay_inv env (master_loop_init env st) := by
  unfold retry_delay_inv master_loop_init
  cases hl : env.is_local_controller
  · refine ⟨⟨⟨1, le_refl 1, ?_⟩, ?_⟩, (fun hx => absurd hx (by decide)), fun _ => ?_⟩
    · simp [master_init_src, per_src.get, per_src.set]
    · simp [master_init_src, per_src.get, per_src.set]
    · simp [master_init_src, per_src.get, per_src.set]
  · refine ⟨⟨⟨1, le_refl 1, ?_⟩, ?_⟩, (fun _ => ?_), fun hx => absurd hx (by decide)⟩
    · simp [master_init_src, per_src.get, per_src.set]
    · simp [master_init_src, per_src.get, per_src.set]
    · simp [master_init_src, per_src.get, per_src.set]

theorem retry_delay_inv_reachable (env : Env)
    (hz : (RETRY_MAX_DELAY_SEC + RETRY_MIN_SEC) * env.timer_hz < 2 ^ 64)
    {st : State} (hr : reachable_state env st) : retry_delay_inv env st :=
  kept_reachable env (retry_delay_inv_property env hz) (retry_delay_inv_init env) hr

/-! ## Claims on the retry delays -/

/-- C10: `st` is a state reached from the prologue of `master_loop`, and `src`
is a source that the prologue initialises: the main source, or the uplink
source with a remote controller.  When `src` is not in Ready,
`master_state_set(src, MASTER_READY)` leaves it in Ready with the retry delay
RETRY_MIN_TICKS, whatever the retry delay was before. -/
theorem C10_ready_retry_delay (env : Env) (st : State) (src : cont_src_en)
    (hr : reachable_state env st)
    (hinit : src = CONT_SRC_MAIN ∨ env.is_local_controller = false)
    (hne : master_state_get st src ≠ MASTER_READY) :
    master_state_get (master_state_set env st src MASTER_READY) src = MASTER_READY
      ∧ ((master_state_set env st src MASTER_READY).master_time.get src).retry_delay
          = RETRY_MIN_TICKS env := by
  refine ⟨set_master_state_get_self _ _ _ _, ?_⟩
  obtain ⟨hl, hu⟩ := min_delay_inv_reachable env hr
  by_cases hc : env.is_local_controller = false ∧ src = CONT_SRC_MAIN
  · obtain ⟨hmode, hsrc⟩ := hc
    subst hsrc
    rw [set_master_time, if_pos ⟨hmode, rfl, rfl, hne⟩]
    simp
  · have hkeep : (master_state_set env st src MASTER_READY).master_time = st.master_time := by
      rw [set_master_time, if_neg]
      rintro ⟨h1, h2, -, -⟩
      exact hc ⟨h1, h2⟩
    rw [hkeep]
    cases hmode : env.is_local_controller
    · cases src with
      | CONT_SRC_MAIN => exact absurd ⟨hmode, rfl⟩ hc
      | CONT_SRC_UPLINK => exact hu hmode
    · rcases hinit with h | h
      · subst h
        exact hl hmode
      · rw [hmode] at h
        exact absurd h (by decide)

theorem C10_ready_retry_delay_witness :
    master_state_get
        (master_state_set env_remote
          (reset_timer_fire env_remote
            (reset_dataplane env_remote (master_loop_init env_remote static_state)
              CONT_SRC_MAIN true) CONT_SRC_MAIN) CONT_SRC_MAIN MASTER_READY)
        CONT_SRC_MAIN = MASTER_READY
      ∧ ((master_state_set env_remote
          (reset_timer_fire env_remote
            (reset_dataplane env_remote (master_loop_init env_remote static_state)
              CONT_SRC_MAIN true) CONT_SRC_MAIN) CONT_SRC_MAIN
          MASTER_READY).master_time.get CONT_SRC_MAIN).retry_delay
          = RETRY_MIN_TICKS env_remote
      ∧ ((reset_timer_fire env_remote
          (reset_dataplane env_remote (master_loop_init env_remote static_state)
            CONT_SRC_MAIN true) CONT_SRC_MAIN).master_time.get CONT_SRC_MAIN).retry_delay
          = 2 * RETRY_MIN_TICKS env_remote
      ∧ ((master_state_set env_remote (master_loop_init env_remote static_state)
          CONT_SRC_UPLINK MASTER_READY).master_time.get CONT_SRC_UPLINK).retry_delay
          = RETRY_MIN_TICKS env_remote :=
  ⟨(C10_ready_retry_delay env_remote _ CONT_SRC_MAIN
      (reachable_state.next _ _
        (reachable_state.next _ _ (reachable_state.start static_state)
          (master_step.reset _ CONT_SRC_MAIN true))
        (master_step.reset_timer_expiry _ CONT_SRC_MAIN))
      (Or.inl rfl) (by decide)).1,
   (C10_ready_retry_delay env_remote _ CONT_SRC_MAIN
      (reachable_state.next _ _
        (reachable_state.next _ _ (reachable_state.start static_state)
          (master_step.reset _ CONT_SRC_MAIN true))
        (master_step.reset_timer_expiry _ CONT_SRC_MAIN))
      (Or.inl rfl) (by decide)).2,
   rfl,
   (C10_ready_retry_delay env_remote _ CONT_SRC_UPLINK
      (reachable_state.start static_state) (Or.inr rfl) (by decide)).2⟩

/-- C27, counterexample: with a local controller the prologue of `master_loop`
runs `master_init_src` for the main source only.  In the state it reaches,
the retry delay of the uplink source is the 0 of the zero-initialised
`master_time`: it is not RETRY_MIN_TICKS (10^10 ticks at 1 GHz) and not a
positive multiple of it. -/
theorem C27_uplink_delay_uninitialised :
    reachable_state env_local (master_loop_init env_local static_state)
      ∧ RETRY_MIN_TICKS env_local = 10000000000
      ∧ ((master_loop_init env_local static_state).master_time.get
          CONT_SRC_UPLINK).retry_delay = 0
      ∧ ((master_loop_init env_local static_state).master_time.get
          CONT_SRC_UPLINK).retry_delay ≠ RETRY_MIN_TICKS env_local
      ∧ ¬ ∃ k : Nat, 1 ≤ k
          ∧ ((master_loop_init env_local static_state).master_time.get
              CONT_SRC_UPLINK).retry_delay = k * RETRY_MIN_TICKS env_local := by
  have h0 : ((master_loop_init env_local static_state).master_time.get
      CONT_SRC_UPLINK).retry_delay = 0 := rfl
  have hmin : RETRY_MIN_TICKS env_local = 10000000000 := rfl
  refine ⟨reachable_state.start static_state, hmin, h0, ?_, ?_⟩
  · rw [h0, hmin]
    decide
  · rw [h0, hmin]
    rintro ⟨k, hk1, hk2⟩
    omega

/-- C27, amended: in every state reached from the prologue of `master_loop`
(which runs `master_init_src` for the main source and, with a remote
controller only, for the uplink source) by state changes, resets, timer
callbacks, expiries of the reset timer, iterations of the main loop, inbound
messages, port registrations, address notifications and soft clock
operations: with a local controller the retry delay of the main source
equals RETRY_MIN_TICKS, and with a remote controller the retry delay of the
uplink source equals RETRY_MIN_TICKS.  When 50 seconds of ticks fit in 64
bits, the retry delay of the main source is a multiple `k ≥ 1` of
RETRY_MIN_TICKS and at most RETRY_MAX_DELAY_TICKS + RETRY_MIN_TICKS, which is
50 seconds of ticks, and it is positive when the frequency is. -/
theorem C27_retry_delay_invariant (env : Env) (st : State)
    (hr : reachable_state env st) :
    (env.is_local_controller = true →
        (st.master_time.get CONT_SRC_MAIN).retry_delay = RETRY_MIN_TICKS env)
      ∧ (env.is_local_controller = false →
          (st.master_time.get CONT_SRC_UPLINK).retry_delay = RETRY_MIN_TICKS env)
      ∧ ((RETRY_MAX_DELAY_SEC + RETRY_MIN_SEC) * env.timer_hz < 2 ^ 64 →
          (∃ k : Nat, 1 ≤ k
              ∧ (st.master_time.get CONT_SRC_MAIN).retry_delay = k * RETRY_MIN_TICKS env)
            ∧ (st.master_time.get CONT_SRC_MAIN).retry_delay
                ≤ RETRY_MAX_DELAY_TICKS env + RETRY_MIN_TICKS env
            ∧ RETRY_MAX_DELAY_TICKS env + RETRY_MIN_TICKS env = 50 * env.timer_hz
            ∧ (0 < env.timer_hz → 0 < (st.master_time.get CONT_SRC_MAIN).retry_delay)
            ∧ (env.is_local_controller = false →
                (∃ k : Nat, 1 ≤ k
                  ∧ (st.master_time.get CONT_SRC_UPLINK).retry_delay
                    = k * RETRY_MIN_TICKS env)
                ∧ (st.master_time.get CONT_SRC_UPLINK).retry_delay
                    ≤ RETRY_MAX_DELAY_TICKS env + RETRY_MIN_TICKS env)) := by
  obtain ⟨hl, hu⟩ := min_delay_inv_reachable env hr
  refine ⟨hl, hu, fun hz => ?_⟩
  have hinv := retry_delay_inv_reachable env hz hr
  unfold retry_delay_inv at hinv
  obtain ⟨⟨⟨k, hk1, hk2⟩, hb⟩, -, -⟩ := hinv
  obtain ⟨hmin, hmax⟩ := retry_ticks_values env hz
  refine ⟨⟨k, hk1, hk2⟩, hb, by omega, fun hpos => ?_, fun hmode => ?_⟩
  · rw [hk2, hmin]
    exact Nat.mul_pos (by omega) (by omega)
  · rw [hu hmode]
    exact ⟨⟨1, le_refl 1, (Nat.one_mul _).symm⟩, Nat.le_add_left _ _⟩

theorem C27_retry_delay_invariant_witness :
    ((reset_timer_fire env_remote
        (reset_dataplane env_remote (master_loop_init env_remote static_state)
          CONT_SRC_MAIN true) CONT_SRC_MAIN).master_time.get CONT_SRC_MAIN).retry_delay
        ≤ RETRY_MAX_DELAY_TICKS env_remote + RETRY_MIN_TICKS env_remote
      ∧ ((reset_timer_fire env_remote
          (reset_dataplane env_remote (master_loop_init env_remote static_state)
            CONT_SRC_MAIN true) CONT_SRC_MAIN).master_time.get CONT_SRC_UPLINK).retry_delay
          = RETRY_MIN_TICKS env_remote
      ∧ ((reset_dataplane env_local (master_loop_init env_local static_state)
          CONT_SRC_MAIN false).master_time.get CONT_SRC_MAIN).retry_delay
          = RETRY_MIN_TICKS env_local :=
  ⟨((C27_retry_delay_invariant env_remote _
      (reachable_state.next _ _
        (reachable_state.next _ _ (reachable_state.start static_state)
          (master_step.reset _ CONT_SRC_MAIN true))
        (master_step.reset_timer_expiry _ CONT_SRC_MAIN))).2.2 (by decide)).2.1,
   (C27_retry_delay_invariant env_remote _
      (reachable_state.next _ _
        (reachable_state.next _ _ (reachable_state.start static_state)
          (master_step.reset _ CONT_SRC_MAIN true))
        (master_step.reset_timer_expiry _ CONT_SRC_MAIN))).2.1 rfl,
   (C27_retry_delay_invariant env_local _
      (reachable_state.next _ _ (reachable_state.start static_state)
        (master_step.reset _ CONT_SRC_MAIN false))).1 rfl⟩

/-! ## A registration followed by its answers: facts -/

/-- With every allocation succeeding, the Setup case registers the eligible
ports and moves on to ResyncNeeded. -/
theorem master_loop_setup_ok (env : Env) (c : Collab) (st : State) (cont_src : cont_src_en)
    (hn : c.nb_ports < 256) (hmax : c.nb_ports ≤ c.DATAPLANE_MAX_PORTS)
    (halloc : ∀ p ∈ List.range' 0 c.nb_ports,
      c.malloc_response p = true ∧ c.zmsg_new p = true ∧ c.if_port_info p = true) :
    master_state_get (master_loop_setup env c st cont_src) cont_src = MASTER_RESYNC_NEEDED
      ∧ (master_loop_setup env c st cont_src).response_list.get cont_src
        = st.response_list.get cont_src
          ++ List.zipWith (fun p i => expected_response cont_src false
                (st.master_time.get cont_src).retry_delay p ((c.random + i) % 2 ^ 64))
              ((List.range' 0 c.nb_ports).filter (port_eligible env c cont_src))
              (List.range' 1
                ((List.range' 0 c.nb_ports).filter (port_eligible env c cont_src)).length)
      ∧ (master_loop_setup env c st cont_src).resync_list.get cont_src
        = st.resync_list.get cont_src := by
  have hreg := setup_registered_all env c cont_src false (List.range' 0 c.nb_ports)
    (fun p hp => Or.inr (by simp [(halloc p hp).2.1, (halloc p hp).2.2]))
  have hfilter : (List.range' 0 c.nb_ports).filter
        (fun p => port_eligible env c cont_src p && c.malloc_response p)
      = (List.range' 0 c.nb_ports).filter (port_eligible env c cont_src) := by
    apply List.filter_congr
    intro p hp
    simp [(halloc p hp).1]
  rw [hfilter] at hreg
  obtain ⟨h1, h2, -, -, -, h6, -⟩ :=
    setup_loop_spec env c cont_src false c.random (List.range' 0 c.nb_ports) 0
      (record st [ext_call.conf_query cont_src, ext_call.controller_init cont_src])
  rw [hreg] at h1 h2
  rw [← setup_interfaces_valid env c _ 0 c.nb_ports cont_src false c.random (by decide) hn
    (by omega)] at h1 h2 h6
  have hrc : ¬ (setup_interfaces env c
      (record st [ext_call.conf_query cont_src, ext_call.controller_init cont_src])
      0 c.nb_ports cont_src false c.random).2 < 0 := by
    rw [h1]
    simp
  have heq : master_loop_setup env c st cont_src
      = master_state_set env (setup_interfaces env c
          (record st [ext_call.conf_query cont_src, ext_call.controller_init cont_src])
          0 c.nb_ports cont_src false c.random).1 cont_src MASTER_RESYNC_NEEDED := by
    show (if (setup_interfaces env c
            (record st [ext_call.conf_query cont_src, ext_call.controller_init cont_src])
            0 c.nb_ports cont_src false c.random).2 < 0
          then reset_dataplane env (setup_interfaces env c
            (record st [ext_call.conf_query cont_src, ext_call.controller_init cont_src])
            0 c.nb_ports cont_src false c.random).1 cont_src true
          else master_state_set env (setup_interfaces env c
            (record st [ext_call.conf_query cont_src, ext_call.controller_init cont_src])
            0 c.nb_ports cont_src false c.random).1 cont_src MASTER_RESYNC_NEEDED) = _
    rw [if_neg hrc]
  rw [heq]
  refine ⟨set_master_state_get_self _ _ _ _, ?_, ?_⟩
  · rw [set_response_list_self _ _ _ _ (by decide), h2]
    rfl
  · rw [set_resync_list_self _ _ _ _ (by decide), h6]
    rfl

/-- With the snapshot request accepted, the ResyncNeeded case moves on to
Resync and leaves the lists of the source as they were. -/
theorem master_loop_resync_needed_ok (env : Env) (c : Collab) (st : State)
    (cont_src : cont_src_en) (hsnap : 0 ≤ c.controller_snapshot cont_src) :
    master_state_get (master_loop_resync_needed env c st cont_src) cont_src = MASTER_RESYNC
      ∧ (master_loop_resync_needed env c st cont_src).response_list.get cont_src
        = st.response_list.get cont_src
      ∧ (master_loop_resync_needed env c st cont_src).resync_list.get cont_src
        = st.resync_list.get cont_src := by
  have heq : master_loop_resync_needed env c st cont_src
      = arm_snapshot_timer (master_state_set env (record st
          [ext_call.dp_unregister_event_socket cont_src,
           ext_call.register_event_socket_src cont_src,
           ext_call.controller_snapshot cont_src]) cont_src MASTER_RESYNC) cont_src := by
    show (if c.controller_snapshot cont_src < 0 then _ else _) = _
    rw [if_neg (not_lt.mpr hsnap)]
  rw [heq]
  refine ⟨set_master_state_get_self _ _ _ _, ?_, ?_⟩
  · show (master_state_set env _ cont_src MASTER_RESYNC).response_list.get cont_src = _
    rw [set_response_list_self _ _ _ _ (by decide)]
    rfl
  · show (master_state_set env _ cont_src MASTER_RESYNC).resync_list.get cont_src = _
    rw [set_resync_list_self _ _ _ _ (by decide)]
    rfl

/-- An answer handled while nothing is stashed: the expected response is
taken off the list and nothing else of the session changes. -/
theorem answer_step (env : Env) (c : Collab) (st : State) (cont_src : cont_src_en)
    (msg : zmsg_t) (rsp : response) (h2 : 2 ≤ msg.length)
    (h8 : (msg.getD 1 []).length = 8)
    (hfind : find_response st cont_src (msg_seqno msg) = some rsp)
    (hq : st.resync_list.get cont_src = []) :
    (async_response_msg env c st cont_src msg).master_state = st.master_state
      ∧ (async_response_msg env c st cont_src msg).response_list.get cont_src
        = (st.response_list.get cont_src).erase rsp
      ∧ (async_response_msg env c st cont_src msg).resync_list.get cont_src = [] := by
  rw [async_msg_matched env c st cont_src msg rsp h2 h8 hfind, hq]
  show (async_response_matched c st cont_src rsp msg).master_state = _ ∧ _
  obtain ⟨f1, -, f3, -⟩ := matched_facts c st cont_src rsp msg
  refine ⟨f1, f3, ?_⟩
  show (async_response_matched c st cont_src rsp msg).resync_list.get cont_src = []
  rw [matched_resync_list, hq]

/-- The message that reports the end of the snapshot, handled in Resync when
no response is expected and nothing is stashed. -/
theorem eof_step (env : Env) (c : Collab) (st : State) (cont_src : cont_src_en)
    (msg : zmsg_t) (h2 : 2 ≤ msg.length) (h8 : (msg.getD 1 []).length = 8)
    (hs : st.master_state.get cont_src = MASTER_RESYNC)
    (hl : st.response_list.get cont_src = [])
    (hq : st.resync_list.get cont_src = [])
    (hconv : 0 ≤ c.dpmsg_convert_zmsg msg)
    (hrc : 0 ≤ (c.process_snapshot_one cont_src msg).1)
    (heof : (c.process_snapshot_one cont_src msg).2 = true) :
    (async_response_msg env c st cont_src msg).master_state.get cont_src = MASTER_READY
      ∧ (async_response_msg env c st cont_src msg).response_list.get cont_src = []
      ∧ (async_response_msg env c st cont_src msg).resync_list.get cont_src = [] := by
  have hfind : find_response st cont_src (msg_seqno msg) = none := by
    unfold find_response
    rw [hl]
    rfl
  rw [async_msg_stash env c st cont_src msg h2 h8 hfind hs, hq, List.nil_append]
  obtain ⟨d1, -, d3⟩ := drain_all_ok env c cont_src [msg]
    (with_resync_list st cont_src [msg]) (by simpa using hl) (by simp)
    (by
      intro m hm
      rw [List.mem_singleton] at hm
      subst hm
      exact ⟨hconv, hrc⟩)
  refine ⟨?_, ?_, d1⟩
  · rw [d3]
    simp [heof]
  · rw [drain_response_list]
    simpa using hl

/-- The answers to two expected responses, in either order, handled while
nothing is stashed: both responses are taken off the list. -/
theorem two_answers (env : Env) (c : Collab) (st : State) (cont_src : cont_src_en)
    (e1 e2 : response) (ma mb : zmsg_t)
    (hl : st.response_list.get cont_src = [e1, e2])
    (hq : st.resync_list.get cont_src = [])
    (hne : e1.seqno ≠ e2.seqno)
    (ha2 : 2 ≤ ma.length) (ha8 : (ma.getD 1 []).length = 8) (has : msg_seqno ma = e1.seqno)
    (hb2 : 2 ≤ mb.length) (hb8 : (mb.getD 1 []).length = 8) (hbs : msg_seqno mb = e2.seqno) :
    ((async_response_seq env c cont_src [ma, mb] st).master_state = st.master_state
        ∧ (async_response_seq env c cont_src [ma, mb] st).response_list.get cont_src = []
        ∧ (async_response_seq env c cont_src [ma, mb] st).resync_list.get cont_src = [])
      ∧ ((async_response_seq env c cont_src [mb, ma] st).master_state = st.master_state
        ∧ (async_response_seq env c cont_src [mb, ma] st).response_list.get cont_src = []
        ∧ (async_response_seq env c cont_src [mb, ma] st).resync_list.get cont_src = []) := by
  have hne2 : e1 ≠ e2 := fun h => hne (by rw [h])
  constructor
  · show (async_response_msg env c (async_response_msg env c st cont_src ma) cont_src
        mb).master_state = _ ∧ _
    have hf1 : find_response st cont_src (msg_seqno ma) = some e1 := by
      unfold find_response
      rw [hl, has]
      simp
    obtain ⟨a1, a2, a3⟩ := answer_step env c st cont_src ma e1 ha2 ha8 hf1 hq
    rw [hl] at a2
    have a2b : (async_response_msg env c st cont_src ma).response_list.get cont_src
        = [e2] := by
      rw [a2]
      simp
    have hf2 : find_response (async_response_msg env c st cont_src ma) cont_src
        (msg_seqno mb) = some e2 := by
      unfold find_response
      rw [a2b, hbs]
      simp
    obtain ⟨b1, b2, b3⟩ := answer_step env c _ cont_src mb e2 hb2 hb8 hf2 a3
    rw [a2b] at b2
    exact ⟨b1.trans a1, b2.trans (by simp), b3⟩
  · show (async_response_msg env c (async_response_msg env c st cont_src mb) cont_src
        ma).master_state = _ ∧ _
    have hf1 : find_response st cont_src (msg_seqno mb) = some e2 := by
      unfold find_response
      rw [hl, hbs]
      simp [hne]
    obtain ⟨a1, a2, a3⟩ := answer_step env c st cont_src mb e2 hb2 hb8 hf1 hq
    rw [hl] at a2
    have a2b : (async_response_msg env c st cont_src mb).response_list.get cont_src
        = [e1] := by
      rw [a2]
      simp [List.erase_cons, hne2]
    have hf2 : find_response (async_response_msg env c st cont_src mb) cont_src
        (msg_seqno ma) = some e1 := by
      unfold find_response
      rw [a2b, has]
      simp
    obtain ⟨b1, b2, b3⟩ := answer_step env c _ cont_src ma e1 ha2 ha8 hf2 a3
    rw [a2b] at b2
    exact ⟨b1.trans a1, b2.trans (by simp), b3⟩

/-! ## Claim on the two-port scenario -/

/-- C22: a source is in Setup with no response expected and nothing stashed,
as `master_init_src` leaves it; exactly two ports `p1`, `p2` of the inventory
are eligible (with a local controller: they exist and are not team ports),
every allocation succeeds and the snapshot request is accepted.  One
iteration of the main loop appends the two expected responses, numbered
`random + 1` and `random + 2`, and moves the source to ResyncNeeded; the next
iteration moves it to Resync.  When the two answers then arrive, in either
order, followed by a message that converts, applies and reports the end of
the snapshot, the source is in Ready, no response is expected and the resync
list is empty. -/
theorem C22_two_port_scenario (env : Env) (c : Collab) (next_event : State → State)
    (st : State) (src : cont_src_en) (p1 p2 : Nat) (ma mb eof : zmsg_t)
    (hs : master_state_get st src = MASTER_SETUP)
    (hpend : st.response_list.get src = [])
    (hstash : st.resync_list.get src = [])
    (hn : c.nb_ports < 256) (hmax : c.nb_ports ≤ c.DATAPLANE_MAX_PORTS)
    (helig : (List.range' 0 c.nb_ports).filter (port_eligible env c src) = [p1, p2])
    (halloc : ∀ p ∈ List.range' 0 c.nb_ports,
      c.malloc_response p = true ∧ c.zmsg_new p = true ∧ c.if_port_info p = true)
    (hsnap : 0 ≤ c.controller_snapshot src)
    (ha : 2 ≤ ma.length ∧ (ma.getD 1 []).length = 8
      ∧ msg_seqno ma = (c.random + 1) % 2 ^ 64)
    (hb : 2 ≤ mb.length ∧ (mb.getD 1 []).length = 8
      ∧ msg_seqno mb = (c.random + 2) % 2 ^ 64)
    (heof : 2 ≤ eof.length ∧ (eof.getD 1 []).length = 8
      ∧ 0 ≤ c.dpmsg_convert_zmsg eof ∧ 0 ≤ (c.process_snapshot_one src eof).1
      ∧ (c.process_snapshot_one src eof).2 = true) :
    master_state_get (master_loop_switch env c next_event st src) src = MASTER_RESYNC_NEEDED
      ∧ (master_loop_switch env c next_event st src).response_list.get src
        = [expected_response src false (st.master_time.get src).retry_delay p1
            ((c.random + 1) % 2 ^ 64),
           expected_response src false (st.master_time.get src).retry_delay p2
            ((c.random + 2) % 2 ^ 64)]
      ∧ master_state_get
          (master_loop_switch env c next_event (master_loop_switch env c next_event st src)
            src) src = MASTER_RESYNC
      ∧ (master_loop_switch env c next_event (master_loop_switch env c next_event st src)
          src).response_list.get src
        = (master_loop_switch env c next_event st src).response_list.get src
      ∧ (master_state_get
            (async_response_seq env c src [ma, mb, eof]
              (master_loop_switch env c next_event
                (master_loop_switch env c next_event st src) src)) src = MASTER_READY
          ∧ (async_response_seq env c src [ma, mb, eof]
              (master_loop_switch env c next_event
                (master_loop_switch env c next_event st src) src)).response_list.get src = []
          ∧ (async_response_seq env c src [ma, mb, eof]
              (master_loop_switch env c next_event
                (master_loop_switch env c next_event st src) src)).resync_list.get src = [])
      ∧ (master_state_get
            (async_response_seq env c src [mb, ma, eof]
              (master_loop_switch env c next_event
                (master_loop_switch env c next_event st src) src)) src = MASTER_READY
          ∧ (async_response_seq env c src [mb, ma, eof]
              (master_loop_switch env c next_event
                (master_loop_switch env c next_event st src) src)).response_list.get src = []
          ∧ (async_response_seq env c src [mb, ma, eof]
              (master_loop_switch env c next_event
                (master_loop_switch env c next_event st src) src)).resync_list.get src = [])
      ∧ (env.is_local_controller = true → ∀ p : Nat,
          port_eligible env c src p = true
            ↔ ∃ ifp, c.ifport_table p = some ifp ∧ ifp.is_team = false) := by
  have hs1 : master_loop_switch env c next_event st src = master_loop_setup env c st src := by
    simp only [master_loop_switch, hs]
  obtain ⟨s1, s2, s3⟩ := master_loop_setup_ok env c st src hn hmax halloc
  rw [helig, hpend] at s2
  have s2b : (master_loop_setup env c st src).response_list.get src
      = [expected_response src false (st.master_time.get src).retry_delay p1
          ((c.random + 1) % 2 ^ 64),
         expected_response src false (st.master_time.get src).retry_delay p2
          ((c.random + 2) % 2 ^ 64)] := by
    rw [s2]
    rfl
  rw [hstash] at s3
  have hs2 : master_loop_switch env c next_event (master_loop_setup env c st src) src
      = master_loop_resync_needed env c (master_loop_setup env c st src) src := by
    simp only [master_loop_switch, s1]
  obtain ⟨r1, r2, r3⟩ := master_loop_resync_needed_ok env c (master_loop_setup env c st src)
    src hsnap
  rw [s3] at r3
  have hne : (expected_response src false (st.master_time.get src).retry_delay p1
        ((c.random + 1) % 2 ^ 64)).seqno
      ≠ (expected_response src false (st.master_time.get src).retry_delay p2
        ((c.random + 2) % 2 ^ 64)).seqno := by
    show (c.random + 1) % 2 ^ 64 ≠ (c.random + 2) % 2 ^ 64
    omega
  obtain ⟨⟨t1, t2, t3⟩, ⟨u1, u2, u3⟩⟩ := two_answers env c
    (master_loop_resync_needed env c (master_loop_setup env c st src) src) src _ _ ma mb
    (r2.trans s2b) r3 hne ha.1 ha.2.1 ha.2.2 hb.1 hb.2.1 hb.2.2
  have r1b : (master_loop_resync_needed env c (master_loop_setup env c st src)
      src).master_state.get src = MASTER_RESYNC := r1
  have e1 := eof_step env c _ src eof heof.1 heof.2.1 (by rw [t1]; exact r1b) t2 t3
    heof.2.2.1 heof.2.2.2.1 heof.2.2.2.2
  have e2 := eof_step env c _ src eof heof.1 heof.2.1 (by rw [u1]; exact r1b) u2 u3
    heof.2.2.1 heof.2.2.2.1 heof.2.2.2.2
  rw [hs1, hs2]
  refine ⟨s1, s2b, r1, r2, e1, e2, ?_⟩
  intro hl p
  rw [port_eligible_iff]
  constructor
  · rintro ⟨ifp, h1, -, h3⟩
    exact ⟨ifp, h1, h3⟩
  · rintro ⟨ifp, h1, h3⟩
    exact ⟨ifp, h1, Or.inl hl, h3⟩

theorem C22_two_port_scenario_witness :
    master_state_get
        (async_response_seq env_local collab_two_ports CONT_SRC_MAIN
          [msg_ok_1001 5, msg_ok_1002, msg_unsolicited]
          (master_loop_switch env_local collab_two_ports id
            (master_loop_switch env_local collab_two_ports id (st_local MASTER_SETUP)
              CONT_SRC_MAIN) CONT_SRC_MAIN)) CONT_SRC_MAIN = MASTER_READY
      ∧ (async_response_seq env_local collab_two_ports CONT_SRC_MAIN
          [msg_ok_1002, msg_ok_1001 5, msg_unsolicited]
          (master_loop_switch env_local collab_two_ports id
            (master_loop_switch env_local collab_two_ports id (st_local MASTER_SETUP)
              CONT_SRC_MAIN) CONT_SRC_MAIN)).response_list.get CONT_SRC_MAIN = [] :=
  ⟨(C22_two_port_scenario env_local collab_two_ports id (st_local MASTER_SETUP) CONT_SRC_MAIN
      0 1 (msg_ok_1001 5) msg_ok_1002 msg_unsolicited rfl rfl rfl (by decide) (by decide)
      (by decide) (by decide) (by decide) (by decide) (by decide) (by decide)).2.2.2.2.1.1,
   (C22_two_port_scenario env_local collab_two_ports id (st_local MASTER_SETUP) CONT_SRC_MAIN
      0 1 (msg_ok_1001 5) msg_ok_1002 msg_unsolicited rfl rfl rfl (by decide) (by decide)
      (by decide) (by decide) (by decide) (by decide) (by decide) (by decide)).2.2.2.2.2.1.2.1⟩

end Master
